import Mathlib

/-!
# Built-in functions of the Sass evaluator (`functions.cpp`)

A shallow embedding of `namespace Sass::Functions` and theorems about it.

Conventions of the embedding.

* `double` is the field `ℚ` and arithmetic is exact, with one exception: the
  sum `x + 0.5` under the `std::floor` of `round` is rounded to the nearest
  `double` (`to_double`), because the integer returned depends on it.
* A `Node` is a value. Copying a node (`Node r(bindings[...])`) and cloning it
  (`.clone()`) both give the same value; sharing of children between copies
  is not part of this model. The section `Nodes in memory` models it, for
  the built-ins that assign to a node they took from the map.
* `map<Token, Node>& bindings` is passed in and handed back: every built-in
  `f(parameters, bindings)` is a function to a pair of the outcome and the
  map after the call. `bindings[k]` adds a default node under `k` when `k`
  is absent, which is the one way a call changes the map.
* A call ends with a node, with the `Error` thrown by `eval_error`, or with
  the `out_of_range` raised by indexing a node beyond its children.
* `node.hpp`, `token.hpp`, `prelexer.hpp`, `error.hpp` and `functions.hpp`
  are not part of the translated file. What `functions.cpp` uses of them is
  modelled in the first section, each definition saying so.
-/

namespace Sass

/-! ## The value model used by `functions.cpp` -/

/-- Modelled from the spec: `Token` (token.hpp) is a slice of the source
text; the model keeps the text of the slice. -/
structure Token where
  text : String
deriving DecidableEq, Repr

namespace Token

/-- Modelled from the spec: `Token::make(const char*)`, the token spanning a
literal. -/
def make (s : String) : Token := ⟨s⟩

/-- Modelled from the spec: `Token::make(begin, end)`, the token spanning
`begin .. end`; `stop` is the offset of `end` from `begin`, and a scanner
that matched nothing gives the empty token. -/
def make_range (s : String) (stop : Option Nat) : Token :=
  ⟨String.mk (s.toList.take (stop.getD 0))⟩

/-- Modelled from the spec: `Token::to_string`, the text of the slice. -/
def to_string (t : Token) : String := t.text

/-- Modelled from the spec: `Token::unquote`, the text of a literal without
its enclosing quotes; a token that does not open with a quote is returned
as it is. Escape sequences are not interpreted. -/
def unquote (t : Token) : String :=
  match t.text.toList with
  | [] => ""
  | c :: cs =>
    if c = Char.ofNat 34 ∨ c = Char.ofNat 39 then String.mk cs.dropLast
    else t.text

end Token

namespace Prelexer

/-- The characters that continue an identifier. -/
def identifier_char (c : Char) : Bool :=
  c.isAlphanum || c = Char.ofNat 45 || c = Char.ofNat 95

/-- Modelled from the spec: `Prelexer::identifier` (prelexer.hpp) matches an
identifier at the start of the text and returns where it ends: an optional
hyphen, a letter or underscore, then letters, digits, hyphens and
underscores. `none` is the null pointer of a failed match. -/
def identifier (s : String) : Option Nat :=
  let cs := s.toList
  let body := if cs.head? = some (Char.ofNat 45) then cs.tail else cs
  match body with
  | [] => none
  | c :: rest =>
    if c.isAlpha || c = Char.ofNat 95 then
      some ((cs.length - body.length) + 1 + (rest.takeWhile identifier_char).length)
    else none

/-- Offset just past the first unescaped occurrence of the quote `q`. -/
def closing_quote (q : Char) : List Char → Option Nat
  | [] => none
  | c :: cs =>
    if c = q then some 1
    else if c = Char.ofNat 92 then
      match cs with
      | [] => none
      | _ :: cs2 => (closing_quote q cs2).map (· + 2)
    else (closing_quote q cs).map (· + 1)

/-- Modelled from the spec: `Prelexer::string_constant` matches a quoted
literal at the start of the text and returns where it ends, `none` when the
text does not start with one. -/
def string_constant (s : String) : Option Nat :=
  match s.toList with
  | [] => none
  | c :: cs =>
    if c = Char.ofNat 34 ∨ c = Char.ofNat 39 then (closing_quote c cs).map (· + 1)
    else none

end Prelexer

/-- Modelled from the spec: `Error::Type` (error.hpp). `functions.cpp` names
only `evaluation`; the kinds raised elsewhere are one constructor here. -/
inductive ErrorType where
  | evaluation
  | elsewhere
deriving DecidableEq, Repr

/-- Modelled from the spec: `Error` (error.hpp), built in `eval_error` as
`Error(Error::evaluation, line_number, fn, message)`. -/
structure Error where
  type : ErrorType
  line_number : Nat
  file_name : String
  message : String
deriving DecidableEq, Repr

/-- What a call can raise: the `Error` of `eval_error`, or the
`std::out_of_range` of `Node::operator[]` on a missing child. -/
inductive Exception where
  | error (e : Error)
  | out_of_range
deriving DecidableEq, Repr

/-- Modelled from the spec: the tags of `Node::Type` (node.hpp) that
`functions.cpp` names, with `none` (the tag of `Node()`) and `identifier`
standing for the tags it does not name. -/
inductive NodeType where
  | none
  | nil
  | number
  | numeric_dimension
  | numeric_percentage
  | numeric_color
  | string_constant
  | boolean
  | comma_list
  | space_list
  | identifier
deriving DecidableEq, Repr

/-- Modelled from the spec: `Dimension` (node.hpp), the payload
`content.dimension` with its magnitude and the text of its unit. -/
structure Dimension where
  numeric_value : ℚ
  unit : String
deriving DecidableEq, Repr

/-- Modelled from the spec: the `content` of a node (node.hpp), a union in
the source. The model keeps one field per member that `functions.cpp`
reads or writes, so that each access path of the source has its own field;
a value uses the members its tag calls for. -/
structure Content (N : Type) where
  token : Token
  children : List N
  dimension : Dimension
  numeric_value : ℚ
  boolean_value : Bool

/-- Modelled from the spec: `Node` (node.hpp): tag, provenance, the
`unquoted` flag and the content. -/
inductive Node where
  | mk (type : NodeType) (line_number : Nat) (file_name : Option String)
      (unquoted : Bool) (content : Content Node)

namespace Node

/-- The tag `type`. -/
def type : Node → NodeType
  | mk t _ _ _ _ => t

/-- The field `line_number`. -/
def line_number : Node → Nat
  | mk _ l _ _ _ => l

/-- The field `file_name`, `none` for a null pointer. -/
def file_name : Node → Option String
  | mk _ _ f _ _ => f

/-- The flag `unquoted`. -/
def unquoted : Node → Bool
  | mk _ _ _ u _ => u

/-- The member `content`. -/
def content : Node → Content Node
  | mk _ _ _ _ c => c

/-- Assignment `n.type = t`. -/
def set_type (n : Node) (t : NodeType) : Node :=
  mk t n.line_number n.file_name n.unquoted n.content

/-- Assignment `n.line_number = l`. -/
def set_line_number (n : Node) (l : Nat) : Node :=
  mk n.type l n.file_name n.unquoted n.content

/-- Assignment `n.unquoted = u`. -/
def set_unquoted (n : Node) (u : Bool) : Node :=
  mk n.type n.line_number n.file_name u n.content

/-- Assignment to a member of `n.content`. -/
def set_content (n : Node) (c : Content Node) : Node :=
  mk n.type n.line_number n.file_name n.unquoted c

/-- The content of a freshly constructed node. -/
def empty_content : Content Node :=
  { token := Token.make "", children := [], dimension := ⟨0, ""⟩,
    numeric_value := 0, boolean_value := false }

/-- Modelled from the spec: `Node()`, the node `bindings[k]` stores under a
key that was absent. -/
def default : Node := mk NodeType.none 0 Option.none false empty_content

/-- Modelled from the spec: `Node(Type t)` and `Node(Type t, line)`. -/
def of_type (t : NodeType) (line : Nat) : Node :=
  mk t line Option.none false empty_content

/-- Modelled from the spec: `Node(Type t, line, size_t n)`, a node with
room for `n` children and none yet. -/
def with_capacity (t : NodeType) (line : Nat) (_size : Nat) : Node :=
  mk t line Option.none false empty_content

/-- Modelled from the spec: `Node(line, double v)`, a plain number. -/
def of_number (line : Nat) (v : ℚ) : Node :=
  mk NodeType.number line Option.none false { empty_content with numeric_value := v }

/-- Modelled from the spec: `Node(Type t, line, Token tok)`. -/
def of_token (t : NodeType) (line : Nat) (tok : Token) : Node :=
  mk t line Option.none false { empty_content with token := tok }

/-- Modelled from the spec: `Node(line, r, g, b, a)`, the colour with the
four channels as plain numbers. -/
def of_rgba (line : Nat) (r g b a : ℚ) : Node :=
  mk NodeType.numeric_color line Option.none false
    { empty_content with
      children := [of_number line r, of_number line g, of_number line b, of_number line a] }

/-- Modelled from the spec: `Node::size()`, the number of children. -/
def size (n : Node) : Nat := n.content.children.length

/-- Modelled from the spec: `operator<<`, append one child. -/
def push (n c : Node) : Node :=
  n.set_content { n.content with children := n.content.children ++ [c] }

/-- Modelled from the spec: `operator+=`, append the children of `m`. -/
def append (n m : Node) : Node :=
  n.set_content { n.content with children := n.content.children ++ m.content.children }

/-- Modelled from the spec: `operator[]` as a read, `children->at(i)`. -/
def index (n : Node) (i : Nat) : Except Exception Node :=
  match n.content.children.get? i with
  | some c => Except.ok c
  | Option.none => Except.error Exception.out_of_range

/-- Modelled from the spec: `operator[]` as the target of an assignment,
`n[i] = c`. -/
def set_index (n : Node) (i : Nat) (c : Node) : Except Exception Node :=
  if i < n.size then
    Except.ok (n.set_content { n.content with children := n.content.children.set i c })
  else Except.error Exception.out_of_range

/-- Modelled from the spec: `Node::clone()`, a deep copy: the same value. -/
def clone (n : Node) : Node := n

/-- Modelled from the spec: `Node::is_numeric()`. -/
def is_numeric (n : Node) : Bool :=
  match n.type with
  | NodeType.number => true
  | NodeType.numeric_percentage => true
  | NodeType.numeric_dimension => true
  | _ => false

/-- Modelled from the spec: `Node::numeric_value()`, the magnitude stored
where the tag says, and 0 for a tag that has none. -/
def numeric_value (n : Node) : ℚ :=
  match n.type with
  | NodeType.number => n.content.numeric_value
  | NodeType.numeric_percentage => n.content.numeric_value
  | NodeType.numeric_dimension => n.content.dimension.numeric_value
  | _ => 0

/-- Assignment `n.content.numeric_value = v`. -/
def set_numeric_value (n : Node) (v : ℚ) : Node :=
  n.set_content { n.content with numeric_value := v }

/-- Assignment `n.content.dimension.numeric_value = v`. -/
def set_dimension_value (n : Node) (v : ℚ) : Node :=
  n.set_content { n.content with dimension := { n.content.dimension with numeric_value := v } }

/-- Assignment `n.content.boolean_value = b`. -/
def set_boolean_value (n : Node) (b : Bool) : Node :=
  n.set_content { n.content with boolean_value := b }

/-- Assignment `n.content.token = t`. -/
def set_token (n : Node) (t : Token) : Node :=
  n.set_content { n.content with token := t }

end Node

/-- The caller's map `map<Token, Node>`, as its entries. -/
structure Bindings where
  entries : List (Token × Node)

namespace Bindings

/-- The node bound to `k`, if any. -/
def find (b : Bindings) (k : Token) : Option Node :=
  (b.entries.find? (fun e => e.1 = k)).map Prod.snd

/-- The expression `bindings[k]`: the node bound to `k` and the map after
the access, which has gained `k ↦ Node()` when `k` was absent. -/
def index (b : Bindings) (k : Token) : Node × Bindings :=
  match b.find k with
  | some v => (v, b)
  | none => (Node.default, ⟨b.entries ++ [(k, Node.default)]⟩)

end Bindings

/-- The expression `parameters[i]`. The caller passes the parameter names
of the descriptor; past the end the model reads the empty token. -/
def param (parameters : List Token) (i : Nat) : Token :=
  parameters.getD i (Token.make "")

/-- Modelled from the spec: `Function_Descriptor` (functions.hpp), the name
of a built-in followed by its parameter names. -/
abbrev Function_Descriptor := List String

/-- The parameter names of a descriptor as the caller passes them. -/
def Function_Descriptor.parameters (d : Function_Descriptor) : List Token :=
  d.tail.map Token.make

/-- Modelled from the spec: the caller binds the arguments of a call site to
the parameter names, in order. -/
def bind_arguments (parameters : List Token) (arguments : List Node) : Bindings :=
  ⟨parameters.zip arguments⟩

/-- Modelled from the spec: truncation of a `double` to `int`
(`static_cast<int>`), toward zero. Values outside the range of `int` are
undefined in the source and not distinguished here. -/
def static_cast_int (x : ℚ) : ℤ :=
  if 0 ≤ x then ⌊x⌋ else ⌈x⌉

/-- The integer nearest to `q`; a `q` half way between two integers goes to
the even one. -/
def round_half_even (q : ℚ) : ℤ :=
  if q - ⌊q⌋ < 1 / 2 then ⌊q⌋
  else if 1 / 2 < q - ⌊q⌋ then ⌊q⌋ + 1
  else if ⌊q⌋ % 2 = 0 then ⌊q⌋
  else ⌊q⌋ + 1

/-- The spacing of the `double`s (IEEE 754 binary64, 53 significant bits)
around `y`: `2 ^ (e - 52)` where `2 ^ e ≤ |y| < 2 ^ (e + 1)`, and
`2 ^ (-1074)` below the least normal magnitude `2 ^ (-1022)`. -/
def double_ulp (y : ℚ) : ℚ :=
  (2 : ℚ) ^ (max (Int.log 2 |y|) (-1022) - 52)

/-- The `double` that an arithmetic operation of exact result `y` yields:
the multiple of the spacing around `y` nearest to `y`, ties to the even
multiple (the default rounding mode). The exponent has no upper limit
here: the sum of a finite `double` and `0.5`, the one place where the
rounding is applied, never overflows. -/
def to_double (y : ℚ) : ℚ :=
  (round_half_even (y / double_ulp y) : ℚ) * double_ulp y

/-! ## `namespace Functions` -/

namespace Functions

/-- The static `eval_error`: decodes the file name (the quoted literal at
its start when there is one, the whole text otherwise, empty for a null
pointer) and throws `Error(Error::evaluation, line_number, fn, message)`.
It never returns. -/
def eval_error {α : Type} (message : String) (line_number : Nat)
    (file_name : Option String) : Except Exception α :=
  let fn : String :=
    match file_name with
    | none => ""
    | some f =>
      match Prelexer.string_constant f with
      | some stop => String.mk (f.toList.take stop)
      | none => f
  Except.error (Exception.error ⟨ErrorType.evaluation, line_number, fn, message⟩)

/-! ### RGB functions -/

/-- The descriptor of `rgb`. -/
def rgb_descriptor : Function_Descriptor := ["rgb", "$red", "$green", "$blue"]

/-- The built-in `rgb`. -/
def rgb (parameters : List Token) (bindings : Bindings) : Except Exception Node × Bindings :=
  let a0 := bindings.index (param parameters 0)
  let r := a0.1
  let a1 := a0.2.index (param parameters 1)
  let g := a1.1
  let a2 := a1.2.index (param parameters 2)
  let b := a2.1
  (if ¬(r.type = NodeType.number ∧ g.type = NodeType.number ∧ b.type = NodeType.number) then
      eval_error "arguments for rgb must be numbers" r.line_number r.file_name
    else
      let color := Node.with_capacity NodeType.numeric_color 0 4
      Except.ok ((((color.push r).push g).push b).push (Node.of_number 0 1)),
    a2.2)

/-- The descriptor of the four-argument `rgba`. -/
def rgba_4_descriptor : Function_Descriptor := ["rgba", "$red", "$green", "$blue", "$alpha"]

/-- The built-in `rgba_4`. -/
def rgba_4 (parameters : List Token) (bindings : Bindings) : Except Exception Node × Bindings :=
  let a0 := bindings.index (param parameters 0)
  let r := a0.1
  let a1 := a0.2.index (param parameters 1)
  let g := a1.1
  let a2 := a1.2.index (param parameters 2)
  let b := a2.1
  let a3 := a2.2.index (param parameters 3)
  let a := a3.1
  (if ¬(r.type = NodeType.number ∧ g.type = NodeType.number ∧ b.type = NodeType.number
        ∧ a.type = NodeType.number) then
      eval_error "arguments for rgba must be numbers" r.line_number r.file_name
    else
      let color := Node.with_capacity NodeType.numeric_color 0 4
      Except.ok ((((color.push r).push g).push b).push a),
    a3.2)

/-- The descriptor of the two-argument `rgba`. -/
def rgba_2_descriptor : Function_Descriptor := ["rgba", "$color", "$alpha"]

/-- The built-in `rgba_2`: the right-hand side `bindings[parameters[1]]` is
read before the assignment to `color[3]`. -/
def rgba_2 (parameters : List Token) (bindings : Bindings) : Except Exception Node × Bindings :=
  let a0 := bindings.index (param parameters 0)
  let color := a0.1.clone
  let a1 := a0.2.index (param parameters 1)
  (color.set_index 3 a1.1, a1.2)

/-- The descriptor of `red`. -/
def red_descriptor : Function_Descriptor := ["red", "$color"]

/-- The built-in `red`. -/
def red (parameters : List Token) (bindings : Bindings) : Except Exception Node × Bindings :=
  let a0 := bindings.index (param parameters 0)
  let color := a0.1
  (if color.type ≠ NodeType.numeric_color then
      eval_error "argument to red must be a color" color.line_number color.file_name
    else color.index 0,
    a0.2)

/-- The descriptor of `green`. -/
def green_descriptor : Function_Descriptor := ["green", "$color"]

/-- The built-in `green`. -/
def green (parameters : List Token) (bindings : Bindings) : Except Exception Node × Bindings :=
  let a0 := bindings.index (param parameters 0)
  let color := a0.1
  (if color.type ≠ NodeType.numeric_color then
      eval_error "argument to green must be a color" color.line_number color.file_name
    else color.index 1,
    a0.2)

/-- The descriptor of `blue`. -/
def blue_descriptor : Function_Descriptor := ["blue", "$color"]

/-- The built-in `blue`. -/
def blue (parameters : List Token) (bindings : Bindings) : Except Exception Node × Bindings :=
  let a0 := bindings.index (param parameters 0)
  let color := a0.1
  (if color.type ≠ NodeType.numeric_color then
      eval_error "argument to blue must be a color" color.line_number color.file_name
    else color.index 2,
    a0.2)

/-- One round of the loop of `mix_impl`: channel `i` of the mix is pushed
on `mixed`. -/
def mix_channel (color1 color2 : Node) (w1 w2 : ℚ) (mixed : Node) (i : Nat) :
    Except Exception Node := do
  let c1 ← color1.index i
  let c2 ← color2.index i
  pure (mixed.push (Node.of_number mixed.line_number
    (w1 * c1.content.numeric_value + w2 * c2.content.numeric_value)))

/-- The helper `mix_impl(color1, color2, weight)`; the default
`weight = 50` of the source is passed by `mix_2`. -/
def mix_impl (color1 color2 : Node) (weight : ℚ) : Except Exception Node :=
  if ¬(color1.type = NodeType.numeric_color ∧ color2.type = NodeType.numeric_color) then
    eval_error "first two arguments to mix must be colors" color1.line_number color1.file_name
  else do
    let p := weight / 100
    let w := 2 * p - 1
    let c13 ← color1.index 3
    let c23 ← color2.index 3
    let a := c13.content.numeric_value - c23.content.numeric_value
    let w1 := ((if w * a = -1 then w else (w + a) / (1 + w * a)) + 1) / 2
    let w2 := 1 - w1
    let mixed := Node.with_capacity NodeType.numeric_color color1.line_number 4
    let mixed ← [0, 1, 2].foldlM (mix_channel color1 color2 w1 w2) mixed
    let alpha := c13.content.numeric_value * p + c23.content.numeric_value * (1 - p)
    pure (mixed.push (Node.of_number mixed.line_number alpha))

/-- The descriptor of the two-argument `mix`. -/
def mix_2_descriptor : Function_Descriptor := ["mix", "$color1", "$color2"]

/-- The built-in `mix_2`; the arguments of `mix_impl` are read left to
right. -/
def mix_2 (parameters : List Token) (bindings : Bindings) : Except Exception Node × Bindings :=
  let a0 := bindings.index (param parameters 0)
  let a1 := a0.2.index (param parameters 1)
  (mix_impl a0.1 a1.1 50, a1.2)

/-- The descriptor of the three-argument `mix`. -/
def mix_3_descriptor : Function_Descriptor := ["mix", "$color1", "$color2", "$weight"]

/-- The built-in `mix_3`; the arguments of `mix_impl` are read left to
right, after the weight. -/
def mix_3 (parameters : List Token) (bindings : Bindings) : Except Exception Node × Bindings :=
  let a2 := bindings.index (param parameters 2)
  let percentage := a2.1
  if ¬(percentage.type = NodeType.number ∨ percentage.type = NodeType.numeric_percentage
        ∨ percentage.type = NodeType.numeric_dimension) then
    (eval_error "third argument to mix must be numeric" percentage.line_number
      percentage.file_name, a2.2)
  else
    let a0 := a2.2.index (param parameters 0)
    let a1 := a0.2.index (param parameters 1)
    (mix_impl a0.1 a1.1 percentage.numeric_value, a1.2)

/-! ### HSL functions -/

/-- The helper `h_to_rgb`. -/
def h_to_rgb (m1 m2 h : ℚ) : ℚ :=
  let h := if h < 0 then h + 1 else h
  let h := if h > 1 then h - 1 else h
  if h * 6 < 1 then m1 + (m2 - m1) * h * 6
  else if h * 2 < 1 then m2
  else if h * 3 < 2 then m1 + (m2 - m1) * (2 / 3 - h) * 6
  else m1

/-- The hue as `hsla_impl` rescales it: `int` remainder is truncated. -/
def hsla_hue (h : ℚ) : ℚ :=
  ((Int.tmod (Int.tmod (static_cast_int h) 360 + 360) 360 : ℤ) : ℚ) / 360

/-- The helper `hsla_impl(h, s, l, a)`; the default `a = 1` of the source
is passed by `hsl`. -/
def hsla_impl (h s l a : ℚ) : Node :=
  let h := hsla_hue h
  let s := s / 100
  let l := l / 100
  let m2 := if l ≤ 1 / 2 then l * (s + 1) else l + s - l * s
  let m1 := l * 2 - m2
  let r := h_to_rgb m1 m2 (h + 1 / 3) * 255
  let g := h_to_rgb m1 m2 h * 255
  let b := h_to_rgb m1 m2 (h - 1 / 3) * 255
  Node.of_rgba 0 r g b a

/-- The descriptor of `hsla`. -/
def hsla_descriptor : Function_Descriptor :=
  ["hsla", "$hue", "$saturation", "$lightness", "$alpha"]

/-- The built-in `hsla`. The conjunction of the guard stops at the first
argument that is not numeric, so the later ones are not read then. Once a
key has been read it is bound, and reading it again gives the same node and
leaves the map as it is (`Bindings.index_index`): the later reads of the
source use the nodes of the first ones. -/
def hsla (parameters : List Token) (bindings : Bindings) : Except Exception Node × Bindings :=
  let a0 := bindings.index (param parameters 0)
  let raise : Except Exception Node :=
    eval_error "arguments to hsla must be numeric" a0.1.line_number a0.1.file_name
  if ¬ a0.1.is_numeric then (raise, a0.2) else
  let a1 := a0.2.index (param parameters 1)
  if ¬ a1.1.is_numeric then (raise, a1.2) else
  let a2 := a1.2.index (param parameters 2)
  if ¬ a2.1.is_numeric then (raise, a2.2) else
  let a3 := a2.2.index (param parameters 3)
  if ¬ a3.1.is_numeric then (raise, a3.2) else
  let h := a0.1.numeric_value
  let s := a1.1.numeric_value
  let l := a2.1.numeric_value
  let a := a3.1.numeric_value
  let color := hsla_impl h s l a
  (Except.ok (color.set_line_number a0.1.line_number), a3.2)

/-- The descriptor of `hsl`. -/
def hsl_descriptor : Function_Descriptor := ["hsl", "$hue", "$saturation", "$lightness"]

/-- The built-in `hsl`, with the reads handled as in `hsla`. -/
def hsl (parameters : List Token) (bindings : Bindings) : Except Exception Node × Bindings :=
  let a0 := bindings.index (param parameters 0)
  let raise : Except Exception Node :=
    eval_error "arguments to hsl must be numeric" a0.1.line_number a0.1.file_name
  if ¬ a0.1.is_numeric then (raise, a0.2) else
  let a1 := a0.2.index (param parameters 1)
  if ¬ a1.1.is_numeric then (raise, a1.2) else
  let a2 := a1.2.index (param parameters 2)
  if ¬ a2.1.is_numeric then (raise, a2.2) else
  let h := a0.1.numeric_value
  let s := a1.1.numeric_value
  let l := a2.1.numeric_value
  let color := hsla_impl h s l 1
  (Except.ok (color.set_line_number a0.1.line_number), a2.2)

/-- The descriptor of `invert`. -/
def invert_descriptor : Function_Descriptor := ["invert", "$color"]

/-- The built-in `invert`. -/
def invert (parameters : List Token) (bindings : Bindings) : Except Exception Node × Bindings :=
  let a0 := bindings.index (param parameters 0)
  let orig := a0.1
  (if orig.type ≠ NodeType.numeric_color then
      eval_error "argument to invert must be a color" orig.line_number orig.file_name
    else do
      let c0 ← orig.index 0
      let c1 ← orig.index 1
      let c2 ← orig.index 2
      let c3 ← orig.index 3
      pure (Node.of_rgba orig.line_number
        (255 - c0.content.numeric_value)
        (255 - c1.content.numeric_value)
        (255 - c2.content.numeric_value)
        c3.content.numeric_value),
    a0.2)

/-! ### Opacity functions -/

/-- The descriptor of `alpha`. -/
def alpha_descriptor : Function_Descriptor := ["alpha", "$color"]

/-- The descriptor of `opacity`, bound to `alpha`. -/
def opacity_descriptor : Function_Descriptor := ["opacity", "$color"]

/-- The built-in `alpha`. -/
def alpha (parameters : List Token) (bindings : Bindings) : Except Exception Node × Bindings :=
  let a0 := bindings.index (param parameters 0)
  let color := a0.1
  (if color.type ≠ NodeType.numeric_color then
      eval_error "argument to alpha must be a color" color.line_number color.file_name
    else color.index 3,
    a0.2)

/-- The descriptor of `opacify`. -/
def opacify_descriptor : Function_Descriptor := ["opacify", "$color", "$amount"]

/-- The descriptor of `fade_in`, bound to `opacify`. -/
def fade_in_descriptor : Function_Descriptor := ["fade_in", "$color", "$amount"]

/-- The built-in `opacify`: the amount is read before `cpy[3]` is. -/
def opacify (parameters : List Token) (bindings : Bindings) : Except Exception Node × Bindings :=
  let a0 := bindings.index (param parameters 0)
  let cpy := a0.1.clone
  let a1 := a0.2.index (param parameters 1)
  (do
    let c ← cpy.index 3
    let cpy ← cpy.set_index 3
      (c.set_numeric_value (c.content.numeric_value + a1.1.content.numeric_value))
    let c ← cpy.index 3
    if c.content.numeric_value ≥ 1 then cpy.set_index 3 (c.set_numeric_value 1)
    else pure cpy,
    a1.2)

/-- The descriptor of `transparentize`. -/
def transparentize_descriptor : Function_Descriptor := ["transparentize", "$color", "$amount"]

/-- The descriptor of `fade_out`, bound to `transparentize`. -/
def fade_out_descriptor : Function_Descriptor := ["fade_out", "$color", "$amount"]

/-- The built-in `transparentize`: the amount is read before `cpy[3]` is. -/
def transparentize (parameters : List Token) (bindings : Bindings) :
    Except Exception Node × Bindings :=
  let a0 := bindings.index (param parameters 0)
  let cpy := a0.1.clone
  let a1 := a0.2.index (param parameters 1)
  (do
    let c ← cpy.index 3
    let cpy ← cpy.set_index 3
      (c.set_numeric_value (c.content.numeric_value - a1.1.content.numeric_value))
    let c ← cpy.index 3
    if c.content.numeric_value ≤ 0 then cpy.set_index 3 (c.set_numeric_value 0)
    else pure cpy,
    a1.2)

/-! ### String functions -/

/-- The descriptor of `unquote`. -/
def unquote_descriptor : Function_Descriptor := ["unquote", "$string"]

/-- The built-in `unquote`. -/
def unquote (parameters : List Token) (bindings : Bindings) : Except Exception Node × Bindings :=
  let a0 := bindings.index (param parameters 0)
  let cpy := a0.1.clone
  (Except.ok (cpy.set_unquoted true), a0.2)

/-- The descriptor of `quote`. -/
def quote_descriptor : Function_Descriptor := ["quote", "$string"]

/-- The built-in `quote`. -/
def quote (parameters : List Token) (bindings : Bindings) : Except Exception Node × Bindings :=
  let a0 := bindings.index (param parameters 0)
  let cpy := a0.1.clone
  (Except.ok ((cpy.set_type NodeType.string_constant).set_unquoted false), a0.2)

/-! ### Number functions -/

/-- The descriptor of `percentage`. -/
def percentage_descriptor : Function_Descriptor := ["percentage", "$value"]

/-- The built-in `percentage`. -/
def percentage (parameters : List Token) (bindings : Bindings) :
    Except Exception Node × Bindings :=
  let a0 := bindings.index (param parameters 0)
  let cpy := a0.1.clone
  let cpy := cpy.set_numeric_value (cpy.content.numeric_value * 100)
  (Except.ok (cpy.set_type NodeType.numeric_percentage), a0.2)

/-- The built-in `round`. The sum `x + 0.5` is a `double` operation, so
`std::floor` is applied to the sum as rounded to a `double`; `std::floor`
itself is exact and gives the integer as a `double`. -/
def round (parameters : List Token) (bindings : Bindings) : Except Exception Node × Bindings :=
  let a0 := bindings.index (param parameters 0)
  let cpy := a0.1.clone
  (Except.ok
    (if cpy.type = NodeType.numeric_dimension then
      cpy.set_dimension_value
        (⌊to_double (cpy.content.dimension.numeric_value + 1 / 2)⌋ : ℤ)
    else
      cpy.set_numeric_value (⌊to_double (cpy.content.numeric_value + 1 / 2)⌋ : ℤ)),
    a0.2)

/-- The descriptor of `ceil`. -/
def ceil_descriptor : Function_Descriptor := ["ceil", "$value"]

/-- The built-in `ceil`. -/
def ceil (parameters : List Token) (bindings : Bindings) : Except Exception Node × Bindings :=
  let a0 := bindings.index (param parameters 0)
  let cpy := a0.1.clone
  (Except.ok
    (if cpy.type = NodeType.numeric_dimension then
      cpy.set_dimension_value (⌈cpy.content.dimension.numeric_value⌉ : ℤ)
    else
      cpy.set_numeric_value (⌈cpy.content.numeric_value⌉ : ℤ)),
    a0.2)

/-- The built-in `floor`. -/
def floor (parameters : List Token) (bindings : Bindings) : Except Exception Node × Bindings :=
  let a0 := bindings.index (param parameters 0)
  let cpy := a0.1.clone
  (Except.ok
    (if cpy.type = NodeType.numeric_dimension then
      cpy.set_dimension_value (⌊cpy.content.dimension.numeric_value⌋ : ℤ)
    else
      cpy.set_numeric_value (⌊cpy.content.numeric_value⌋ : ℤ)),
    a0.2)

/-- The descriptor of `abs`. -/
def abs_descriptor : Function_Descriptor := ["abs", "$value"]

/-- The built-in `abs`. -/
def abs (parameters : List Token) (bindings : Bindings) : Except Exception Node × Bindings :=
  let a0 := bindings.index (param parameters 0)
  let cpy := a0.1.clone
  (Except.ok
    (if cpy.type = NodeType.numeric_dimension then
      cpy.set_dimension_value |cpy.content.dimension.numeric_value|
    else
      cpy.set_numeric_value |cpy.content.numeric_value|),
    a0.2)

/-! ### List functions -/

/-- The descriptor of `length`. -/
def length_descriptor : Function_Descriptor := ["length", "$list"]

/-- The built-in `length`. -/
def length (parameters : List Token) (bindings : Bindings) : Except Exception Node × Bindings :=
  let a0 := bindings.index (param parameters 0)
  let arg := a0.1
  (Except.ok
    (if arg.type = NodeType.space_list ∨ arg.type = NodeType.comma_list then
      Node.of_number arg.line_number arg.size
    else if arg.type = NodeType.nil then
      Node.of_number arg.line_number 0
    else
      Node.of_number arg.line_number 1),
    a0.2)

/-- The descriptor of `nth`. -/
def nth_descriptor : Function_Descriptor := ["nth", "$list", "$n"]

/-- The built-in `nth`. The index `n - 1` is a `double` converted to
`size_t`, that is truncated; a negative index, undefined in the source, is
out of range here. -/
def nth (parameters : List Token) (bindings : Bindings) : Except Exception Node × Bindings :=
  let a0 := bindings.index (param parameters 0)
  let l := a0.1
  let l :=
    if l.type ≠ NodeType.space_list ∧ l.type ≠ NodeType.comma_list then
      (Node.with_capacity NodeType.space_list l.line_number 1).push l
    else l
  let a1 := a0.2.index (param parameters 1)
  let i := static_cast_int (a1.1.content.numeric_value - 1)
  (if i < 0 then Except.error Exception.out_of_range else l.index i.toNat, a1.2)

/-- The constant `separator_kwd`. -/
def separator_kwd : String := "$separator"

/-- The helper `join_impl`. The note written to `cerr` when an operand is
wrapped into a list is not part of the model. With `has_sep = false`
(the default of the source, passed by `join_2`) the third parameter is not
read. -/
def join_impl (parameters : List Token) (bindings : Bindings) (has_sep : Bool) :
    Except Exception Node × Bindings :=
  let a0 := bindings.index (param parameters 0)
  let l1 := a0.1
  let l1 :=
    if l1.type ≠ NodeType.space_list ∧ l1.type ≠ NodeType.comma_list
        ∧ l1.type ≠ NodeType.nil then
      (Node.with_capacity NodeType.space_list l1.line_number 1).push l1
    else l1
  let a1 := a0.2.index (param parameters 1)
  let l2 := a1.1
  let l2 :=
    if l2.type ≠ NodeType.space_list ∧ l2.type ≠ NodeType.comma_list
        ∧ l2.type ≠ NodeType.nil then
      (Node.with_capacity NodeType.space_list l2.line_number 1).push l2
    else l2
  if l1.type = NodeType.nil ∧ l2.type = NodeType.nil then
    (Except.ok (Node.of_type NodeType.nil l1.line_number), a1.2)
  else
    let size := 0
    let size := if l1.type ≠ NodeType.nil then size + l1.size else size
    let size := if l2.type ≠ NodeType.nil then size + l2.size else size
    let lr := Node.with_capacity NodeType.space_list l1.line_number size
    let typed : Node × Bindings :=
      if has_sep then
        let a2 := a1.2.index (param parameters 2)
        let sep := a2.1.content.token.unquote
        (if sep = "comma" then lr.set_type NodeType.comma_list else lr, a2.2)
      else if l1.type ≠ NodeType.nil then (lr.set_type l1.type, a1.2)
      else if l2.type ≠ NodeType.nil then (lr.set_type l2.type, a1.2)
      else (lr, a1.2)
    let lr := typed.1
    let lr := if l1.type ≠ NodeType.nil then lr.append l1 else lr
    let lr := if l2.type ≠ NodeType.nil then lr.append l2 else lr
    (Except.ok lr, typed.2)

/-- The descriptor of the two-argument `join`. -/
def join_2_descriptor : Function_Descriptor := ["join", "$list1", "$list2"]

/-- The built-in `join_2`. -/
def join_2 (parameters : List Token) (bindings : Bindings) : Except Exception Node × Bindings :=
  join_impl parameters bindings false

/-- The descriptor of the three-argument `join`. -/
def join_3_descriptor : Function_Descriptor := ["join", "$list1", "$list2", "$separator"]

/-- The built-in `join_3`. -/
def join_3 (parameters : List Token) (bindings : Bindings) : Except Exception Node × Bindings :=
  join_impl parameters bindings true

/-! ### Introspection functions -/

/-- The constant `number_name`. -/
def number_name : String := "number"

/-- The constant `string_name`. -/
def string_name : String := "string"

/-- The constant `bool_name`. -/
def bool_name : String := "bool"

/-- The constant `color_name`. -/
def color_name : String := "color"

/-- The constant `list_name`. -/
def list_name : String := "list"

/-- The descriptor of `type_of`. -/
def type_of_descriptor : Function_Descriptor := ["type-of", "$value"]

/-- The built-in `type_of`. -/
def type_of (parameters : List Token) (bindings : Bindings) : Except Exception Node × Bindings :=
  let a0 := bindings.index (param parameters 0)
  let val := a0.1
  let type := Node.of_token NodeType.string_constant val.line_number (Token.make "")
  let type := type.set_unquoted true
  (Except.ok
    (match val.type with
     | NodeType.number => type.set_token (Token.make number_name)
     | NodeType.numeric_dimension => type.set_token (Token.make number_name)
     | NodeType.numeric_percentage => type.set_token (Token.make number_name)
     | NodeType.boolean => type.set_token (Token.make bool_name)
     | NodeType.string_constant => type.set_token (Token.make string_name)
     | NodeType.numeric_color => type.set_token (Token.make color_name)
     | NodeType.comma_list => type.set_token (Token.make list_name)
     | NodeType.space_list => type.set_token (Token.make list_name)
     | NodeType.nil => type.set_token (Token.make list_name)
     | _ => type.set_token (Token.make string_name)),
    a0.2)

/-- The constant `empty_str`. -/
def empty_str : String := ""

/-- The constant `percent_str`. -/
def percent_str : String := "%"

/-- The descriptor of `unit`. -/
def unit_descriptor : Function_Descriptor := ["unit", "$number"]

/-- The built-in `unit`. -/
def unit (parameters : List Token) (bindings : Bindings) : Except Exception Node × Bindings :=
  let a0 := bindings.index (param parameters 0)
  let val := a0.1
  let u := Node.of_token NodeType.string_constant val.line_number (Token.make "")
  (Except.ok
    (match val.type with
     | NodeType.number => u.set_token (Token.make empty_str)
     | NodeType.numeric_percentage => u.set_token (Token.make percent_str)
     | NodeType.numeric_dimension =>
       u.set_token (Token.make_range val.content.dimension.unit
         (Prelexer.identifier val.content.dimension.unit))
     | _ => u.set_token (Token.make empty_str)),
    a0.2)

/-- The constant `true_str`. -/
def true_str : String := "true"

/-- The constant `false_str`. -/
def false_str : String := "false"

/-- The boolean node the source builds in three statements: `Node T(Node::boolean)`,
then its line number, then its value. -/
def boolean_node (line : Nat) (value : Bool) : Node :=
  ((Node.of_type NodeType.boolean 0).set_line_number line).set_boolean_value value

/-- The descriptor of `unitless`. -/
def unitless_descriptor : Function_Descriptor := ["unitless", "$number"]

/-- The built-in `unitless`. -/
def unitless (parameters : List Token) (bindings : Bindings) : Except Exception Node × Bindings :=
  let a0 := bindings.index (param parameters 0)
  let val := a0.1
  let result := Node.of_token NodeType.string_constant val.line_number (Token.make "")
  let result := result.set_unquoted true
  (Except.ok
    (match val.type with
     | NodeType.number => boolean_node val.line_number true
     | NodeType.numeric_percentage => boolean_node val.line_number false
     | NodeType.numeric_dimension => boolean_node val.line_number false
     | _ => result),
    a0.2)

/-- The descriptor of `comparable`. -/
def comparable_descriptor : Function_Descriptor := ["comparable", "$number_1", "$number_2"]

/-- The built-in `comparable`. -/
def comparable (parameters : List Token) (bindings : Bindings) :
    Except Exception Node × Bindings :=
  let a0 := bindings.index (param parameters 0)
  let n1 := a0.1
  let a1 := a0.2.index (param parameters 1)
  let n2 := a1.1
  let t1 := n1.type
  let t2 := n2.type
  (Except.ok
    (if t1 = NodeType.number ∨ t2 = NodeType.number then
      boolean_node n1.line_number true
    else if t1 = NodeType.numeric_percentage ∧ t2 = NodeType.numeric_percentage then
      boolean_node n1.line_number true
    else if t1 = NodeType.numeric_dimension ∧ t2 = NodeType.numeric_dimension then
      let u1 := (Token.make_range n1.content.dimension.unit
        (Prelexer.identifier n1.content.dimension.unit)).to_string
      let u2 := (Token.make_range n2.content.dimension.unit
        (Prelexer.identifier n2.content.dimension.unit)).to_string
      if u1 = "ex" ∧ u2 = "ex" ∨
         u1 = "em" ∧ u2 = "em" ∨
         (u1 = "in" ∨ u1 = "cm" ∨ u1 = "mm" ∨ u1 = "pt" ∨ u1 = "pc") ∧
         (u2 = "in" ∨ u2 = "cm" ∨ u2 = "mm" ∨ u2 = "pt" ∨ u2 = "pc") then
        boolean_node n1.line_number true
      else
        boolean_node n1.line_number false
    else
      boolean_node n1.line_number false),
    a1.2)

/-! ### Boolean functions -/

/-- The descriptor of `not`. -/
def not_descriptor : Function_Descriptor := ["not", "value"]

/-- The built-in `not_impl`. -/
def not_impl (parameters : List Token) (bindings : Bindings) : Except Exception Node × Bindings :=
  let a0 := bindings.index (param parameters 0)
  let val := a0.1
  (Except.ok
    (if val.type = NodeType.boolean ∧ val.content.boolean_value = false then
      boolean_node val.line_number true
    else
      boolean_node val.line_number false),
    a0.2)

end Functions

/-! ## Notions of the specification

The definitions of this section follow the words of the specification, not
the source; the theorems compare the source with them. -/

namespace Spec

/-- The elements of a value as the list functions of the specification see
it: the children of a list, nothing for nil, the value itself for a
scalar. -/
def elements (v : Node) : List Node :=
  if v.type = NodeType.space_list ∨ v.type = NodeType.comma_list then v.content.children
  else if v.type = NodeType.nil then []
  else [v]

/-- The length of a value in the specification: the element count of a
list, 0 for nil, 1 for a scalar. -/
def length (v : Node) : Nat :=
  if v.type = NodeType.space_list ∨ v.type = NodeType.comma_list then v.content.children.length
  else if v.type = NodeType.nil then 0
  else 1

/-- The separator of an operand of `join` in the specification: that of a
list, and space for a scalar, which counts as a space-list. -/
def separator (v : Node) : NodeType :=
  if v.type = NodeType.comma_list then NodeType.comma_list else NodeType.space_list

/-- The compatibility class of a unit in the specification: `em`, `ex`, and
the absolute units `in`, `cm`, `mm`, `pt`, `pc`; no class for any other
unit. -/
def unit_class (u : String) : Option Nat :=
  if u = "em" then some 0
  else if u = "ex" then some 1
  else if u = "in" ∨ u = "cm" ∨ u = "mm" ∨ u = "pt" ∨ u = "pc" then some 2
  else none

/-- Two units lie in the same compatibility class. -/
def same_class (u1 u2 : String) : Prop :=
  ∃ c, unit_class u1 = some c ∧ unit_class u2 = some c

/-- A value is numeric in the specification: a number, a percentage or a
dimension. -/
def numeric (v : Node) : Prop :=
  v.type = NodeType.number ∨ v.type = NodeType.numeric_percentage
    ∨ v.type = NodeType.numeric_dimension

/-- The literal the specification assigns to a variant for `type_of`:
`number` for number, dimension and percentage, `bool` for boolean,
`string` for string, `color` for colour, `list` for the two lists and nil,
and `string` for anything else. -/
def type_name (t : NodeType) : String :=
  if t = NodeType.number ∨ t = NodeType.numeric_dimension ∨ t = NodeType.numeric_percentage then
    "number"
  else if t = NodeType.boolean then "bool"
  else if t = NodeType.string_constant then "string"
  else if t = NodeType.numeric_color then "color"
  else if t = NodeType.comma_list ∨ t = NodeType.space_list ∨ t = NodeType.nil then "list"
  else "string"

/-- The hue normalised as the specification words it, with the floor of
`h`: `(((floor(h) mod 360) + 360) mod 360) / 360`. -/
def hue (h : ℚ) : ℚ :=
  ((((⌊h⌋ % 360) + 360) % 360 : ℤ) : ℚ) / 360

/-- The same normalisation with `h` rounded toward zero in place of its
floor. -/
def hue_truncated (h : ℚ) : ℚ :=
  (((((if 0 ≤ h then ⌊h⌋ else ⌈h⌉) % 360) + 360) % 360 : ℤ) : ℚ) / 360

end Spec

/-! ## Values for the examples -/

namespace Example

/-- The dimension `v unit` as the parser stores it. -/
def dimension (line : Nat) (v : ℚ) (unit : String) : Node :=
  Node.mk NodeType.numeric_dimension line none false
    { Node.empty_content with dimension := ⟨v, unit⟩ }

/-- The percentage `v%`. -/
def percentage (line : Nat) (v : ℚ) : Node :=
  Node.mk NodeType.numeric_percentage line none false
    { Node.empty_content with numeric_value := v }

/-- The string with the given source text. -/
def string (line : Nat) (text : String) : Node :=
  Node.of_token NodeType.string_constant line (Token.make text)

/-- The list with the given tag and elements. -/
def list (t : NodeType) (line : Nat) (elements : List Node) : Node :=
  Node.mk t line none false { Node.empty_content with children := elements }

/-- The value nil. -/
def nil (line : Nat) : Node := Node.of_type NodeType.nil line

end Example

/-- The unit of a dimension as `comparable` and `unit` read it: the
identifier at the start of `content.dimension.unit`. -/
def Node.unit_name (n : Node) : String :=
  (Token.make_range n.content.dimension.unit
    (Prelexer.identifier n.content.dimension.unit)).to_string

/-! ## Descriptions used in the proofs -/

namespace Functions

/-- The operand of `join_impl` after a scalar has been wrapped into a
list: the first two statements of the source for `l1`, and for `l2`. -/
def listified (l : Node) : Node :=
  if l.type ≠ NodeType.space_list ∧ l.type ≠ NodeType.comma_list
      ∧ l.type ≠ NodeType.nil then
    (Node.with_capacity NodeType.space_list l.line_number 1).push l
  else l

/-- The tag `join_impl` gives its result list when the operands are not
both nil: read off the branches that assign `lr.type`. -/
def join_type (a b sep : Node) (has_sep : Bool) : NodeType :=
  if has_sep then
    if sep.content.token.unquote = "comma" then NodeType.comma_list else NodeType.space_list
  else if a.type ≠ NodeType.nil then Spec.separator a
  else Spec.separator b

/-- The node the two-argument `join` returns for the operands `a` and `b`:
nil on the line of `a` when both are nil, otherwise the list on the line of
`a` with the tag of `join_type` and the elements of `a` followed by those of
`b`. -/
def joined (a b : Node) : Node :=
  if a.type = NodeType.nil ∧ b.type = NodeType.nil then
    Node.of_type NodeType.nil a.line_number
  else
    Node.mk (if a.type ≠ NodeType.nil then Spec.separator a else Spec.separator b)
      a.line_number none false
      { Node.empty_content with children := Spec.elements a ++ Spec.elements b }

/-- The weight `w1` of the first colour in `mix_impl`, from the weight
argument and the difference `a` of the two alphas. -/
def mix_w1 (weight a : ℚ) : ℚ :=
  ((if (2 * (weight / 100) - 1) * a = -1 then 2 * (weight / 100) - 1
    else ((2 * (weight / 100) - 1) + a) / (1 + (2 * (weight / 100) - 1) * a)) + 1) / 2

/-- The colour `mix_impl` returns for two colours with the given channels:
the three channels `w1 * c1[i] + w2 * c2[i]` and the alpha
`c1[3] * p + c2[3] * (1 - p)`, each a plain number on the line of the first
colour. -/
def mixed_color (line : Nat) (weight : ℚ) (r1 g1 b1 a1 r2 g2 b2 a2 : ℚ) : Node :=
  Node.of_rgba line
    (mix_w1 weight (a1 - a2) * r1 + (1 - mix_w1 weight (a1 - a2)) * r2)
    (mix_w1 weight (a1 - a2) * g1 + (1 - mix_w1 weight (a1 - a2)) * g2)
    (mix_w1 weight (a1 - a2) * b1 + (1 - mix_w1 weight (a1 - a2)) * b2)
    (a1 * (weight / 100) + a2 * (1 - weight / 100))

/-- The value `m2` of `hsla_impl`, from the saturation and lightness
arguments. -/
def hsla_m2 (s l : ℚ) : ℚ :=
  if l / 100 ≤ 1 / 2 then l / 100 * (s / 100 + 1) else l / 100 + s / 100 - l / 100 * (s / 100)

/-- The value `m1` of `hsla_impl`. -/
def hsla_m1 (s l : ℚ) : ℚ :=
  l / 100 * 2 - hsla_m2 s l

end Functions

/-! ## Nodes in memory

In the sections above a node is taken for its value. In the source a `Node`
is an object, and the children of a node live in a vector that the object
points to: the copies of an object (`Node r(n)`, `r = n`, a node returned
by value) point to the same vector, and `n.clone()` gives the node it
returns a vector of its own. This section models that storage
for the built-ins that assign to a node they took from the map of
bindings: `rgba_2`, `opacify`, `transparentize`, `quote`, `unquote`,
`percentage`, `round`, `ceil`, `floor` and `abs`. The assignments of these
functions go to the fields of a local object and to the elements of its
vector, no deeper, so the elements of a vector are kept as values. -/

namespace Heap

/-- Modelled from the spec: the `content` of a `Node` object (node.hpp).
The members are those of `Sass.Content`, with `children` as the object
stores it: the address of the vector of children, `none` for an object
without a vector. -/
structure Content where
  token : Token
  children : Option Nat
  dimension : Dimension
  numeric_value : ℚ
  boolean_value : Bool

/-- Modelled from the spec: a `Node` object (node.hpp). Copying the object
copies these fields, the address of the vector included. -/
structure Node where
  type : NodeType
  line_number : Nat
  file_name : Option String
  unquoted : Bool
  content : Content

/-- The vectors of children that have been allocated, by address: the
vector at address `a` is the entry `a` of the list, and the next vector is
allocated at the address `length`. -/
abbrev Memory := List (List Sass.Node)

namespace Node

/-- The value of an object in a memory: its fields, with the children read
from its vector. -/
def value (n : Node) (memory : Memory) : Sass.Node :=
  Sass.Node.mk n.type n.line_number n.file_name n.unquoted
    { token := n.content.token
      children :=
        match n.content.children with
        | some a => memory.getD a []
        | none => []
      dimension := n.content.dimension
      numeric_value := n.content.numeric_value
      boolean_value := n.content.boolean_value }

/-- The object has its vector, when it has one, among those of `memory`. -/
def allocated (n : Node) (memory : Memory) : Prop :=
  ∀ a : Nat, n.content.children = some a → a < memory.length

/-- The object has its vector, when it has one, outside those of `memory`:
no object allocated in `memory` shares it. -/
def fresh (n : Node) (memory : Memory) : Prop :=
  ∀ a : Nat, n.content.children = some a → memory.length ≤ a

/-- Modelled from the spec: `Node()`, the node `bindings[k]` stores under a
key that was absent; it has no vector. -/
def default : Node :=
  { type := NodeType.none, line_number := 0, file_name := none, unquoted := false,
    content := { token := Token.make "", children := none, dimension := ⟨0, ""⟩,
                 numeric_value := 0, boolean_value := false } }

/-- Assignment `n.type = t` to a local object. -/
def set_type (n : Node) (t : NodeType) : Node :=
  { n with type := t }

/-- Assignment `n.unquoted = u` to a local object. -/
def set_unquoted (n : Node) (u : Bool) : Node :=
  { n with unquoted := u }

/-- Assignment `n.content.numeric_value = v` to a local object. -/
def set_numeric_value (n : Node) (v : ℚ) : Node :=
  { n with content := { n.content with numeric_value := v } }

/-- Assignment `n.content.dimension.numeric_value = v` to a local object. -/
def set_dimension_value (n : Node) (v : ℚ) : Node :=
  { n with content :=
      { n.content with dimension := { n.content.dimension with numeric_value := v } } }

/-- Modelled from the spec: `operator[]` as a read, `children->at(i)` on
the vector of `n`. -/
def index (n : Node) (memory : Memory) (i : Nat) : Except Exception Sass.Node :=
  (n.value memory).index i

/-- Modelled from the spec: `operator[]` as the target of an assignment:
`n[i] = c`, or an assignment to a member of `n[i]` that makes it `c`,
stores `c` in the vector of `n`, which is the vector of every object that
was copied from `n` or `n` from it. -/
def set_index (n : Node) (memory : Memory) (i : Nat) (c : Sass.Node) :
    Except Exception Memory :=
  match n.content.children with
  | some a =>
    if i < (memory.getD a []).length then
      Except.ok (memory.set a ((memory.getD a []).set i c))
    else Except.error Exception.out_of_range
  | none => Except.error Exception.out_of_range

/-- Modelled from the spec: `Node::clone()`. The clone has the fields of
`n` and, when `n` has a vector, a vector of its own with the same
children, allocated by the call. -/
def clone (n : Node) (memory : Memory) : Node × Memory :=
  match n.content.children with
  | some a =>
    ({ n with content := { n.content with children := some memory.length } },
      memory ++ [memory.getD a []])
  | none => (n, memory)

end Node

/-- The caller's map `map<Token, Node>`, holding node objects. -/
structure Bindings where
  entries : List (Token × Node)

namespace Bindings

/-- The object bound to `k`, if any. -/
def find (b : Bindings) (k : Token) : Option Node :=
  (b.entries.find? (fun e => e.1 = k)).map Prod.snd

/-- The expression `bindings[k]`: the object bound to `k` and the map after
the access, which has gained `k ↦ Node()` when `k` was absent. -/
def index (b : Bindings) (k : Token) : Node × Bindings :=
  match b.find k with
  | some v => (v, b)
  | none => (Node.default, ⟨b.entries ++ [(k, Node.default)]⟩)

/-- The map of the values bound: each name with the value of its object. -/
def values (b : Bindings) (memory : Memory) : Sass.Bindings :=
  ⟨b.entries.map (fun e => (e.1, e.2.value memory))⟩

end Bindings

/-- Every object in the map has its vector, when it has one, among those of
`memory`. -/
def Bindings.allocated (b : Bindings) (memory : Memory) : Prop :=
  ∀ e ∈ b.entries, e.2.allocated memory

/-- Modelled from the spec: the caller binds the arguments of a call site to
the parameter names, in order. -/
def bind_arguments (parameters : List Token) (arguments : List Node) : Bindings :=
  ⟨parameters.zip arguments⟩

namespace Functions

/-- The built-in `rgba` with two parameters: the assignment `color[3] = ...`
goes to the vector of the clone. -/
def rgba_2 (parameters : List Token) (bindings : Bindings) (memory : Memory) :
    Except Exception Node × Bindings × Memory :=
  let a0 := bindings.index (param parameters 0)
  let color := a0.1.clone memory
  let a1 := a0.2.index (param parameters 1)
  match color.1.set_index color.2 3 (a1.1.value color.2) with
  | Except.ok memory1 => (Except.ok color.1, a1.2, memory1)
  | Except.error e => (Except.error e, a1.2, color.2)

/-- The built-in `opacify`: `cpy[3].content.numeric_value` is assigned in
the vector of the clone; the amount is read before `cpy[3]` is. -/
def opacify (parameters : List Token) (bindings : Bindings) (memory : Memory) :
    Except Exception Node × Bindings × Memory :=
  let a0 := bindings.index (param parameters 0)
  let cpy := a0.1.clone memory
  let a1 := a0.2.index (param parameters 1)
  match cpy.1.index cpy.2 3 with
  | Except.error e => (Except.error e, a1.2, cpy.2)
  | Except.ok c =>
    match cpy.1.set_index cpy.2 3
        (c.set_numeric_value (c.content.numeric_value + a1.1.content.numeric_value)) with
    | Except.error e => (Except.error e, a1.2, cpy.2)
    | Except.ok memory1 =>
      match cpy.1.index memory1 3 with
      | Except.error e => (Except.error e, a1.2, memory1)
      | Except.ok c =>
        if c.content.numeric_value ≥ 1 then
          match cpy.1.set_index memory1 3 (c.set_numeric_value 1) with
          | Except.error e => (Except.error e, a1.2, memory1)
          | Except.ok memory2 => (Except.ok cpy.1, a1.2, memory2)
        else (Except.ok cpy.1, a1.2, memory1)

/-- The built-in `transparentize`: as `opacify`, subtracting and clamping
at 0. -/
def transparentize (parameters : List Token) (bindings : Bindings) (memory : Memory) :
    Except Exception Node × Bindings × Memory :=
  let a0 := bindings.index (param parameters 0)
  let cpy := a0.1.clone memory
  let a1 := a0.2.index (param parameters 1)
  match cpy.1.index cpy.2 3 with
  | Except.error e => (Except.error e, a1.2, cpy.2)
  | Except.ok c =>
    match cpy.1.set_index cpy.2 3
        (c.set_numeric_value (c.content.numeric_value - a1.1.content.numeric_value)) with
    | Except.error e => (Except.error e, a1.2, cpy.2)
    | Except.ok memory1 =>
      match cpy.1.index memory1 3 with
      | Except.error e => (Except.error e, a1.2, memory1)
      | Except.ok c =>
        if c.content.numeric_value ≤ 0 then
          match cpy.1.set_index memory1 3 (c.set_numeric_value 0) with
          | Except.error e => (Except.error e, a1.2, memory1)
          | Except.ok memory2 => (Except.ok cpy.1, a1.2, memory2)
        else (Except.ok cpy.1, a1.2, memory1)

/-- The built-in `unquote`: the flag of the local object is assigned. -/
def unquote (parameters : List Token) (bindings : Bindings) (memory : Memory) :
    Except Exception Node × Bindings × Memory :=
  let a0 := bindings.index (param parameters 0)
  let cpy := a0.1.clone memory
  (Except.ok (cpy.1.set_unquoted true), a0.2, cpy.2)

/-- The built-in `quote`: the tag and the flag of the local object are
assigned. -/
def quote (parameters : List Token) (bindings : Bindings) (memory : Memory) :
    Except Exception Node × Bindings × Memory :=
  let a0 := bindings.index (param parameters 0)
  let cpy := a0.1.clone memory
  (Except.ok ((cpy.1.set_type NodeType.string_constant).set_unquoted false), a0.2, cpy.2)

/-- The built-in `percentage`: the magnitude and the tag of the local
object are assigned. -/
def percentage (parameters : List Token) (bindings : Bindings) (memory : Memory) :
    Except Exception Node × Bindings × Memory :=
  let a0 := bindings.index (param parameters 0)
  let cpy := a0.1.clone memory
  let cpy1 := cpy.1.set_numeric_value (cpy.1.content.numeric_value * 100)
  (Except.ok (cpy1.set_type NodeType.numeric_percentage), a0.2, cpy.2)

/-- The built-in `round`: the magnitude of the local object is assigned. -/
def round (parameters : List Token) (bindings : Bindings) (memory : Memory) :
    Except Exception Node × Bindings × Memory :=
  let a0 := bindings.index (param parameters 0)
  let cpy := a0.1.clone memory
  (Except.ok
    (if cpy.1.type = NodeType.numeric_dimension then
      cpy.1.set_dimension_value
        (⌊to_double (cpy.1.content.dimension.numeric_value + 1 / 2)⌋ : ℤ)
    else
      cpy.1.set_numeric_value (⌊to_double (cpy.1.content.numeric_value + 1 / 2)⌋ : ℤ)),
    a0.2, cpy.2)

/-- The built-in `ceil`: the magnitude of the local object is assigned. -/
def ceil (parameters : List Token) (bindings : Bindings) (memory : Memory) :
    Except Exception Node × Bindings × Memory :=
  let a0 := bindings.index (param parameters 0)
  let cpy := a0.1.clone memory
  (Except.ok
    (if cpy.1.type = NodeType.numeric_dimension then
      cpy.1.set_dimension_value (⌈cpy.1.content.dimension.numeric_value⌉ : ℤ)
    else
      cpy.1.set_numeric_value (⌈cpy.1.content.numeric_value⌉ : ℤ)),
    a0.2, cpy.2)

/-- The built-in `floor`: the magnitude of the local object is assigned. -/
def floor (parameters : List Token) (bindings : Bindings) (memory : Memory) :
    Except Exception Node × Bindings × Memory :=
  let a0 := bindings.index (param parameters 0)
  let cpy := a0.1.clone memory
  (Except.ok
    (if cpy.1.type = NodeType.numeric_dimension then
      cpy.1.set_dimension_value (⌊cpy.1.content.dimension.numeric_value⌋ : ℤ)
    else
      cpy.1.set_numeric_value (⌊cpy.1.content.numeric_value⌋ : ℤ)),
    a0.2, cpy.2)

/-- The built-in `abs`: the magnitude of the local object is assigned. -/
def abs (parameters : List Token) (bindings : Bindings) (memory : Memory) :
    Except Exception Node × Bindings × Memory :=
  let a0 := bindings.index (param parameters 0)
  let cpy := a0.1.clone memory
  (Except.ok
    (if cpy.1.type = NodeType.numeric_dimension then
      cpy.1.set_dimension_value |cpy.1.content.dimension.numeric_value|
    else
      cpy.1.set_numeric_value |cpy.1.content.numeric_value|),
    a0.2, cpy.2)

end Functions

namespace Example

/-- The channels of the colour `rgba(10, 20, 30, alpha)`. -/
def channels (alpha : ℚ) : List Sass.Node :=
  [Sass.Node.of_number 1 10, Sass.Node.of_number 1 20, Sass.Node.of_number 1 30,
    Sass.Node.of_number 1 alpha]

/-- A memory with one vector: the channels of `rgba(10, 20, 30, 0.5)`. -/
def memory : Memory := [channels (1 / 2)]

/-- A colour object with its channels in the vector at address `a`. -/
def color (a : Nat) : Node :=
  { type := NodeType.numeric_color, line_number := 1, file_name := none, unquoted := false,
    content := { token := Token.make "", children := some a, dimension := ⟨0, ""⟩,
                 numeric_value := 0, boolean_value := false } }

/-- A plain number as an object: it has no vector. -/
def number (line : Nat) (v : ℚ) : Node :=
  { type := NodeType.number, line_number := line, file_name := none, unquoted := false,
    content := { token := Token.make "", children := none, dimension := ⟨0, ""⟩,
                 numeric_value := v, boolean_value := false } }

end Example

namespace Spec

/-- What the specification asks of a call that started with `bindings` and
`memory` and ended in `out`: the map is the one the call was given; the
vectors that were allocated before the call are as they were; every object
bound in the map has the value it had; and the node returned has a vector
that the call allocated, not one that an object of the caller points to. -/
def untouched (bindings : Bindings) (memory : Memory)
    (out : Except Exception Node × Bindings × Memory) : Prop :=
  out.2.1 = bindings ∧
  out.2.2.take memory.length = memory ∧
  (∀ (k : Token) (n : Node), bindings.find k = some n → n.allocated memory →
    n.value out.2.2 = n.value memory) ∧
  (∀ r : Node, out.1 = Except.ok r → r.fresh memory)

/-- The outcome `out` of a call in memory is the outcome `v` of the call on
values: the same error or the node of the same value, and the same values
bound in the map. -/
def denotes (out : Except Exception Node × Bindings × Memory)
    (v : Except Exception Sass.Node × Sass.Bindings) : Prop :=
  Except.map (fun r => r.value out.2.2) out.1 = v.1 ∧ out.2.1.values out.2.2 = v.2

end Spec

end Heap

/-! ## Projections of a constructed node -/

namespace Node

@[simp] theorem type_mk (t : NodeType) (l : Nat) (f : Option String) (u : Bool)
    (c : Content Node) : (mk t l f u c).type = t := rfl

@[simp] theorem line_number_mk (t : NodeType) (l : Nat) (f : Option String) (u : Bool)
    (c : Content Node) : (mk t l f u c).line_number = l := rfl

@[simp] theorem file_name_mk (t : NodeType) (l : Nat) (f : Option String) (u : Bool)
    (c : Content Node) : (mk t l f u c).file_name = f := rfl

@[simp] theorem unquoted_mk (t : NodeType) (l : Nat) (f : Option String) (u : Bool)
    (c : Content Node) : (mk t l f u c).unquoted = u := rfl

@[simp] theorem content_mk (t : NodeType) (l : Nat) (f : Option String) (u : Bool)
    (c : Content Node) : (mk t l f u c).content = c := rfl

@[simp] theorem mk_eta (n : Node) :
    mk n.type n.line_number n.file_name n.unquoted n.content = n := by
  cases n; rfl

@[simp] theorem set_type_eq (n : Node) (t : NodeType) :
    n.set_type t = mk t n.line_number n.file_name n.unquoted n.content := rfl

@[simp] theorem set_line_number_eq (n : Node) (l : Nat) :
    n.set_line_number l = mk n.type l n.file_name n.unquoted n.content := rfl

@[simp] theorem set_unquoted_eq (n : Node) (u : Bool) :
    n.set_unquoted u = mk n.type n.line_number n.file_name u n.content := rfl

@[simp] theorem set_content_eq (n : Node) (c : Content Node) :
    n.set_content c = mk n.type n.line_number n.file_name n.unquoted c := rfl

end Node

/-! ## Reading the map of bindings -/

namespace Bindings

/-- Reading a bound key gives its node and leaves the map as it is. -/
theorem index_of_find {b : Bindings} {k : Token} {v : Node} (h : b.find k = some v) :
    b.index k = (v, b) := by
  simp [Bindings.index, h]

/-- After `bindings[k]` the key `k` is bound to the node that was read. -/
theorem find_index_self (b : Bindings) (k : Token) :
    (b.index k).2.find k = some (b.index k).1 := by
  unfold Bindings.index
  cases h : b.find k with
  | some v => simpa using h
  | none =>
    have h2 : List.find? (fun e => decide (e.1 = k)) b.entries = none := by
      simpa [Bindings.find] using h
    simp [Bindings.find, List.find?_append, h2]

/-- Reading a key twice gives the same node and changes nothing more. -/
theorem index_index (b : Bindings) (k : Token) :
    (b.index k).2.index k = ((b.index k).1, (b.index k).2) :=
  index_of_find (find_index_self b k)

/-- A bound key stays bound to the same node when another key is read. -/
theorem find_index_of_find {b : Bindings} {k : Token} {v : Node} (k2 : Token)
    (h : b.find k = some v) : (b.index k2).2.find k = some v := by
  unfold Bindings.index
  cases h2 : b.find k2 with
  | some w => simpa using h
  | none =>
    have h3 : ∃ e, List.find? (fun e => decide (e.1 = k)) b.entries = some e ∧ e.2 = v := by
      simpa [Bindings.find] using h
    obtain ⟨e, he, hv⟩ := h3
    simp [Bindings.find, List.find?_append, he, hv]

/-- The caller's map binds the first parameter to the first argument. -/
theorem find_bind_head (k : Token) (v : Node) (ks : List Token) (vs : List Node) :
    (bind_arguments (k :: ks) (v :: vs)).find k = some v := by
  simp [bind_arguments, Bindings.find]

end Bindings

namespace Functions

/-! ## `join_impl` on bound operands -/

theorem listified_line (l : Node) : (listified l).line_number = l.line_number := by
  unfold listified; split <;> simp [Node.push, Node.with_capacity]

theorem listified_nil (l : Node) : (listified l).type = NodeType.nil ↔ l.type = NodeType.nil := by
  unfold listified; split
  · rename_i h; simp [Node.push, Node.with_capacity, h.2.2]
  · rfl

theorem listified_children (l : Node) (h : l.type ≠ NodeType.nil) :
    (listified l).content.children = Spec.elements l := by
  unfold listified Spec.elements
  by_cases h1 : l.type = NodeType.space_list ∨ l.type = NodeType.comma_list
  · rw [if_pos h1, if_neg]
    intro h2
    rcases h1 with h1 | h1
    · exact h2.1 h1
    · exact h2.2.1 h1
  · rw [if_neg h1, if_neg h, if_pos]
    · simp [Node.push, Node.with_capacity, Node.empty_content]
    · push_neg at h1
      exact ⟨h1.1, h1.2, h⟩

theorem listified_type (l : Node) (h : l.type ≠ NodeType.nil) :
    (listified l).type = Spec.separator l := by
  unfold listified Spec.separator
  by_cases h1 : l.type = NodeType.space_list
  · simp [h1]
  · by_cases h2 : l.type = NodeType.comma_list
    · simp [h2]
    · simp [h1, h2, h, Node.push, Node.with_capacity]

theorem separator_ne_nil (l : Node) : Spec.separator l ≠ NodeType.nil := by
  unfold Spec.separator; split <;> simp

theorem elements_nil (l : Node) (h : l.type = NodeType.nil) : Spec.elements l = [] := by
  simp [Spec.elements, h]

/-- What `join_impl` returns when its two operands are bound. -/
theorem join_impl_of_find {parameters : List Token} {bindings : Bindings} {a b : Node}
    (has_sep : Bool)
    (ha : bindings.find (param parameters 0) = some a)
    (hb : bindings.find (param parameters 1) = some b) :
    (join_impl parameters bindings has_sep).1 =
      if a.type = NodeType.nil ∧ b.type = NodeType.nil then
        Except.ok (Node.of_type NodeType.nil a.line_number)
      else
        Except.ok (Node.mk
          (join_type a b (bindings.index (param parameters 2)).1 has_sep)
          a.line_number none false
          { Node.empty_content with children := Spec.elements a ++ Spec.elements b }) := by
  simp only [join_impl, Bindings.index_of_find ha, Bindings.index_of_find hb]
  have hl : ∀ l : Node,
      (if l.type ≠ NodeType.space_list ∧ l.type ≠ NodeType.comma_list
          ∧ l.type ≠ NodeType.nil then
        (Node.with_capacity NodeType.space_list l.line_number 1).push l
      else l) = listified l := fun _ => rfl
  simp only [hl, listified_nil, listified_line]
  by_cases h1 : a.type = NodeType.nil <;> by_cases h2 : b.type = NodeType.nil <;>
    cases has_sep <;>
    by_cases hs : (bindings.index (param parameters 2)).1.content.token.unquote = "comma" <;>
    simp [h1, h2, hs, join_type, listified_children, listified_type, listified_nil, elements_nil,
      separator_ne_nil,
      Node.append, Node.with_capacity, Node.size, Node.empty_content]

/-! ## C1: the elements of a join -/

/-- What `length` returns on a bound argument: the length of the
specification, as a plain number on the argument's line. -/
theorem length_of_find {parameters : List Token} {bindings : Bindings} {v : Node}
    (hv : bindings.find (param parameters 0) = some v) :
    (length parameters bindings).1 =
      Except.ok (Node.of_number v.line_number (Spec.length v : ℕ)) := by
  simp only [length, Bindings.index_of_find hv, Spec.length, Node.size]
  split_ifs <;> simp

/-- The elements and the length of what `join_impl` returns, with or
without a separator argument. -/
theorem join_impl_elements (parameters : List Token) (bindings : Bindings) (a b : Node)
    (has_sep : Bool)
    (ha : bindings.find (param parameters 0) = some a)
    (hb : bindings.find (param parameters 1) = some b) :
    ∃ r, (join_impl parameters bindings has_sep).1 = Except.ok r ∧
      (a.type = NodeType.nil ∧ b.type = NodeType.nil →
        r.type = NodeType.nil ∧ r.content.children = []) ∧
      (¬(a.type = NodeType.nil ∧ b.type = NodeType.nil) →
        (r.type = NodeType.space_list ∨ r.type = NodeType.comma_list) ∧
        r.content.children = Spec.elements a ++ Spec.elements b) ∧
      ∀ (q : List Token) (ba bb br : Bindings),
        ba.find (param q 0) = some a → bb.find (param q 0) = some b →
        br.find (param q 0) = some r →
        (length q ba).1 = Except.ok (Node.of_number a.line_number (Spec.length a : ℕ)) ∧
        (length q bb).1 = Except.ok (Node.of_number b.line_number (Spec.length b : ℕ)) ∧
        (length q br).1 =
          Except.ok (Node.of_number r.line_number (Spec.length a + Spec.length b : ℕ)) := by
  rw [join_impl_of_find has_sep ha hb]
  by_cases h : a.type = NodeType.nil ∧ b.type = NodeType.nil
  · rw [if_pos h]
    refine ⟨_, rfl, fun _ => ⟨rfl, rfl⟩, fun h2 => absurd h h2, ?_⟩
    intro q ba bb br h1 h2 h3
    refine ⟨length_of_find h1, length_of_find h2, ?_⟩
    rw [length_of_find h3]
    simp [Spec.length, h.1, h.2, Node.of_type]
  · rw [if_neg h]
    have ht : join_type a b (bindings.index (param parameters 2)).1 has_sep
          = NodeType.space_list ∨
        join_type a b (bindings.index (param parameters 2)).1 has_sep
          = NodeType.comma_list := by
      unfold join_type Spec.separator
      split_ifs <;> simp
    refine ⟨_, rfl, fun h2 => absurd h2 h, fun _ => ⟨ht, rfl⟩, ?_⟩
    intro q ba bb br h1 h2 h3
    refine ⟨length_of_find h1, length_of_find h2, ?_⟩
    rw [length_of_find h3]
    have hlen : ∀ v : Node, (Spec.elements v).length = Spec.length v := by
      intro v
      unfold Spec.elements Spec.length
      split_ifs <;> simp
    simp [Spec.length, ht, List.length_append, hlen, Node.empty_content]

/-- C1: `join`, in its two-argument form and in its three-argument form
whatever the separator, returns nil when both operands are nil, and
otherwise a comma- or space-list whose elements are those of `a`, in
order, followed by those of `b`, where a scalar contributes itself and nil
nothing; and `length` of the result is `length(a) + length(b)`, `length`
being the element count of a list, 0 for nil and 1 for a scalar. -/
theorem join_elements (parameters : List Token) (bindings : Bindings) (a b : Node)
    (join : List Token → Bindings → Except Exception Node × Bindings)
    (hj : join = join_2 ∨ join = join_3)
    (ha : bindings.find (param parameters 0) = some a)
    (hb : bindings.find (param parameters 1) = some b) :
    ∃ r, (join parameters bindings).1 = Except.ok r ∧
      (a.type = NodeType.nil ∧ b.type = NodeType.nil →
        r.type = NodeType.nil ∧ r.content.children = []) ∧
      (¬(a.type = NodeType.nil ∧ b.type = NodeType.nil) →
        (r.type = NodeType.space_list ∨ r.type = NodeType.comma_list) ∧
        r.content.children = Spec.elements a ++ Spec.elements b) ∧
      ∀ (q : List Token) (ba bb br : Bindings),
        ba.find (param q 0) = some a → bb.find (param q 0) = some b →
        br.find (param q 0) = some r →
        (length q ba).1 = Except.ok (Node.of_number a.line_number (Spec.length a : ℕ)) ∧
        (length q bb).1 = Except.ok (Node.of_number b.line_number (Spec.length b : ℕ)) ∧
        (length q br).1 =
          Except.ok (Node.of_number r.line_number (Spec.length a + Spec.length b : ℕ)) := by
  rcases hj with rfl | rfl
  · exact join_impl_elements parameters bindings a b false ha hb
  · exact join_impl_elements parameters bindings a b true ha hb

/-- Witness of C1: joining the comma-list `(10px, 2)` with the scalar `x`
under the separator `space` gives the three elements in order, and `length`
of the result is `2 + 1`. -/
theorem join_elements_witness :
    (bind_arguments join_3_descriptor.parameters
        [Example.list NodeType.comma_list 4
            [Example.dimension 4 10 "px", Node.of_number 4 2],
          Example.string 4 "x", Example.string 4 "space"]).find
        (param join_3_descriptor.parameters 0) =
      some (Example.list NodeType.comma_list 4
        [Example.dimension 4 10 "px", Node.of_number 4 2]) ∧
    (bind_arguments join_3_descriptor.parameters
        [Example.list NodeType.comma_list 4
            [Example.dimension 4 10 "px", Node.of_number 4 2],
          Example.string 4 "x", Example.string 4 "space"]).find
        (param join_3_descriptor.parameters 1) = some (Example.string 4 "x") ∧
    ∃ r, (join_3 join_3_descriptor.parameters
        (bind_arguments join_3_descriptor.parameters
          [Example.list NodeType.comma_list 4
              [Example.dimension 4 10 "px", Node.of_number 4 2],
            Example.string 4 "x", Example.string 4 "space"])).1 = Except.ok r ∧
      r.content.children =
        [Example.dimension 4 10 "px", Node.of_number 4 2, Example.string 4 "x"] ∧
      (length length_descriptor.parameters
        (bind_arguments length_descriptor.parameters [r])).1 =
        Except.ok (Node.of_number r.line_number 3) := by
  obtain ⟨r, hr, _, h2, h3⟩ :=
    join_elements join_3_descriptor.parameters
      (bind_arguments join_3_descriptor.parameters
        [Example.list NodeType.comma_list 4
            [Example.dimension 4 10 "px", Node.of_number 4 2],
          Example.string 4 "x", Example.string 4 "space"])
      (Example.list NodeType.comma_list 4 [Example.dimension 4 10 "px", Node.of_number 4 2])
      (Example.string 4 "x") join_3 (Or.inr rfl) rfl rfl
  refine ⟨rfl, rfl, r, hr, ?_, ?_⟩
  · exact (h2 (by decide)).2
  · have h := (h3 length_descriptor.parameters
      (bind_arguments length_descriptor.parameters
        [Example.list NodeType.comma_list 4 [Example.dimension 4 10 "px", Node.of_number 4 2]])
      (bind_arguments length_descriptor.parameters [Example.string 4 "x"])
      (bind_arguments length_descriptor.parameters [r]) rfl rfl
      (Bindings.find_bind_head _ _ _ _)).2.2
    rw [h]
    simp [Spec.length, Example.list, Example.string, Node.of_token]

end Functions

/-! ## C2: comparable dimensions -/

/-- The test of `comparable` on two units says that they lie in the same
compatibility class. -/
theorem unit_test_iff_same_class (u1 u2 : String) :
    (u1 = "ex" ∧ u2 = "ex" ∨
      u1 = "em" ∧ u2 = "em" ∨
      (u1 = "in" ∨ u1 = "cm" ∨ u1 = "mm" ∨ u1 = "pt" ∨ u1 = "pc") ∧
      (u2 = "in" ∨ u2 = "cm" ∨ u2 = "mm" ∨ u2 = "pt" ∨ u2 = "pc")) ↔
    Spec.same_class u1 u2 := by
  have c1 : ∀ u : String, Spec.unit_class u = some 0 ↔ u = "em" := by
    intro u; unfold Spec.unit_class; split_ifs <;> simp [*]
  have c2 : ∀ u : String, Spec.unit_class u = some 1 ↔ u = "ex" := by
    intro u; unfold Spec.unit_class; split_ifs <;> simp_all
  have c3 : ∀ u : String, Spec.unit_class u = some 2 ↔
      (u = "in" ∨ u = "cm" ∨ u = "mm" ∨ u = "pt" ∨ u = "pc") := by
    intro u; unfold Spec.unit_class
    split_ifs with h1 h2 h3
    · subst h1; simp
    · subst h2; simp
    · simp [h3]
    · simp [h3]
  have c4 : ∀ (u : String) (c : ℕ), Spec.unit_class u = some c → c = 0 ∨ c = 1 ∨ c = 2 := by
    intro u c; unfold Spec.unit_class; split_ifs <;> simp <;> omega
  constructor
  · rintro (⟨h1, h2⟩ | ⟨h1, h2⟩ | ⟨h1, h2⟩)
    · exact ⟨1, (c2 u1).2 h1, (c2 u2).2 h2⟩
    · exact ⟨0, (c1 u1).2 h1, (c1 u2).2 h2⟩
    · exact ⟨2, (c3 u1).2 h1, (c3 u2).2 h2⟩
  · rintro ⟨c, h1, h2⟩
    rcases c4 u1 c h1 with rfl | rfl | rfl
    · exact Or.inr (Or.inl ⟨(c1 u1).1 h1, (c1 u2).1 h2⟩)
    · exact Or.inl ⟨(c2 u1).1 h1, (c2 u2).1 h2⟩
    · exact Or.inr (Or.inr ⟨(c3 u1).1 h1, (c3 u2).1 h2⟩)

namespace Functions

/-- C2: for two dimensions, `comparable` returns the boolean true exactly
when their units lie in the same compatibility class among `em`, `ex` and
the absolute units `in`, `cm`, `mm`, `pt`, `pc`, and the boolean false
otherwise. -/
theorem comparable_dimensions (parameters : List Token) (bindings : Bindings) (d1 d2 : Node)
    (h1 : bindings.find (param parameters 0) = some d1)
    (h2 : bindings.find (param parameters 1) = some d2)
    (t1 : d1.type = NodeType.numeric_dimension)
    (t2 : d2.type = NodeType.numeric_dimension) :
    ∃ v : Bool, (comparable parameters bindings).1 =
        Except.ok (boolean_node d1.line_number v) ∧
      (boolean_node d1.line_number v).type = NodeType.boolean ∧
      (boolean_node d1.line_number v).content.boolean_value = v ∧
      (v = true ↔ Spec.same_class d1.unit_name d2.unit_name) := by
  by_cases hc : Spec.same_class d1.unit_name d2.unit_name
  · refine ⟨true, ?_, rfl, rfl, by simp [hc]⟩
    have hu := (unit_test_iff_same_class _ _).2 hc
    simp only [comparable, Bindings.index_of_find h1, Bindings.index_of_find h2, t1, t2]
    simp only [Node.unit_name] at hu
    simp [hu]
  · refine ⟨false, ?_, rfl, rfl, by simp [hc]⟩
    have hu := (not_congr (unit_test_iff_same_class d1.unit_name d2.unit_name)).2 hc
    simp only [comparable, Bindings.index_of_find h1, Bindings.index_of_find h2, t1, t2]
    simp only [Node.unit_name] at hu
    simp [hu]

/-- Witness of C2: `comparable(5px, 5em)` is false and `comparable(5pt, 5mm)`
is true. -/
theorem comparable_dimensions_witness :
    (comparable comparable_descriptor.parameters
        (bind_arguments comparable_descriptor.parameters
          [Example.dimension 7 5 "px", Example.dimension 7 5 "em"])).1 =
      Except.ok (boolean_node 7 false) ∧
    (comparable comparable_descriptor.parameters
        (bind_arguments comparable_descriptor.parameters
          [Example.dimension 7 5 "pt", Example.dimension 7 5 "mm"])).1 =
      Except.ok (boolean_node 7 true) := by
  constructor
  · obtain ⟨v, hv, _, _, hiff⟩ := comparable_dimensions comparable_descriptor.parameters
      (bind_arguments comparable_descriptor.parameters
        [Example.dimension 7 5 "px", Example.dimension 7 5 "em"])
      (Example.dimension 7 5 "px") (Example.dimension 7 5 "em") rfl rfl rfl rfl
    have hn : ¬ Spec.same_class (Example.dimension 7 5 "px").unit_name
        (Example.dimension 7 5 "em").unit_name := by
      rintro ⟨c, hc, _⟩
      have hp : Spec.unit_class (Example.dimension 7 5 "px").unit_name = none := by decide
      rw [hp] at hc
      cases hc
    cases v
    · exact hv
    · exact absurd (hiff.1 rfl) hn
  · obtain ⟨v, hv, _, _, hiff⟩ := comparable_dimensions comparable_descriptor.parameters
      (bind_arguments comparable_descriptor.parameters
        [Example.dimension 7 5 "pt", Example.dimension 7 5 "mm"])
      (Example.dimension 7 5 "pt") (Example.dimension 7 5 "mm") rfl rfl rfl rfl
    have hy : Spec.same_class (Example.dimension 7 5 "pt").unit_name
        (Example.dimension 7 5 "mm").unit_name := ⟨2, by decide, by decide⟩
    rw [hiff.2 hy] at hv
    exact hv

/-! ## C3: comparable and the tags of its operands -/

/-- C3, amended: `comparable(a, b)` is true for a plain number paired with
a number, percentage or dimension, and for two percentages; and for every
pair in which neither operand is a plain number and `a` or `b` is not a
number, percentage or dimension, it returns the boolean false. -/
theorem comparable_tags (parameters : List Token) (bindings : Bindings) (a b : Node)
    (ha : bindings.find (param parameters 0) = some a)
    (hb : bindings.find (param parameters 1) = some b) :
    (a.type = NodeType.number ∧ Spec.numeric b ∨ Spec.numeric a ∧ b.type = NodeType.number →
      (comparable parameters bindings).1 = Except.ok (boolean_node a.line_number true)) ∧
    (a.type = NodeType.numeric_percentage ∧ b.type = NodeType.numeric_percentage →
      (comparable parameters bindings).1 = Except.ok (boolean_node a.line_number true)) ∧
    (a.type ≠ NodeType.number → b.type ≠ NodeType.number →
      ¬ Spec.numeric a ∨ ¬ Spec.numeric b →
      (comparable parameters bindings).1 = Except.ok (boolean_node a.line_number false)) := by
  simp only [comparable, Bindings.index_of_find ha, Bindings.index_of_find hb]
  refine ⟨fun h => ?_, fun h => ?_, fun h1 h2 h3 => ?_⟩
  · have h0 : a.type = NodeType.number ∨ b.type = NodeType.number := by
      rcases h with h | h
      · exact Or.inl h.1
      · exact Or.inr h.2
    rw [if_pos h0]
  · simp [h.1, h.2]
  · have hd : ¬(a.type = NodeType.numeric_dimension ∧ b.type = NodeType.numeric_dimension) := by
      rintro ⟨d1, d2⟩
      rcases h3 with h3 | h3
      · exact h3 (Or.inr (Or.inr d1))
      · exact h3 (Or.inr (Or.inr d2))
    have hp : ¬(a.type = NodeType.numeric_percentage ∧ b.type = NodeType.numeric_percentage) := by
      rintro ⟨d1, d2⟩
      rcases h3 with h3 | h3
      · exact h3 (Or.inr (Or.inl d1))
      · exact h3 (Or.inr (Or.inl d2))
    have hn : ¬(a.type = NodeType.number ∨ b.type = NodeType.number) := by
      rintro (h | h)
      · exact h1 h
      · exact h2 h
    rw [if_neg hn, if_neg hp, if_neg hd]

/-- Witness of C3 as amended: a plain number with a percentage is
comparable; a percentage with a string is not. -/
theorem comparable_tags_witness :
    (comparable comparable_descriptor.parameters
        (bind_arguments comparable_descriptor.parameters
          [Node.of_number 2 5, Example.percentage 2 50])).1 =
      Except.ok (boolean_node 2 true) ∧
    (comparable comparable_descriptor.parameters
        (bind_arguments comparable_descriptor.parameters
          [Example.percentage 2 50, Example.string 2 "x"])).1 =
      Except.ok (boolean_node 2 false) :=
  ⟨(comparable_tags comparable_descriptor.parameters
      (bind_arguments comparable_descriptor.parameters
        [Node.of_number 2 5, Example.percentage 2 50])
      (Node.of_number 2 5) (Example.percentage 2 50) rfl rfl).1
      (Or.inl ⟨rfl, Or.inr (Or.inl rfl)⟩),
    (comparable_tags comparable_descriptor.parameters
      (bind_arguments comparable_descriptor.parameters
        [Example.percentage 2 50, Example.string 2 "x"])
      (Example.percentage 2 50) (Example.string 2 "x") rfl rfl).2.2
      (by decide) (by decide) (Or.inr (by simp [Spec.numeric, Example.string, Node.of_token]))⟩

/-- Counterexample to C3 as stated: the string `"50%"` is not a number,
percentage or dimension, and `comparable(5, "50%")` is the boolean true,
not the boolean false. -/
theorem comparable_number_string :
    ¬ Spec.numeric (Example.string 2 "\"50%\"") ∧
    (comparable comparable_descriptor.parameters
        (bind_arguments comparable_descriptor.parameters
          [Node.of_number 2 5, Example.string 2 "\"50%\""])).1 =
      Except.ok (boolean_node 2 true) ∧
    (boolean_node 2 true).content.boolean_value = true ∧
    (comparable comparable_descriptor.parameters
        (bind_arguments comparable_descriptor.parameters
          [Node.of_number 2 5, Example.string 2 "\"50%\""])).1 ≠
      Except.ok (boolean_node 2 false) := by
  have h : (comparable comparable_descriptor.parameters
        (bind_arguments comparable_descriptor.parameters
          [Node.of_number 2 5, Example.string 2 "\"50%\""])).1 =
      Except.ok (boolean_node 2 true) := rfl
  refine ⟨by simp [Spec.numeric, Example.string, Node.of_token], h, rfl, ?_⟩
  rw [h]
  intro h2
  have h3 := congrArg (fun r => r.toOption.map (fun n => n.content.boolean_value)) h2
  simp [Except.toOption, boolean_node, Node.set_boolean_value, Node.of_type] at h3

/-! ## C4: mixing a colour with itself -/

/-- What `mix_impl` returns on two colours with four channels each. -/
theorem mix_impl_of_children {c1 c2 r1 g1 b1 a1 r2 g2 b2 a2 : Node} (weight : ℚ)
    (t1 : c1.type = NodeType.numeric_color) (t2 : c2.type = NodeType.numeric_color)
    (h1 : c1.content.children = [r1, g1, b1, a1])
    (h2 : c2.content.children = [r2, g2, b2, a2]) :
    mix_impl c1 c2 weight =
      Except.ok (mixed_color c1.line_number weight
        r1.content.numeric_value g1.content.numeric_value b1.content.numeric_value
        a1.content.numeric_value
        r2.content.numeric_value g2.content.numeric_value b2.content.numeric_value
        a2.content.numeric_value) := by
  simp [mix_impl, t1, t2, Node.index, h1, h2, mix_channel, bind, Except.bind, pure,
    Except.pure, Node.push, Node.with_capacity, mixed_color, mix_w1, Node.empty_content,
    Node.of_rgba]

/-- Mixing at weight 50 two colours of equal alpha weighs both by one half. -/
theorem mix_w1_fifty : mix_w1 50 0 = 1 / 2 := by
  norm_num [mix_w1]

/-- C4: mixing a colour `c` with itself at weight 50, by `mix(c, c)` or by
`mix(c, c, 50)`, returns a colour whose r, g, b and alpha magnitudes are
those of `c`. -/
theorem mix_same_color (parameters : List Token) (bindings : Bindings) (c r g b al : Node)
    (h0 : bindings.find (param parameters 0) = some c)
    (h1 : bindings.find (param parameters 1) = some c)
    (tc : c.type = NodeType.numeric_color)
    (hc : c.content.children = [r, g, b, al]) :
    (mix_2 parameters bindings).1 =
      Except.ok (Node.of_rgba c.line_number r.content.numeric_value g.content.numeric_value
        b.content.numeric_value al.content.numeric_value) ∧
    ∀ weight : Node, bindings.find (param parameters 2) = some weight →
      Spec.numeric weight → weight.numeric_value = 50 →
      (mix_3 parameters bindings).1 =
        Except.ok (Node.of_rgba c.line_number r.content.numeric_value g.content.numeric_value
          b.content.numeric_value al.content.numeric_value) := by
  have key : mix_impl c c 50 =
      Except.ok (Node.of_rgba c.line_number r.content.numeric_value g.content.numeric_value
        b.content.numeric_value al.content.numeric_value) := by
    rw [mix_impl_of_children 50 tc tc hc hc]
    simp only [mixed_color, sub_self, mix_w1_fifty]
    congr 2 <;> ring
  constructor
  · simp only [mix_2, Bindings.index_of_find h0, Bindings.index_of_find h1]
    exact key
  · intro weight h2 hn hw
    simp only [mix_3, Bindings.index_of_find h0, Bindings.index_of_find h1,
      Bindings.index_of_find h2, hw]
    have hn2 : weight.type = NodeType.number ∨ weight.type = NodeType.numeric_percentage
        ∨ weight.type = NodeType.numeric_dimension := hn
    rw [if_neg (not_not.mpr hn2)]
    exact key

/-- Witness of C4: the colour `(10, 20, 30, 1/2)` mixed with itself, with
the default weight and with the weight `50%`. -/
theorem mix_same_color_witness :
    (mix_2 mix_3_descriptor.parameters
        (bind_arguments mix_3_descriptor.parameters
          [Node.of_rgba 5 10 20 30 (1 / 2), Node.of_rgba 5 10 20 30 (1 / 2),
            Example.percentage 5 50])).1 =
      Except.ok (Node.of_rgba 5 10 20 30 (1 / 2)) ∧
    (mix_3 mix_3_descriptor.parameters
        (bind_arguments mix_3_descriptor.parameters
          [Node.of_rgba 5 10 20 30 (1 / 2), Node.of_rgba 5 10 20 30 (1 / 2),
            Example.percentage 5 50])).1 =
      Except.ok (Node.of_rgba 5 10 20 30 (1 / 2)) :=
  have h := mix_same_color mix_3_descriptor.parameters
    (bind_arguments mix_3_descriptor.parameters
      [Node.of_rgba 5 10 20 30 (1 / 2), Node.of_rgba 5 10 20 30 (1 / 2),
        Example.percentage 5 50])
    (Node.of_rgba 5 10 20 30 (1 / 2))
    (Node.of_number 5 10) (Node.of_number 5 20) (Node.of_number 5 30) (Node.of_number 5 (1 / 2))
    rfl rfl rfl rfl
  ⟨h.1, h.2 (Example.percentage 5 50) rfl (Or.inr (Or.inl rfl)) rfl⟩

/-! ## C5: the primary hues -/

/-- What `hsla` returns on four bound numeric arguments. -/
theorem hsla_of_find {parameters : List Token} {bindings : Bindings} {h s l a : Node}
    (f0 : bindings.find (param parameters 0) = some h)
    (f1 : bindings.find (param parameters 1) = some s)
    (f2 : bindings.find (param parameters 2) = some l)
    (f3 : bindings.find (param parameters 3) = some a)
    (n0 : h.is_numeric = true) (n1 : s.is_numeric = true) (n2 : l.is_numeric = true)
    (n3 : a.is_numeric = true) :
    (hsla parameters bindings).1 =
      Except.ok ((hsla_impl h.numeric_value s.numeric_value l.numeric_value
        a.numeric_value).set_line_number h.line_number) := by
  simp [hsla, Bindings.index_of_find f0, Bindings.index_of_find f1, Bindings.index_of_find f2,
    Bindings.index_of_find f3, n0, n1, n2, n3]

/-- What `hsl` returns on three bound numeric arguments. -/
theorem hsl_of_find {parameters : List Token} {bindings : Bindings} {h s l : Node}
    (f0 : bindings.find (param parameters 0) = some h)
    (f1 : bindings.find (param parameters 1) = some s)
    (f2 : bindings.find (param parameters 2) = some l)
    (n0 : h.is_numeric = true) (n1 : s.is_numeric = true) (n2 : l.is_numeric = true) :
    (hsl parameters bindings).1 =
      Except.ok ((hsla_impl h.numeric_value s.numeric_value l.numeric_value
        1).set_line_number h.line_number) := by
  simp [hsl, Bindings.index_of_find f0, Bindings.index_of_find f1, Bindings.index_of_find f2,
    n0, n1, n2]

theorem hsla_hue_zero : hsla_hue 0 = 0 := by
  simp [hsla_hue, static_cast_int]

theorem hsla_hue_120 : hsla_hue 120 = 1 / 3 := by
  have h : static_cast_int 120 = 120 := by
    simp [static_cast_int]
  have t : Int.tmod (Int.tmod 120 360 + 360) 360 = 120 := by decide
  rw [hsla_hue, h, t]
  norm_num

theorem hsla_hue_240 : hsla_hue 240 = 2 / 3 := by
  have h : static_cast_int 240 = 240 := by
    simp [static_cast_int]
  have t : Int.tmod (Int.tmod 240 360 + 360) 360 = 240 := by decide
  rw [hsla_hue, h, t]
  norm_num

theorem hsla_impl_red (a : ℚ) : hsla_impl 0 100 50 a = Node.of_rgba 0 255 0 0 a := by
  simp only [hsla_impl, hsla_hue_zero]
  norm_num [h_to_rgb]

theorem hsla_impl_green (a : ℚ) : hsla_impl 120 100 50 a = Node.of_rgba 0 0 255 0 a := by
  simp only [hsla_impl, hsla_hue_120]
  norm_num [h_to_rgb]

theorem hsla_impl_blue (a : ℚ) : hsla_impl 240 100 50 a = Node.of_rgba 0 0 0 255 a := by
  simp only [hsla_impl, hsla_hue_240]
  norm_num [h_to_rgb]

/-- C5: with saturation 100 and lightness 50, `hsl` maps the hues 0, 120
and 240 to the colours `(255, 0, 0)`, `(0, 255, 0)` and `(0, 0, 255)` with
alpha 1, exactly, and so does `hsla` whenever its fourth parameter is bound
to a numeric alpha of magnitude 1. -/
theorem hsla_primaries (parameters : List Token) (bindings : Bindings) (h s l : Node)
    (f0 : bindings.find (param parameters 0) = some h)
    (f1 : bindings.find (param parameters 1) = some s)
    (f2 : bindings.find (param parameters 2) = some l)
    (n0 : h.is_numeric = true) (n1 : s.is_numeric = true) (n2 : l.is_numeric = true)
    (hs : s.numeric_value = 100) (hl : l.numeric_value = 50) :
    (h.numeric_value = 0 →
      (hsl parameters bindings).1 =
        Except.ok ((Node.of_rgba 0 255 0 0 1).set_line_number h.line_number) ∧
      ∀ a : Node, bindings.find (param parameters 3) = some a → a.is_numeric = true →
        a.numeric_value = 1 →
        (hsla parameters bindings).1 =
          Except.ok ((Node.of_rgba 0 255 0 0 1).set_line_number h.line_number)) ∧
    (h.numeric_value = 120 →
      (hsl parameters bindings).1 =
        Except.ok ((Node.of_rgba 0 0 255 0 1).set_line_number h.line_number) ∧
      ∀ a : Node, bindings.find (param parameters 3) = some a → a.is_numeric = true →
        a.numeric_value = 1 →
        (hsla parameters bindings).1 =
          Except.ok ((Node.of_rgba 0 0 255 0 1).set_line_number h.line_number)) ∧
    (h.numeric_value = 240 →
      (hsl parameters bindings).1 =
        Except.ok ((Node.of_rgba 0 0 0 255 1).set_line_number h.line_number) ∧
      ∀ a : Node, bindings.find (param parameters 3) = some a → a.is_numeric = true →
        a.numeric_value = 1 →
        (hsla parameters bindings).1 =
          Except.ok ((Node.of_rgba 0 0 0 255 1).set_line_number h.line_number)) := by
  rw [hsl_of_find f0 f1 f2 n0 n1 n2, hs, hl]
  refine ⟨fun hh => ⟨?_, fun a f3 n3 ha => ?_⟩, fun hh => ⟨?_, fun a f3 n3 ha => ?_⟩,
    fun hh => ⟨?_, fun a f3 n3 ha => ?_⟩⟩
  · rw [hh, hsla_impl_red]
  · rw [hsla_of_find f0 f1 f2 f3 n0 n1 n2 n3, hs, hl, ha, hh, hsla_impl_red]
  · rw [hh, hsla_impl_green]
  · rw [hsla_of_find f0 f1 f2 f3 n0 n1 n2 n3, hs, hl, ha, hh, hsla_impl_green]
  · rw [hh, hsla_impl_blue]
  · rw [hsla_of_find f0 f1 f2 f3 n0 n1 n2 n3, hs, hl, ha, hh, hsla_impl_blue]

/-- Witness of C5: `hsl(0, 100%, 50%)`, `hsl(120, 100%, 50%)` and
`hsl(240, 100%, 50%)` under the three parameters of `hsl`, and
`hsla(0, 100%, 50%, 1)`, `hsla(120, 100%, 50%, 1)` and
`hsla(240, 100%, 50%, 1)` under the four of `hsla`; the colour node takes
the line of the hue. -/
theorem hsla_primaries_witness :
    (hsl hsl_descriptor.parameters (bind_arguments hsl_descriptor.parameters
        [Node.of_number 9 0, Example.percentage 9 100, Example.percentage 9 50])).1 =
      Except.ok ((Node.of_rgba 0 255 0 0 1).set_line_number 9) ∧
    (hsl hsl_descriptor.parameters (bind_arguments hsl_descriptor.parameters
        [Node.of_number 9 120, Example.percentage 9 100, Example.percentage 9 50])).1 =
      Except.ok ((Node.of_rgba 0 0 255 0 1).set_line_number 9) ∧
    (hsl hsl_descriptor.parameters (bind_arguments hsl_descriptor.parameters
        [Node.of_number 9 240, Example.percentage 9 100, Example.percentage 9 50])).1 =
      Except.ok ((Node.of_rgba 0 0 0 255 1).set_line_number 9) ∧
    (hsla hsla_descriptor.parameters (bind_arguments hsla_descriptor.parameters
        [Node.of_number 9 0, Example.percentage 9 100, Example.percentage 9 50,
          Node.of_number 9 1])).1 =
      Except.ok ((Node.of_rgba 0 255 0 0 1).set_line_number 9) ∧
    (hsla hsla_descriptor.parameters (bind_arguments hsla_descriptor.parameters
        [Node.of_number 9 120, Example.percentage 9 100, Example.percentage 9 50,
          Node.of_number 9 1])).1 =
      Except.ok ((Node.of_rgba 0 0 255 0 1).set_line_number 9) ∧
    (hsla hsla_descriptor.parameters (bind_arguments hsla_descriptor.parameters
        [Node.of_number 9 240, Example.percentage 9 100, Example.percentage 9 50,
          Node.of_number 9 1])).1 =
      Except.ok ((Node.of_rgba 0 0 0 255 1).set_line_number 9) :=
  ⟨((hsla_primaries hsl_descriptor.parameters (bind_arguments hsl_descriptor.parameters
        [Node.of_number 9 0, Example.percentage 9 100, Example.percentage 9 50])
      (Node.of_number 9 0) (Example.percentage 9 100) (Example.percentage 9 50)
      rfl rfl rfl rfl rfl rfl rfl rfl).1 rfl).1,
   ((hsla_primaries hsl_descriptor.parameters (bind_arguments hsl_descriptor.parameters
        [Node.of_number 9 120, Example.percentage 9 100, Example.percentage 9 50])
      (Node.of_number 9 120) (Example.percentage 9 100) (Example.percentage 9 50)
      rfl rfl rfl rfl rfl rfl rfl rfl).2.1 rfl).1,
   ((hsla_primaries hsl_descriptor.parameters (bind_arguments hsl_descriptor.parameters
        [Node.of_number 9 240, Example.percentage 9 100, Example.percentage 9 50])
      (Node.of_number 9 240) (Example.percentage 9 100) (Example.percentage 9 50)
      rfl rfl rfl rfl rfl rfl rfl rfl).2.2 rfl).1,
   ((hsla_primaries hsla_descriptor.parameters (bind_arguments hsla_descriptor.parameters
        [Node.of_number 9 0, Example.percentage 9 100, Example.percentage 9 50,
          Node.of_number 9 1])
      (Node.of_number 9 0) (Example.percentage 9 100) (Example.percentage 9 50)
      rfl rfl rfl rfl rfl rfl rfl rfl).1 rfl).2 (Node.of_number 9 1) rfl rfl rfl,
   ((hsla_primaries hsla_descriptor.parameters (bind_arguments hsla_descriptor.parameters
        [Node.of_number 9 120, Example.percentage 9 100, Example.percentage 9 50,
          Node.of_number 9 1])
      (Node.of_number 9 120) (Example.percentage 9 100) (Example.percentage 9 50)
      rfl rfl rfl rfl rfl rfl rfl rfl).2.1 rfl).2 (Node.of_number 9 1) rfl rfl rfl,
   ((hsla_primaries hsla_descriptor.parameters (bind_arguments hsla_descriptor.parameters
        [Node.of_number 9 240, Example.percentage 9 100, Example.percentage 9 50,
          Node.of_number 9 1])
      (Node.of_number 9 240) (Example.percentage 9 100) (Example.percentage 9 50)
      rfl rfl rfl rfl rfl rfl rfl rfl).2.2 rfl).2 (Node.of_number 9 1) rfl rfl rfl⟩

/-! ## C6: `rgb` -/

/-- What `rgb` returns on three bound arguments. -/
theorem rgb_of_find {parameters : List Token} {bindings : Bindings} {r g b : Node}
    (hr : bindings.find (param parameters 0) = some r)
    (hg : bindings.find (param parameters 1) = some g)
    (hb : bindings.find (param parameters 2) = some b) :
    rgb parameters bindings =
      (if ¬(r.type = NodeType.number ∧ g.type = NodeType.number ∧ b.type = NodeType.number) then
        eval_error "arguments for rgb must be numbers" r.line_number r.file_name
      else
        Except.ok (Node.mk NodeType.numeric_color 0 none false
          { Node.empty_content with children := [r, g, b, Node.of_number 0 1] }),
      bindings) := by
  simp only [rgb, Bindings.index_of_find hr, Bindings.index_of_find hg,
    Bindings.index_of_find hb]
  simp [Node.push, Node.with_capacity, Node.empty_content]

/-- C6: when `r`, `g` and `b` are plain numbers, `rgb` returns a colour
whose channels 0, 1, 2 are the nodes `r`, `g`, `b` themselves, whatever
their magnitudes, and whose alpha is the plain number 1; when one of them
is not a plain number, `rgb` raises an evaluation error and returns no
value. -/
theorem rgb_channels (parameters : List Token) (bindings : Bindings) (r g b : Node)
    (hr : bindings.find (param parameters 0) = some r)
    (hg : bindings.find (param parameters 1) = some g)
    (hb : bindings.find (param parameters 2) = some b) :
    (r.type = NodeType.number ∧ g.type = NodeType.number ∧ b.type = NodeType.number →
      ∃ color, (rgb parameters bindings).1 = Except.ok color ∧
        color.type = NodeType.numeric_color ∧
        color.content.children = [r, g, b, Node.of_number 0 1] ∧
        (Node.of_number 0 1).type = NodeType.number ∧
        (Node.of_number 0 1).content.numeric_value = 1) ∧
    (¬(r.type = NodeType.number ∧ g.type = NodeType.number ∧ b.type = NodeType.number) →
      ∃ e, (rgb parameters bindings).1 = Except.error (Exception.error e) ∧
        e.type = ErrorType.evaluation ∧
        e.message = "arguments for rgb must be numbers" ∧
        e.line_number = r.line_number) := by
  rw [rgb_of_find hr hg hb]
  constructor
  · intro h
    rw [if_neg (not_not.mpr h)]
    exact ⟨_, rfl, rfl, rfl, rfl, rfl⟩
  · intro h
    rw [if_pos h]
    exact ⟨_, rfl, rfl, rfl, rfl⟩

/-- Witness of C6: `rgb(300, -5, 1/2)` keeps the three numbers as they are,
and `rgb(300, 5px, 1/2)` raises. -/
theorem rgb_channels_witness :
    (∃ color, (rgb rgb_descriptor.parameters (bind_arguments rgb_descriptor.parameters
          [Node.of_number 3 300, Node.of_number 3 (-5), Node.of_number 3 (1 / 2)])).1 =
        Except.ok color ∧
      color.type = NodeType.numeric_color ∧
      color.content.children =
        [Node.of_number 3 300, Node.of_number 3 (-5), Node.of_number 3 (1 / 2),
          Node.of_number 0 1] ∧
      (Node.of_number 0 1).type = NodeType.number ∧
      (Node.of_number 0 1).content.numeric_value = 1) ∧
    (∃ e, (rgb rgb_descriptor.parameters (bind_arguments rgb_descriptor.parameters
          [Node.of_number 3 300, Example.dimension 3 5 "px", Node.of_number 3 (1 / 2)])).1 =
        Except.error (Exception.error e) ∧
      e.type = ErrorType.evaluation ∧
      e.message = "arguments for rgb must be numbers" ∧
      e.line_number = 3) :=
  ⟨(rgb_channels rgb_descriptor.parameters (bind_arguments rgb_descriptor.parameters
      [Node.of_number 3 300, Node.of_number 3 (-5), Node.of_number 3 (1 / 2)])
      _ _ _ rfl rfl rfl).1 ⟨rfl, rfl, rfl⟩,
   (rgb_channels rgb_descriptor.parameters (bind_arguments rgb_descriptor.parameters
      [Node.of_number 3 300, Example.dimension 3 5 "px", Node.of_number 3 (1 / 2)])
      _ _ _ rfl rfl rfl).2 (by decide)⟩

/-! ## C7: `round`, `ceil`, `floor`, `abs` -/

/-- C8: on a colour `c` with channels `r`, `g`, `b` and alpha `A`, and an
amount `x`, `opacify` returns `c` with its alpha replaced by
`min (A + x) 1`, which is at most 1 and has no lower bound, and
`transparentize` returns `c` with its alpha replaced by `max (A - x) 0`,
which is at least 0; the channels `r`, `g`, `b` are those of `c`. The
functions do not inspect the tag of `c`. -/
theorem opacity_clamp (parameters : List Token) (bindings : Bindings)
    (c amount r g b al : Node)
    (f0 : bindings.find (param parameters 0) = some c)
    (f1 : bindings.find (param parameters 1) = some amount)
    (hc : c.content.children = [r, g, b, al]) :
    (opacify parameters bindings).1 =
      Except.ok (Node.mk c.type c.line_number c.file_name c.unquoted
        { c.content with
          children := [r, g, b, al.set_numeric_value
            (min (al.content.numeric_value + amount.content.numeric_value) 1)] }) ∧
    (transparentize parameters bindings).1 =
      Except.ok (Node.mk c.type c.line_number c.file_name c.unquoted
        { c.content with
          children := [r, g, b, al.set_numeric_value
            (max (al.content.numeric_value - amount.content.numeric_value) 0)] }) ∧
    (∀ y : ℚ, (al.set_numeric_value y).content.numeric_value = y ∧
      (al.set_numeric_value y).type = al.type) ∧
    min (al.content.numeric_value + amount.content.numeric_value) 1 ≤ 1 ∧
    (al.content.numeric_value + amount.content.numeric_value < 1 →
      min (al.content.numeric_value + amount.content.numeric_value) 1 =
        al.content.numeric_value + amount.content.numeric_value) ∧
    0 ≤ max (al.content.numeric_value - amount.content.numeric_value) 0 := by
  refine ⟨?_, ?_, fun y => ⟨rfl, rfl⟩, min_le_right _ _, fun h => min_eq_left h.le,
    le_max_right _ _⟩
  · simp only [opacify, Bindings.index_of_find f0, Bindings.index_of_find f1, Node.clone]
    by_cases h : al.content.numeric_value + amount.content.numeric_value ≥ 1
    · simp [Node.index, Node.set_index, Node.size, hc, bind, Except.bind, pure, Except.pure,
        Node.set_numeric_value, h, min_eq_right h]
    · have h2 := not_le.mp h
      simp [Node.index, Node.set_index, Node.size, hc, bind, Except.bind, pure, Except.pure,
        Node.set_numeric_value, h2, min_eq_left h2.le]
  · simp only [transparentize, Bindings.index_of_find f0, Bindings.index_of_find f1,
      Node.clone]
    by_cases h : al.content.numeric_value - amount.content.numeric_value ≤ 0
    · simp [Node.index, Node.set_index, Node.size, hc, bind, Except.bind, pure, Except.pure,
        Node.set_numeric_value, h, max_eq_right h]
    · have h2 := not_le.mp h
      simp [Node.index, Node.set_index, Node.size, hc, bind, Except.bind, pure, Except.pure,
        Node.set_numeric_value, h2, max_eq_left h2.le]
      intro h3
      linarith

/-- Witness of C8: on the colour `(10, 20, 30, 1/2)`, `opacify` by `0.7`
gives alpha 1, `transparentize` by `0.7` gives alpha 0, and `opacify` by
`-2` gives alpha `-3/2`. -/
theorem opacity_clamp_witness :
    (opacify opacify_descriptor.parameters (bind_arguments opacify_descriptor.parameters
        [Node.of_rgba 1 10 20 30 (1 / 2), Node.of_number 1 (7 / 10)])).1 =
      Except.ok (Node.of_rgba 1 10 20 30 1) ∧
    (transparentize opacify_descriptor.parameters
        (bind_arguments opacify_descriptor.parameters
          [Node.of_rgba 1 10 20 30 (1 / 2), Node.of_number 1 (7 / 10)])).1 =
      Except.ok (Node.of_rgba 1 10 20 30 0) ∧
    (opacify opacify_descriptor.parameters (bind_arguments opacify_descriptor.parameters
        [Node.of_rgba 1 10 20 30 (1 / 2), Node.of_number 1 (-2)])).1 =
      Except.ok (Node.of_rgba 1 10 20 30 (-3 / 2)) := by
  have h1 := opacity_clamp opacify_descriptor.parameters
    (bind_arguments opacify_descriptor.parameters
      [Node.of_rgba 1 10 20 30 (1 / 2), Node.of_number 1 (7 / 10)])
    (Node.of_rgba 1 10 20 30 (1 / 2)) (Node.of_number 1 (7 / 10))
    (Node.of_number 1 10) (Node.of_number 1 20) (Node.of_number 1 30) (Node.of_number 1 (1 / 2))
    rfl rfl rfl
  have h2 := opacity_clamp opacify_descriptor.parameters
    (bind_arguments opacify_descriptor.parameters
      [Node.of_rgba 1 10 20 30 (1 / 2), Node.of_number 1 (-2)])
    (Node.of_rgba 1 10 20 30 (1 / 2)) (Node.of_number 1 (-2))
    (Node.of_number 1 10) (Node.of_number 1 20) (Node.of_number 1 30) (Node.of_number 1 (1 / 2))
    rfl rfl rfl
  refine ⟨h1.1.trans ?_, h1.2.1.trans ?_, h2.1.trans ?_⟩
  · simp [Node.of_rgba, Node.of_number, Node.set_numeric_value, Node.empty_content]
    norm_num
  · simp [Node.of_rgba, Node.of_number, Node.set_numeric_value, Node.empty_content]
    norm_num
  · simp [Node.of_rgba, Node.of_number, Node.set_numeric_value, Node.empty_content]
    norm_num

/-! ## C9 and C10: the separator of a join -/

/-- C9: when `a` and `b` are not both nil, the two-argument `join` returns
a list with the separator of the first operand that is not nil, a scalar
counting as a space-list; so a comma-list first gives a comma-list, nil
then a comma-list gives a comma-list, and a scalar first gives a
space-list. The three-argument `join` with the separator `comma` returns a
comma-list whatever the operands. -/
theorem join_separator (parameters : List Token) (bindings : Bindings) (a b : Node)
    (fa : bindings.find (param parameters 0) = some a)
    (fb : bindings.find (param parameters 1) = some b)
    (hne : ¬(a.type = NodeType.nil ∧ b.type = NodeType.nil)) :
    (∃ r, (join_2 parameters bindings).1 = Except.ok r ∧
      r.type = (if a.type ≠ NodeType.nil then Spec.separator a else Spec.separator b) ∧
      (a.type = NodeType.comma_list → r.type = NodeType.comma_list) ∧
      (a.type = NodeType.nil → b.type = NodeType.comma_list →
        r.type = NodeType.comma_list) ∧
      (a.type ≠ NodeType.nil → a.type ≠ NodeType.comma_list →
        r.type = NodeType.space_list)) ∧
    ∀ sep : Node, bindings.find (param parameters 2) = some sep →
      sep.content.token.unquote = "comma" →
      ∃ r, (join_3 parameters bindings).1 = Except.ok r ∧ r.type = NodeType.comma_list := by
  constructor
  · refine ⟨_, (join_impl_of_find false fa fb).trans (if_neg hne), ?_, ?_, ?_, ?_⟩
    · simp [join_type]
    · intro h; simp [join_type, Spec.separator, h]
    · intro h1 h2; simp [join_type, Spec.separator, h1, h2]
    · intro h1 h2; simp [join_type, Spec.separator, h1, h2]
  · intro sep fs hs
    refine ⟨_, (join_impl_of_find true fa fb).trans (if_neg hne), ?_⟩
    simp [join_type, Bindings.index_of_find fs, hs]

/-- Witness of C9: `join(nil, (1, 2))` is a comma-list, and joining two
space-lists under the separator `"comma"` is a comma-list. -/
theorem join_separator_witness :
    (∃ r, (join_2 join_2_descriptor.parameters (bind_arguments join_2_descriptor.parameters
          [Example.nil 6, Example.list NodeType.comma_list 6
            [Node.of_number 6 1, Node.of_number 6 2]])).1 = Except.ok r ∧
      r.type = NodeType.comma_list) ∧
    (∃ r, (join_3 join_3_descriptor.parameters (bind_arguments join_3_descriptor.parameters
          [Example.list NodeType.space_list 6 [Node.of_number 6 1],
            Example.list NodeType.space_list 6 [Node.of_number 6 2],
            Example.string 6 "\"comma\""])).1 = Except.ok r ∧
      r.type = NodeType.comma_list) := by
  constructor
  · obtain ⟨r, hr, _, _, h, _⟩ := (join_separator join_2_descriptor.parameters
      (bind_arguments join_2_descriptor.parameters
        [Example.nil 6, Example.list NodeType.comma_list 6
          [Node.of_number 6 1, Node.of_number 6 2]])
      (Example.nil 6)
      (Example.list NodeType.comma_list 6 [Node.of_number 6 1, Node.of_number 6 2])
      rfl rfl (by decide)).1
    exact ⟨r, hr, h rfl rfl⟩
  · exact (join_separator join_3_descriptor.parameters
      (bind_arguments join_3_descriptor.parameters
        [Example.list NodeType.space_list 6 [Node.of_number 6 1],
          Example.list NodeType.space_list 6 [Node.of_number 6 2],
          Example.string 6 "\"comma\""])
      (Example.list NodeType.space_list 6 [Node.of_number 6 1])
      (Example.list NodeType.space_list 6 [Node.of_number 6 2])
      rfl rfl (by decide)).2 (Example.string 6 "\"comma\"") rfl (by decide)

/-- C10, amended: in the three-argument `join` with operands not both nil,
a separator literal other than `comma` and `auto` (`space`, for one) is not
specially handled and the result is the space-list it was constructed as,
whatever the separators of the operands. -/
theorem join_other_separator (parameters : List Token) (bindings : Bindings)
    (a b sep : Node)
    (fa : bindings.find (param parameters 0) = some a)
    (fb : bindings.find (param parameters 1) = some b)
    (fs : bindings.find (param parameters 2) = some sep)
    (hne : ¬(a.type = NodeType.nil ∧ b.type = NodeType.nil))
    (hs : sep.content.token.unquote ≠ "comma")
    (_hauto : sep.content.token.unquote ≠ "auto") :
    ∃ r, (join_3 parameters bindings).1 = Except.ok r ∧ r.type = NodeType.space_list := by
  refine ⟨_, (join_impl_of_find true fa fb).trans (if_neg hne), ?_⟩
  simp [join_type, Bindings.index_of_find fs, hs]

/-- Witness of C10 as amended: two comma-lists joined under the separator
`space` give a space-list. -/
theorem join_other_separator_witness :
    ∃ r, (join_3 join_3_descriptor.parameters (bind_arguments join_3_descriptor.parameters
          [Example.list NodeType.comma_list 6 [Node.of_number 6 1],
            Example.list NodeType.comma_list 6 [Node.of_number 6 2],
            Example.string 6 "space"])).1 = Except.ok r ∧
      r.type = NodeType.space_list :=
  join_other_separator join_3_descriptor.parameters
    (bind_arguments join_3_descriptor.parameters
      [Example.list NodeType.comma_list 6 [Node.of_number 6 1],
        Example.list NodeType.comma_list 6 [Node.of_number 6 2],
        Example.string 6 "space"])
    (Example.list NodeType.comma_list 6 [Node.of_number 6 1])
    (Example.list NodeType.comma_list 6 [Node.of_number 6 2])
    (Example.string 6 "space") rfl rfl rfl (by decide) (by decide) (by decide)

/-- Counterexample to C10 as stated: the first operand that is not nil is
a comma-list and the separator literal is `space`, yet the three-argument
`join` returns a space-list, not a list with the separator of that
operand. -/
theorem join_space_of_comma_lists :
    (Example.string 6 "space").content.token.unquote ≠ "comma" ∧
    Spec.separator (Example.list NodeType.comma_list 6 [Node.of_number 6 1]) =
      NodeType.comma_list ∧
    ∃ r, (join_3 join_3_descriptor.parameters (bind_arguments join_3_descriptor.parameters
          [Example.list NodeType.comma_list 6 [Node.of_number 6 1],
            Example.list NodeType.comma_list 6 [Node.of_number 6 2],
            Example.string 6 "space"])).1 = Except.ok r ∧
      r.type = NodeType.space_list ∧
      r.type ≠ Spec.separator (Example.list NodeType.comma_list 6 [Node.of_number 6 1]) :=
  ⟨by decide, rfl, _, rfl, rfl, by decide⟩

/-! ## C11: `nth` -/

/-- Truncating `k - 1` for a positive natural `k` gives `k - 1`. -/
theorem static_cast_int_pred (k : ℕ) (hk : 1 ≤ k) :
    static_cast_int ((k : ℚ) - 1) = ((k - 1 : ℕ) : ℤ) := by
  have e : ((k : ℚ) - 1) = ((k - 1 : ℕ) : ℚ) := by
    rw [Nat.cast_sub hk]; simp
  rw [e]
  unfold static_cast_int
  rw [if_pos (Nat.cast_nonneg _)]
  exact Int.floor_natCast _

/-- C11: `nth` indexes from 1. On a list `l` and an integer `k` with
`1 ≤ k ≤ length l` it returns the element of `l` at the 0-based position
`k - 1`; on a value `v` that is not a list, `nth(v, 1)` returns `v`
itself. -/
theorem nth_one_based (parameters : List Token) (bindings : Bindings) (l n : Node)
    (f0 : bindings.find (param parameters 0) = some l)
    (f1 : bindings.find (param parameters 1) = some n) :
    (∀ k : ℕ, l.type = NodeType.space_list ∨ l.type = NodeType.comma_list →
      n.content.numeric_value = k → 1 ≤ k → k ≤ l.content.children.length →
      ∃ e, l.content.children.get? (k - 1) = some e ∧
        (nth parameters bindings).1 = Except.ok e) ∧
    (l.type ≠ NodeType.space_list → l.type ≠ NodeType.comma_list →
      n.content.numeric_value = 1 →
      (nth parameters bindings).1 = Except.ok l) := by
  simp only [nth, Bindings.index_of_find f0, Bindings.index_of_find f1]
  constructor
  · intro k hl hn h1 h2
    have hlt : k - 1 < l.content.children.length := by omega
    refine ⟨l.content.children.get ⟨k - 1, hlt⟩, List.get?_eq_get hlt, ?_⟩
    have hc : ¬(l.type ≠ NodeType.space_list ∧ l.type ≠ NodeType.comma_list) := by
      rintro ⟨a, b⟩
      rcases hl with hl | hl
      · exact a hl
      · exact b hl
    rw [if_neg hc, hn, static_cast_int_pred k h1]
    have hnn : ¬ ((k - 1 : ℕ) : ℤ) < 0 := not_lt.mpr (Int.ofNat_nonneg _)
    simp [Node.index, List.getElem?_eq_getElem hlt, hnn]
  · intro a b hn
    have e1 : static_cast_int (n.content.numeric_value - 1) = 0 := by
      rw [hn]; simp [static_cast_int]
    have hcond : l.type ≠ NodeType.space_list ∧ l.type ≠ NodeType.comma_list := ⟨a, b⟩
    rw [if_pos hcond, e1]
    simp [Node.index, Node.push, Node.with_capacity, Node.empty_content]

/-- Witness of C11: the second element of `(10px 20px 30px)`, and `nth` of
the scalar `5` at 1. -/
theorem nth_one_based_witness :
    (nth nth_descriptor.parameters (bind_arguments nth_descriptor.parameters
        [Example.list NodeType.space_list 8
            [Example.dimension 8 10 "px", Example.dimension 8 20 "px",
              Example.dimension 8 30 "px"],
          Node.of_number 8 2])).1 = Except.ok (Example.dimension 8 20 "px") ∧
    (nth nth_descriptor.parameters (bind_arguments nth_descriptor.parameters
        [Node.of_number 8 5, Node.of_number 8 1])).1 = Except.ok (Node.of_number 8 5) := by
  constructor
  · obtain ⟨e, he, hr⟩ := (nth_one_based nth_descriptor.parameters
      (bind_arguments nth_descriptor.parameters
        [Example.list NodeType.space_list 8
            [Example.dimension 8 10 "px", Example.dimension 8 20 "px",
              Example.dimension 8 30 "px"],
          Node.of_number 8 2])
      (Example.list NodeType.space_list 8
        [Example.dimension 8 10 "px", Example.dimension 8 20 "px",
          Example.dimension 8 30 "px"])
      (Node.of_number 8 2) rfl rfl).1 2 (Or.inl rfl)
      (by simp [Node.of_number]) (by decide) (by decide)
    have he2 : e = Example.dimension 8 20 "px" := by
      have h : (Example.list NodeType.space_list 8
        [Example.dimension 8 10 "px", Example.dimension 8 20 "px",
          Example.dimension 8 30 "px"]).content.children.get? (2 - 1)
          = some (Example.dimension 8 20 "px") := rfl
      rw [h] at he
      exact (Option.some.inj he).symm
    subst he2; exact hr
  · exact (nth_one_based nth_descriptor.parameters
      (bind_arguments nth_descriptor.parameters [Node.of_number 8 5, Node.of_number 8 1])
      (Node.of_number 8 5) (Node.of_number 8 1) rfl rfl).2
      (by decide) (by decide) rfl

/-! ## C12: `type_of` -/

/-- C12: for every value `v`, `type_of` returns, without raising, an
unquoted string whose text is `number` for a number, dimension or
percentage, `bool` for a boolean, `string` for a string, `color` for a
colour, `list` for a comma-list, space-list or nil, and `string` for every
other variant. -/
theorem type_of_literal (parameters : List Token) (bindings : Bindings) (v : Node)
    (f0 : bindings.find (param parameters 0) = some v) :
    ∃ r, (type_of parameters bindings).1 = Except.ok r ∧
      r.type = NodeType.string_constant ∧
      r.unquoted = true ∧
      r.content.token.to_string = Spec.type_name v.type ∧
      (v.type = NodeType.number ∨ v.type = NodeType.numeric_dimension
          ∨ v.type = NodeType.numeric_percentage → r.content.token.to_string = "number") ∧
      (v.type = NodeType.boolean → r.content.token.to_string = "bool") ∧
      (v.type = NodeType.string_constant → r.content.token.to_string = "string") ∧
      (v.type = NodeType.numeric_color → r.content.token.to_string = "color") ∧
      (v.type = NodeType.comma_list ∨ v.type = NodeType.space_list
          ∨ v.type = NodeType.nil → r.content.token.to_string = "list") ∧
      (v.type = NodeType.none ∨ v.type = NodeType.identifier →
        r.content.token.to_string = "string") := by
  simp only [type_of, Bindings.index_of_find f0]
  cases ht : v.type <;>
    simp [Node.set_token, Node.of_token, Token.make, Token.to_string, Spec.type_name,
      number_name, bool_name, string_name, color_name, list_name, Node.empty_content]

/-- Witness of C12: `type_of(5px)` is the unquoted string `number`. -/
theorem type_of_literal_witness :
    ∃ r, (type_of type_of_descriptor.parameters
        (bind_arguments type_of_descriptor.parameters [Example.dimension 3 5 "px"])).1 =
        Except.ok r ∧
      r.type = NodeType.string_constant ∧ r.unquoted = true ∧
      r.content.token.to_string = "number" := by
  obtain ⟨r, hr, h1, h2, _, h3, _⟩ := type_of_literal type_of_descriptor.parameters
    (bind_arguments type_of_descriptor.parameters [Example.dimension 3 5 "px"])
    (Example.dimension 3 5 "px") rfl
  exact ⟨r, hr, h1, h2, h3 (Or.inr (Or.inl rfl))⟩

/-! ## C13: `not` -/

/-- C13: for every value `v`, `not` returns a boolean without raising, and
the boolean is true exactly when `v` is the boolean false; for the boolean
true and for every value that is not a boolean it is false. -/
theorem not_impl_boolean (parameters : List Token) (bindings : Bindings) (v : Node)
    (f0 : bindings.find (param parameters 0) = some v) :
    ∃ r, (not_impl parameters bindings).1 = Except.ok r ∧
      r.type = NodeType.boolean ∧
      (r.content.boolean_value = true ↔
        v.type = NodeType.boolean ∧ v.content.boolean_value = false) ∧
      (v.type = NodeType.boolean → v.content.boolean_value = true →
        r.content.boolean_value = false) ∧
      (v.type ≠ NodeType.boolean → r.content.boolean_value = false) := by
  simp only [not_impl, Bindings.index_of_find f0]
  by_cases h : v.type = NodeType.boolean ∧ v.content.boolean_value = false
  · rw [if_pos h]
    refine ⟨_, rfl, rfl, ?_, ?_, ?_⟩
    · simp [boolean_node, Node.set_boolean_value, Node.of_type, h]
    · intro _ hv; rw [h.2] at hv; cases hv
    · intro hv; exact absurd h.1 hv
  · rw [if_neg h]
    refine ⟨_, rfl, rfl, ?_, ?_, ?_⟩
    · simp [boolean_node, Node.set_boolean_value, Node.of_type, h]
    · intro _ _; rfl
    · intro _; rfl

/-- Witness of C13: `not(false)` is true, `not(true)` is false and
`not("x")` is false. -/
theorem not_impl_boolean_witness :
    (not_impl not_descriptor.parameters
        (bind_arguments not_descriptor.parameters [boolean_node 4 false])).1 =
      Except.ok (boolean_node 4 true) ∧
    (not_impl not_descriptor.parameters
        (bind_arguments not_descriptor.parameters [boolean_node 4 true])).1 =
      Except.ok (boolean_node 4 false) ∧
    (not_impl not_descriptor.parameters
        (bind_arguments not_descriptor.parameters [Example.string 4 "\"x\""])).1 =
      Except.ok (boolean_node 4 false) ∧
    (∃ r, (not_impl not_descriptor.parameters
        (bind_arguments not_descriptor.parameters [Example.string 4 "\"x\""])).1 =
        Except.ok r ∧ r.content.boolean_value = false) := by
  refine ⟨rfl, rfl, rfl, ?_⟩
  obtain ⟨r, hr, _, _, _, h⟩ := not_impl_boolean not_descriptor.parameters
    (bind_arguments not_descriptor.parameters [Example.string 4 "\"x\""])
    (Example.string 4 "\"x\"") rfl
  exact ⟨r, hr, h (by decide)⟩

/-! ## C14: the channel accessors -/

/-- Reading a child never gives the `Error` of `eval_error`. -/
theorem index_ne_error (c : Node) (i : Nat) (e : Error) :
    c.index i ≠ Except.error (Exception.error e) := by
  unfold Node.index
  split <;> simp

/-- What `eval_error` raises is an evaluation error. -/
theorem eval_error_eq (message : String) (line : Nat) (file : Option String) :
    ∃ e, (eval_error message line file : Except Exception Node) =
        Except.error (Exception.error e) ∧
      e.type = ErrorType.evaluation ∧ e.message = message ∧ e.line_number = line :=
  ⟨_, rfl, rfl, rfl, rfl⟩

/-- What `rgba_4` returns on four bound plain numbers. -/
theorem rgba_4_of_find {parameters : List Token} {bindings : Bindings} {r g b a : Node}
    (fr : bindings.find (param parameters 0) = some r)
    (fg : bindings.find (param parameters 1) = some g)
    (fb : bindings.find (param parameters 2) = some b)
    (fa : bindings.find (param parameters 3) = some a)
    (tr : r.type = NodeType.number) (tg : g.type = NodeType.number)
    (tb : b.type = NodeType.number) (ta : a.type = NodeType.number) :
    (rgba_4 parameters bindings).1 =
      Except.ok (Node.mk NodeType.numeric_color 0 none false
        { Node.empty_content with children := [r, g, b, a] }) := by
  simp only [rgba_4, Bindings.index_of_find fr, Bindings.index_of_find fg,
    Bindings.index_of_find fb, Bindings.index_of_find fa]
  simp [tr, tg, tb, ta, Node.push, Node.with_capacity, Node.empty_content]

/-- The accessors on a bound argument: an evaluation error exactly when the
argument is not a colour, and the channels 0, 1, 2, 3 of a colour. -/
theorem accessors_of_find {parameters : List Token} {bindings : Bindings} {c : Node}
    (f0 : bindings.find (param parameters 0) = some c) :
    ((∃ e, (red parameters bindings).1 = Except.error (Exception.error e) ∧
        e.type = ErrorType.evaluation) ↔ c.type ≠ NodeType.numeric_color) ∧
    ((∃ e, (green parameters bindings).1 = Except.error (Exception.error e) ∧
        e.type = ErrorType.evaluation) ↔ c.type ≠ NodeType.numeric_color) ∧
    ((∃ e, (blue parameters bindings).1 = Except.error (Exception.error e) ∧
        e.type = ErrorType.evaluation) ↔ c.type ≠ NodeType.numeric_color) ∧
    ((∃ e, (alpha parameters bindings).1 = Except.error (Exception.error e) ∧
        e.type = ErrorType.evaluation) ↔ c.type ≠ NodeType.numeric_color) ∧
    (c.type = NodeType.numeric_color → ∀ c0 c1 c2 c3 : Node,
      c.content.children = [c0, c1, c2, c3] →
      (red parameters bindings).1 = Except.ok c0 ∧
      (green parameters bindings).1 = Except.ok c1 ∧
      (blue parameters bindings).1 = Except.ok c2 ∧
      (alpha parameters bindings).1 = Except.ok c3) := by
  simp only [red, green, blue, alpha, Bindings.index_of_find f0]
  by_cases h : c.type = NodeType.numeric_color
  · have hn : ¬ c.type ≠ NodeType.numeric_color := not_not.mpr h
    simp only [if_neg hn]
    refine ⟨?_, ?_, ?_, ?_, ?_⟩
    · exact ⟨fun ⟨e, he, _⟩ => absurd he (index_ne_error c 0 e), fun h2 => absurd h h2⟩
    · exact ⟨fun ⟨e, he, _⟩ => absurd he (index_ne_error c 1 e), fun h2 => absurd h h2⟩
    · exact ⟨fun ⟨e, he, _⟩ => absurd he (index_ne_error c 2 e), fun h2 => absurd h h2⟩
    · exact ⟨fun ⟨e, he, _⟩ => absurd he (index_ne_error c 3 e), fun h2 => absurd h h2⟩
    · intro _ c0 c1 c2 c3 hc
      simp [Node.index, hc]
  · have hn : c.type ≠ NodeType.numeric_color := h
    simp only [if_pos hn]
    refine ⟨?_, ?_, ?_, ?_, fun h2 => absurd h2 h⟩
    · exact ⟨fun _ => h, fun _ => ⟨_, rfl, rfl⟩⟩
    · exact ⟨fun _ => h, fun _ => ⟨_, rfl, rfl⟩⟩
    · exact ⟨fun _ => h, fun _ => ⟨_, rfl, rfl⟩⟩
    · exact ⟨fun _ => h, fun _ => ⟨_, rfl, rfl⟩⟩

/-- C14: `red`, `green`, `blue` and `alpha` raise an evaluation error
exactly when their argument is not a colour, and on a colour return its
channel 0, 1, 2 and 3; hence, for plain numbers `r`, `g`, `b`, `a`, the
four-argument `rgba` returns a colour of which `red`, `green`, `blue` and
`alpha` are `r`, `g`, `b` and `a`. -/
theorem channel_accessors (q : List Token) (qb : Bindings) (r g b a : Node)
    (fr : qb.find (param q 0) = some r)
    (fg : qb.find (param q 1) = some g)
    (fb : qb.find (param q 2) = some b)
    (fa : qb.find (param q 3) = some a)
    (tr : r.type = NodeType.number) (tg : g.type = NodeType.number)
    (tb : b.type = NodeType.number) (ta : a.type = NodeType.number) :
    (∀ (parameters : List Token) (bindings : Bindings) (c : Node),
      bindings.find (param parameters 0) = some c →
      ((∃ e, (red parameters bindings).1 = Except.error (Exception.error e) ∧
          e.type = ErrorType.evaluation) ↔ c.type ≠ NodeType.numeric_color) ∧
      ((∃ e, (green parameters bindings).1 = Except.error (Exception.error e) ∧
          e.type = ErrorType.evaluation) ↔ c.type ≠ NodeType.numeric_color) ∧
      ((∃ e, (blue parameters bindings).1 = Except.error (Exception.error e) ∧
          e.type = ErrorType.evaluation) ↔ c.type ≠ NodeType.numeric_color) ∧
      ((∃ e, (alpha parameters bindings).1 = Except.error (Exception.error e) ∧
          e.type = ErrorType.evaluation) ↔ c.type ≠ NodeType.numeric_color) ∧
      (c.type = NodeType.numeric_color → ∀ c0 c1 c2 c3 : Node,
        c.content.children = [c0, c1, c2, c3] →
        (red parameters bindings).1 = Except.ok c0 ∧
        (green parameters bindings).1 = Except.ok c1 ∧
        (blue parameters bindings).1 = Except.ok c2 ∧
        (alpha parameters bindings).1 = Except.ok c3)) ∧
    ∃ color, (rgba_4 q qb).1 = Except.ok color ∧
      ∀ (parameters : List Token) (bindings : Bindings),
        bindings.find (param parameters 0) = some color →
        (red parameters bindings).1 = Except.ok r ∧
        (green parameters bindings).1 = Except.ok g ∧
        (blue parameters bindings).1 = Except.ok b ∧
        (alpha parameters bindings).1 = Except.ok a := by
  refine ⟨fun parameters bindings c f0 => accessors_of_find f0,
    _, rgba_4_of_find fr fg fb fa tr tg tb ta, ?_⟩
  intro parameters bindings f0
  exact (accessors_of_find f0).2.2.2.2 rfl r g b a rfl

/-- Witness of C14: the channels of `rgba(10, 20, 30, 0.5)`. -/
theorem channel_accessors_witness :
    ∃ color, (rgba_4 rgba_4_descriptor.parameters
        (bind_arguments rgba_4_descriptor.parameters
          [Node.of_number 2 10, Node.of_number 2 20, Node.of_number 2 30,
            Node.of_number 2 (1 / 2)])).1 = Except.ok color ∧
      (red red_descriptor.parameters
        (bind_arguments red_descriptor.parameters [color])).1 =
        Except.ok (Node.of_number 2 10) ∧
      (green green_descriptor.parameters
        (bind_arguments green_descriptor.parameters [color])).1 =
        Except.ok (Node.of_number 2 20) ∧
      (blue blue_descriptor.parameters
        (bind_arguments blue_descriptor.parameters [color])).1 =
        Except.ok (Node.of_number 2 30) ∧
      (alpha alpha_descriptor.parameters
        (bind_arguments alpha_descriptor.parameters [color])).1 =
        Except.ok (Node.of_number 2 (1 / 2)) := by
  obtain ⟨_, color, hc, h⟩ := channel_accessors rgba_4_descriptor.parameters
    (bind_arguments rgba_4_descriptor.parameters
      [Node.of_number 2 10, Node.of_number 2 20, Node.of_number 2 30,
        Node.of_number 2 (1 / 2)])
    (Node.of_number 2 10) (Node.of_number 2 20) (Node.of_number 2 30)
    (Node.of_number 2 (1 / 2)) rfl rfl rfl rfl rfl rfl rfl rfl
  exact ⟨color, hc,
    (h red_descriptor.parameters _ (Bindings.find_bind_head _ _ _ _)).1,
    (h green_descriptor.parameters _ (Bindings.find_bind_head _ _ _ _)).2.1,
    (h blue_descriptor.parameters _ (Bindings.find_bind_head _ _ _ _)).2.2.1,
    (h alpha_descriptor.parameters _ (Bindings.find_bind_head _ _ _ _)).2.2.2⟩

/-! ## C15: `invert` -/

/-- C15: on a colour with channel magnitudes `(r, g, b, a)`, `invert`
returns the colour `(255 - r, 255 - g, 255 - b, a)`, the alpha being that
of the argument; on an argument that is not a colour it raises an
evaluation error. -/
theorem invert_channels (parameters : List Token) (bindings : Bindings) (c : Node)
    (f0 : bindings.find (param parameters 0) = some c) :
    (c.type = NodeType.numeric_color → ∀ c0 c1 c2 c3 : Node,
      c.content.children = [c0, c1, c2, c3] →
      (invert parameters bindings).1 =
        Except.ok (Node.of_rgba c.line_number
          (255 - c0.content.numeric_value) (255 - c1.content.numeric_value)
          (255 - c2.content.numeric_value) c3.content.numeric_value)) ∧
    (c.type ≠ NodeType.numeric_color →
      ∃ e, (invert parameters bindings).1 = Except.error (Exception.error e) ∧
        e.type = ErrorType.evaluation ∧
        e.message = "argument to invert must be a color" ∧
        e.line_number = c.line_number) := by
  simp only [invert, Bindings.index_of_find f0]
  constructor
  · intro h c0 c1 c2 c3 hc
    have hn : ¬ c.type ≠ NodeType.numeric_color := not_not.mpr h
    rw [if_neg hn]
    simp [Node.index, hc, bind, Except.bind, pure, Except.pure]
  · intro h
    rw [if_pos h]
    exact eval_error_eq _ _ _

/-- Witness of C15: `invert(rgb(10, 20, 30))` is `(245, 235, 225, 1)`, and
`invert(5)` raises. -/
theorem invert_channels_witness :
    (∃ color, (rgb rgb_descriptor.parameters (bind_arguments rgb_descriptor.parameters
          [Node.of_number 3 10, Node.of_number 3 20, Node.of_number 3 30])).1 =
        Except.ok color ∧
      (invert invert_descriptor.parameters
        (bind_arguments invert_descriptor.parameters [color])).1 =
        Except.ok (Node.of_rgba 0 245 235 225 1)) ∧
    (∃ e, (invert invert_descriptor.parameters
        (bind_arguments invert_descriptor.parameters [Node.of_number 3 5])).1 =
        Except.error (Exception.error e) ∧ e.type = ErrorType.evaluation) := by
  constructor
  · refine ⟨_, rfl, ?_⟩
    have h := (invert_channels invert_descriptor.parameters
      (bind_arguments invert_descriptor.parameters
        [Node.mk NodeType.numeric_color 0 none false
          { Node.empty_content with
            children := [Node.of_number 3 10, Node.of_number 3 20, Node.of_number 3 30,
              Node.of_number 0 1] }])
      _ rfl).1 rfl (Node.of_number 3 10) (Node.of_number 3 20) (Node.of_number 3 30)
      (Node.of_number 0 1) rfl
    refine h.trans ?_
    simp [Node.of_number, Node.empty_content]
    norm_num
  · obtain ⟨e, he, ht, _⟩ := (invert_channels invert_descriptor.parameters
      (bind_arguments invert_descriptor.parameters [Node.of_number 3 5])
      (Node.of_number 3 5) rfl).2 (by decide)
    exact ⟨e, he, ht⟩

/-! ## C16: `unquote` and `quote` -/

/-- C16: for every value `v`, `unquote` returns `v` with the flag
`unquoted` set (variant and payload unchanged), and `quote` returns,
without raising, `v` retagged as a string with the flag cleared; hence
each is idempotent and `quote(unquote(v)) = quote(v)`. -/
theorem quote_unquote (parameters : List Token) (bindings : Bindings) (v : Node)
    (f0 : bindings.find (param parameters 0) = some v) :
    (unquote parameters bindings).1 =
      Except.ok (Node.mk v.type v.line_number v.file_name true v.content) ∧
    (quote parameters bindings).1 =
      Except.ok (Node.mk NodeType.string_constant v.line_number v.file_name false v.content) ∧
    ∀ (q : List Token) (bu bq : Bindings),
      bu.find (param q 0) =
        some (Node.mk v.type v.line_number v.file_name true v.content) →
      bq.find (param q 0) =
        some (Node.mk NodeType.string_constant v.line_number v.file_name false v.content) →
      (unquote q bu).1 = (unquote parameters bindings).1 ∧
      (quote q bq).1 = (quote parameters bindings).1 ∧
      (quote q bu).1 = (quote parameters bindings).1 := by
  refine ⟨?_, ?_, ?_⟩
  · simp [unquote, Bindings.index_of_find f0, Node.clone]
  · simp [quote, Bindings.index_of_find f0, Node.clone]
  · intro q bu bq fu fq
    simp [unquote, quote, Bindings.index_of_find f0, Bindings.index_of_find fu,
      Bindings.index_of_find fq, Node.clone]

/-- Witness of C16: on the number `5`, which is not a string, `quote` gives
a quoted string, and quoting the unquoted value gives the same. -/
theorem quote_unquote_witness :
    (unquote unquote_descriptor.parameters
        (bind_arguments unquote_descriptor.parameters [Node.of_number 6 5])).1 =
      Except.ok ((Node.of_number 6 5).set_unquoted true) ∧
    (quote quote_descriptor.parameters
        (bind_arguments quote_descriptor.parameters [Node.of_number 6 5])).1 =
      Except.ok (((Node.of_number 6 5).set_type NodeType.string_constant).set_unquoted
        false) ∧
    (quote quote_descriptor.parameters
        (bind_arguments quote_descriptor.parameters
          [(Node.of_number 6 5).set_unquoted true])).1 =
      (quote quote_descriptor.parameters
        (bind_arguments quote_descriptor.parameters [Node.of_number 6 5])).1 := by
  have h := quote_unquote quote_descriptor.parameters
    (bind_arguments quote_descriptor.parameters [Node.of_number 6 5])
    (Node.of_number 6 5) rfl
  exact ⟨h.1, h.2.1,
    (h.2.2 quote_descriptor.parameters
      (bind_arguments quote_descriptor.parameters [(Node.of_number 6 5).set_unquoted true])
      (bind_arguments quote_descriptor.parameters
        [((Node.of_number 6 5).set_type NodeType.string_constant).set_unquoted false])
      rfl rfl).2.2⟩

/-! ## C17: the caller's map and memory after a call -/

/-- Reading a key that is not bound adds it to the map, under `Node()`:
the hypothesis of C17 that the parameters are bound cannot be dropped. -/
theorem unquote_of_unbound (parameters : List Token) (bindings : Bindings)
    (f0 : bindings.find (param parameters 0) = none) :
    (unquote parameters bindings).2 =
      ⟨bindings.entries ++ [(param parameters 0, Node.default)]⟩ := by
  simp [unquote, Bindings.index, f0]

end Functions

namespace Heap

/-- A memory that begins with `m0` is `m0` followed by the vectors
allocated since. -/
theorem exists_append_of_take {m0 m : Memory} (h : m.take m0.length = m0) :
    ∃ t, m = m0 ++ t :=
  ⟨m.drop m0.length, by conv_lhs => rw [← List.take_append_drop m0.length m, h]⟩

namespace Node

/-- The value of an allocated object does not depend on the vectors
allocated later. -/
theorem value_of_take {n : Node} {m0 m : Memory} (ha : n.allocated m0)
    (hp : m.take m0.length = m0) : n.value m = n.value m0 := by
  obtain ⟨t, rfl⟩ := exists_append_of_take hp
  unfold value
  cases hc : n.content.children with
  | none => rfl
  | some a => simp only [hc, List.getD_append _ _ _ _ (ha a hc)]

/-- Cloning allocates: the vectors there were are as they were. -/
theorem clone_take (n : Node) (m : Memory) : (n.clone m).2.take m.length = m := by
  unfold clone
  cases n.content.children <;> simp

/-- The vector of a clone is the one the call allocated. -/
theorem clone_fresh (n : Node) (m : Memory) : (n.clone m).1.fresh m := by
  unfold clone fresh
  cases hc : n.content.children <;> simp [hc]

/-- A clone has the value of the object it was cloned from. -/
theorem clone_value (n : Node) (m : Memory) :
    (n.clone m).1.value (n.clone m).2 = n.value m := by
  unfold clone value
  cases hc : n.content.children <;> simp [hc]

/-- An assignment to an element of a vector allocated after `m0` leaves the
vectors of `m0` as they were. -/
theorem set_index_take {n : Node} {m0 m m1 : Memory} {i : Nat} {c : Sass.Node}
    (hf : n.fresh m0) (hp : m.take m0.length = m0)
    (hs : n.set_index m i c = Except.ok m1) : m1.take m0.length = m0 := by
  obtain ⟨t, rfl⟩ := exists_append_of_take hp
  unfold set_index at hs
  cases hc : n.content.children with
  | none => simp [hc] at hs
  | some a =>
    simp only [hc] at hs
    split_ifs at hs
    injection hs with hs
    subst hs
    rw [List.set_append_right _ _ (hf a hc)]
    simp

end Node

/-- Reading a bound key gives the object bound and leaves the map as it
is. -/
theorem Bindings.heap_index_of_find {b : Bindings} {k : Token} {v : Node}
    (h : b.find k = some v) : b.index k = (v, b) := by
  simp [Bindings.index, h]

/-- An object with the vector of a fresh object is fresh. -/
theorem Node.fresh_of_children {r n : Node} {m : Memory}
    (hc : r.content.children = n.content.children) (hf : n.fresh m) : r.fresh m :=
  fun a ha => hf a (hc ▸ ha)

/-- A call that hands back the map, leaves the vectors there were and
returns a fresh node leaves every bound value as it was. -/
theorem Spec.untouched_of {bindings : Bindings} {memory : Memory}
    {out : Except Exception Node × Bindings × Memory}
    (hb : out.2.1 = bindings) (hm : out.2.2.take memory.length = memory)
    (hr : ∀ r : Node, out.1 = Except.ok r → r.fresh memory) :
    Spec.untouched bindings memory out :=
  ⟨hb, hm, fun _ _ _ ha => Node.value_of_take ha hm, hr⟩

namespace Functions

/-- The built-ins that assign to fields of the clone only. -/
theorem untouched_of_field_assignment (bindings : Bindings) (memory : Memory) (n0 r : Node)
    (hc : r.content.children = (n0.clone memory).1.content.children) :
    Spec.untouched bindings memory (Except.ok r, bindings, (n0.clone memory).2) := by
  refine Spec.untouched_of rfl (Node.clone_take n0 memory) fun r2 hr => ?_
  injection hr with hr
  subst hr
  exact Node.fresh_of_children hc (Node.clone_fresh n0 memory)

/-- C17: in memory, where the copies of a node share the vector of its
children, a call to `quote`, `unquote`, `percentage`, `round`, `ceil`,
`floor` or `abs` with its parameter bound, or to `rgba_2`, `opacify` or
`transparentize` with its two parameters bound, leaves the map of bindings
and every vector allocated before the call as they were, so that every
object bound in the map has the value it had, whether the call returns or
raises; the node returned has a vector allocated by the call: the
function assigned to a clone and returned that clone. -/
theorem clone_before_assignment (parameters : List Token) (bindings : Bindings)
    (memory : Memory) (n0 : Node)
    (f0 : bindings.find (param parameters 0) = some n0) :
    Spec.untouched bindings memory (quote parameters bindings memory) ∧
    Spec.untouched bindings memory (unquote parameters bindings memory) ∧
    Spec.untouched bindings memory (percentage parameters bindings memory) ∧
    Spec.untouched bindings memory (round parameters bindings memory) ∧
    Spec.untouched bindings memory (ceil parameters bindings memory) ∧
    Spec.untouched bindings memory (floor parameters bindings memory) ∧
    Spec.untouched bindings memory (abs parameters bindings memory) ∧
    ∀ n1 : Node, bindings.find (param parameters 1) = some n1 →
      Spec.untouched bindings memory (rgba_2 parameters bindings memory) ∧
      Spec.untouched bindings memory (opacify parameters bindings memory) ∧
      Spec.untouched bindings memory (transparentize parameters bindings memory) := by
  refine ⟨?_, ?_, ?_, ?_, ?_, ?_, ?_, fun n1 f1 => ⟨?_, ?_, ?_⟩⟩
  · simp only [quote, Bindings.heap_index_of_find f0]
    exact untouched_of_field_assignment _ _ _ _ rfl
  · simp only [unquote, Bindings.heap_index_of_find f0]
    exact untouched_of_field_assignment _ _ _ _ rfl
  · simp only [percentage, Bindings.heap_index_of_find f0]
    exact untouched_of_field_assignment _ _ _ _ rfl
  · simp only [round, Bindings.heap_index_of_find f0]
    refine untouched_of_field_assignment _ _ _ _ ?_
    split_ifs <;> rfl
  · simp only [ceil, Bindings.heap_index_of_find f0]
    refine untouched_of_field_assignment _ _ _ _ ?_
    split_ifs <;> rfl
  · simp only [floor, Bindings.heap_index_of_find f0]
    refine untouched_of_field_assignment _ _ _ _ ?_
    split_ifs <;> rfl
  · simp only [abs, Bindings.heap_index_of_find f0]
    refine untouched_of_field_assignment _ _ _ _ ?_
    split_ifs <;> rfl
  · simp only [rgba_2, Bindings.heap_index_of_find f0, Bindings.heap_index_of_find f1]
    have hf := Node.clone_fresh n0 memory
    have ht := Node.clone_take n0 memory
    split
    · next m1 h1 =>
      refine Spec.untouched_of rfl (Node.set_index_take hf ht h1) fun r hr => ?_
      injection hr with hr
      subst hr
      exact hf
    · exact Spec.untouched_of rfl ht (fun r hr => by simp at hr)
  · simp only [opacify, Bindings.heap_index_of_find f0, Bindings.heap_index_of_find f1]
    have hf := Node.clone_fresh n0 memory
    have ht := Node.clone_take n0 memory
    have ok : ∀ m : Memory, m.take memory.length = memory →
        Spec.untouched bindings memory (Except.ok (n0.clone memory).1, bindings, m) :=
      fun m hm => Spec.untouched_of rfl hm fun r hr => by
        injection hr with hr
        subst hr
        exact hf
    have er : ∀ (e : Exception) (m : Memory), m.take memory.length = memory →
        Spec.untouched bindings memory (Except.error e, bindings, m) :=
      fun e m hm => Spec.untouched_of rfl hm (fun r hr => by simp at hr)
    split
    · exact er _ _ ht
    · split
      · exact er _ _ ht
      · next m1 h1 =>
        have ht1 := Node.set_index_take hf ht h1
        split
        · exact er _ _ ht1
        · split_ifs
          · split
            · exact er _ _ ht1
            · next m2 h2 => exact ok _ (Node.set_index_take hf ht1 h2)
          · exact ok _ ht1
  · simp only [transparentize, Bindings.heap_index_of_find f0,
      Bindings.heap_index_of_find f1]
    have hf := Node.clone_fresh n0 memory
    have ht := Node.clone_take n0 memory
    have ok : ∀ m : Memory, m.take memory.length = memory →
        Spec.untouched bindings memory (Except.ok (n0.clone memory).1, bindings, m) :=
      fun m hm => Spec.untouched_of rfl hm fun r hr => by
        injection hr with hr
        subst hr
        exact hf
    have er : ∀ (e : Exception) (m : Memory), m.take memory.length = memory →
        Spec.untouched bindings memory (Except.error e, bindings, m) :=
      fun e m hm => Spec.untouched_of rfl hm (fun r hr => by simp at hr)
    split
    · exact er _ _ ht
    · split
      · exact er _ _ ht
      · next m1 h1 =>
        have ht1 := Node.set_index_take hf ht h1
        split
        · exact er _ _ ht1
        · split_ifs
          · split
            · exact er _ _ ht1
            · next m2 h2 => exact ok _ (Node.set_index_take hf ht1 h2)
          · exact ok _ ht1

end Functions

/-! ### The values computed in memory are those of the value model -/

namespace Node

/-- An assignment to an element of the vector is the assignment to the
child of the value: it succeeds or fails as `Sass.Node.set_index` does on
the value of the object, and the value of the object afterwards is the
value assigned to. The object `n` may be any copy of the object the
assignment was made through. -/
theorem set_index_value (n : Node) (m : Memory) (i : Nat) (c : Sass.Node) :
    Except.map (fun m1 => n.value m1) (n.set_index m i c) = (n.value m).set_index i c := by
  unfold set_index value Sass.Node.set_index Sass.Node.size
  cases hc : n.content.children with
  | none => simp [Except.map]
  | some a =>
    simp only [Sass.Node.content_mk]
    by_cases hi : i < (m.getD a []).length
    · have ha : a < m.length := by
        by_contra hn
        rw [List.getD_eq_default _ _ (not_lt.1 hn)] at hi
        simp at hi
      have hi2 : i < (m[a]?.getD []).length := by simpa using hi
      simp [hi2, Except.map, Sass.Node.set_content, List.getElem?_set_self ha]
    · have hi2 : ¬ i < (m[a]?.getD []).length := by simpa using hi
      simp [hi2, Except.map]

/-- The value of `Node()`. -/
theorem value_default (m : Memory) : Node.default.value m = Sass.Node.default := rfl

/-- An object without a vector is allocated in any memory. -/
theorem allocated_default (m : Memory) : Node.default.allocated m := by
  intro a ha
  simp [Node.default] at ha

end Node

namespace Bindings

/-- Looking a name up in the map of values. -/
theorem values_find (b : Bindings) (m : Memory) (k : Token) :
    (b.values m).find k = (b.find k).map (fun n => n.value m) := by
  unfold values find Sass.Bindings.find
  induction b.entries with
  | nil => rfl
  | cons e es ih =>
    simp only [List.map_cons, List.find?_cons]
    by_cases h : e.1 = k
    · simp [h]
    · simpa [h] using ih

/-- The expression `bindings[k]` on the map of values. -/
theorem values_index (b : Bindings) (m : Memory) (k : Token) :
    (b.values m).index k = ((b.index k).1.value m, (b.index k).2.values m) := by
  unfold index Sass.Bindings.index
  rw [values_find]
  cases b.find k <;> simp [values, Node.value_default]

/-- The object that `bindings[k]` gives is allocated. -/
theorem allocated_index_fst {b : Bindings} {m : Memory} (hw : b.allocated m) (k : Token) :
    (b.index k).1.allocated m := by
  unfold index
  cases hf : b.find k with
  | none => exact Node.allocated_default m
  | some n =>
    unfold find at hf
    cases he : b.entries.find? (fun e => e.1 = k) with
    | none => simp [he] at hf
    | some e =>
      rw [he] at hf
      simp only [Option.map, Option.some.injEq] at hf
      subst hf
      exact hw e (List.mem_of_find?_eq_some he)

/-- The map after `bindings[k]` holds allocated objects. -/
theorem allocated_index_snd {b : Bindings} {m : Memory} (hw : b.allocated m) (k : Token) :
    (b.index k).2.allocated m := by
  unfold index
  cases b.find k with
  | some n => exact hw
  | none =>
    intro e he
    simp only [List.mem_append, List.mem_singleton] at he
    rcases he with he | he
    · exact hw e he
    · subst he
      exact Node.allocated_default m

/-- The values bound do not depend on the vectors allocated later. -/
theorem values_of_take {b : Bindings} {m0 m : Memory} (hw : b.allocated m0)
    (hp : m.take m0.length = m0) : b.values m = b.values m0 := by
  unfold values
  congr 1
  apply List.map_congr_left
  intro e he
  rw [Node.value_of_take (hw e he) hp]

end Bindings

namespace Functions

/-- A built-in that assigns to the fields of the clone and returns it
computes, in memory, what the same assignments compute on the value. -/
theorem denotes_of_field_assignment (parameters : List Token) (bindings : Bindings)
    (memory : Memory) (hw : bindings.allocated memory) (r : Node) (v : Sass.Node)
    (hv : r.value ((bindings.index (param parameters 0)).1.clone memory).2 = v) :
    Spec.denotes
      (Except.ok r, (bindings.index (param parameters 0)).2,
        ((bindings.index (param parameters 0)).1.clone memory).2)
      (Except.ok v, ((bindings.values memory).index (param parameters 0)).2) := by
  refine ⟨by simp [Except.map, hv], ?_⟩
  rw [Bindings.values_index]
  exact Bindings.values_of_take (Bindings.allocated_index_snd hw _) (Node.clone_take _ _)

/-- In memory, `quote`, `unquote`, `percentage`, `round`, `ceil`, `floor`
and `abs` compute what they compute on values. -/
theorem field_assignments_denote (parameters : List Token) (bindings : Bindings)
    (memory : Memory) (hw : bindings.allocated memory) :
    Spec.denotes (quote parameters bindings memory)
      (Sass.Functions.quote parameters (bindings.values memory)) ∧
    Spec.denotes (unquote parameters bindings memory)
      (Sass.Functions.unquote parameters (bindings.values memory)) ∧
    Spec.denotes (percentage parameters bindings memory)
      (Sass.Functions.percentage parameters (bindings.values memory)) ∧
    Spec.denotes (round parameters bindings memory)
      (Sass.Functions.round parameters (bindings.values memory)) ∧
    Spec.denotes (ceil parameters bindings memory)
      (Sass.Functions.ceil parameters (bindings.values memory)) ∧
    Spec.denotes (floor parameters bindings memory)
      (Sass.Functions.floor parameters (bindings.values memory)) ∧
    Spec.denotes (abs parameters bindings memory)
      (Sass.Functions.abs parameters (bindings.values memory)) := by
  have hc := Node.clone_value (bindings.index (param parameters 0)).1 memory
  have hi := Bindings.values_index bindings memory (param parameters 0)
  refine ⟨?_, ?_, ?_, ?_, ?_, ?_, ?_⟩
  · refine denotes_of_field_assignment parameters bindings memory hw _ _ ?_
    rw [hi, ← hc]
    rfl
  · refine denotes_of_field_assignment parameters bindings memory hw _ _ ?_
    rw [hi, ← hc]
    rfl
  · refine denotes_of_field_assignment parameters bindings memory hw _ _ ?_
    rw [hi, ← hc]
    rfl
  all_goals
    refine denotes_of_field_assignment parameters bindings memory hw _ _ ?_
    rw [hi, ← hc]
    simp only [Sass.Node.clone]
    by_cases h : ((bindings.index (param parameters 0)).1.clone memory).1.type =
        NodeType.numeric_dimension
    · have h2 : (((bindings.index (param parameters 0)).1.clone memory).1.value
          ((bindings.index (param parameters 0)).1.clone memory).2).type =
          NodeType.numeric_dimension := h
      rw [if_pos h, if_pos h2]
      rfl
    · have h2 : ¬ (((bindings.index (param parameters 0)).1.clone memory).1.value
          ((bindings.index (param parameters 0)).1.clone memory).2).type =
          NodeType.numeric_dimension := h
      rw [if_neg h, if_neg h2]
      rfl

/-- In memory, `rgba_2` computes what it computes on values. -/
theorem rgba_2_denotes (parameters : List Token) (bindings : Bindings)
    (memory : Memory) (hw : bindings.allocated memory) :
    Spec.denotes (rgba_2 parameters bindings memory)
      (Sass.Functions.rgba_2 parameters (bindings.values memory)) := by
  have hw0 := Bindings.allocated_index_snd hw (param parameters 0)
  have hw1 := Bindings.allocated_index_snd hw0 (param parameters 1)
  have ha1 := Bindings.allocated_index_fst hw0 (param parameters 1)
  have hf := Node.clone_fresh (bindings.index (param parameters 0)).1 memory
  have ht := Node.clone_take (bindings.index (param parameters 0)).1 memory
  have hc := Node.clone_value (bindings.index (param parameters 0)).1 memory
  simp only [rgba_2, Sass.Functions.rgba_2, Bindings.values_index, Sass.Node.clone,
    Node.value_of_take ha1 ht]
  rw [← hc, ← Node.set_index_value]
  cases h : ((bindings.index (param parameters 0)).1.clone memory).1.set_index
      ((bindings.index (param parameters 0)).1.clone memory).2 3
      (((bindings.index (param parameters 0)).2.index (param parameters 1)).1.value memory) with
  | error e =>
    exact ⟨rfl, Bindings.values_of_take hw1 ht⟩
  | ok m1 =>
    exact ⟨rfl, Bindings.values_of_take hw1 (Node.set_index_take hf ht h)⟩

/-- The statements of `opacify` and `transparentize` after the reads:
assigning `f` of the fourth child to it, then `z` when the result
satisfies `p`, computes in the vector of a fresh object what it computes
on the value of the object. -/
theorem assign_alpha_denotes (n : Node) (m0 m : Memory) (b : Bindings)
    (hf : n.fresh m0) (ht : m.take m0.length = m0) (hb : b.allocated m0)
    (f : ℚ → ℚ) (p : ℚ → Prop) [DecidablePred p] (z : ℚ) :
    Spec.denotes
      (match n.index m 3 with
        | Except.error e => (Except.error e, b, m)
        | Except.ok c =>
          match n.set_index m 3 (c.set_numeric_value (f c.content.numeric_value)) with
          | Except.error e => (Except.error e, b, m)
          | Except.ok memory1 =>
            match n.index memory1 3 with
            | Except.error e => (Except.error e, b, memory1)
            | Except.ok c =>
              if p c.content.numeric_value then
                match n.set_index memory1 3 (c.set_numeric_value z) with
                | Except.error e => (Except.error e, b, memory1)
                | Except.ok memory2 => (Except.ok n, b, memory2)
              else (Except.ok n, b, memory1))
      (do
        let c ← (n.value m).index 3
        let cpy ← (n.value m).set_index 3 (c.set_numeric_value (f c.content.numeric_value))
        let c ← cpy.index 3
        if p c.content.numeric_value then cpy.set_index 3 (c.set_numeric_value z)
        else pure cpy,
        b.values m0) := by
  have hv : ∀ m1 : Memory, m1.take m0.length = m0 → b.values m1 = b.values m0 :=
    fun m1 h1 => Bindings.values_of_take hb h1
  unfold Node.index
  cases h0 : (n.value m).index 3 with
  | error e => exact ⟨rfl, hv m ht⟩
  | ok c =>
    dsimp only
    have hs1 := Node.set_index_value n m 3 (c.set_numeric_value (f c.content.numeric_value))
    cases h1 : n.set_index m 3 (c.set_numeric_value (f c.content.numeric_value)) with
    | error e =>
      rw [h1] at hs1
      simp only [bind, Except.bind, ← hs1]
      exact ⟨rfl, hv m ht⟩
    | ok m1 =>
      have ht1 := Node.set_index_take hf ht h1
      rw [h1] at hs1
      simp only [bind, Except.bind, ← hs1, Except.map]
      cases h2 : (n.value m1).index 3 with
      | error e => exact ⟨rfl, hv m1 ht1⟩
      | ok c2 =>
        dsimp only
        by_cases hp : p c2.content.numeric_value
        · simp only [if_pos hp]
          have hs2 := Node.set_index_value n m1 3 (c2.set_numeric_value z)
          cases h3 : n.set_index m1 3 (c2.set_numeric_value z) with
          | error e =>
            rw [h3] at hs2
            rw [← hs2]
            exact ⟨rfl, hv m1 ht1⟩
          | ok m2 =>
            rw [h3] at hs2
            rw [← hs2]
            exact ⟨rfl, hv m2 (Node.set_index_take hf ht1 h3)⟩
        · simp only [if_neg hp]
          exact ⟨rfl, hv m1 ht1⟩

/-- In memory, `opacify` and `transparentize` compute what they compute on
values. -/
theorem opacify_denotes (parameters : List Token) (bindings : Bindings)
    (memory : Memory) (hw : bindings.allocated memory) :
    Spec.denotes (opacify parameters bindings memory)
      (Sass.Functions.opacify parameters (bindings.values memory)) ∧
    Spec.denotes (transparentize parameters bindings memory)
      (Sass.Functions.transparentize parameters (bindings.values memory)) := by
  have hw0 := Bindings.allocated_index_snd hw (param parameters 0)
  have hw1 := Bindings.allocated_index_snd hw0 (param parameters 1)
  have hf := Node.clone_fresh (bindings.index (param parameters 0)).1 memory
  have ht := Node.clone_take (bindings.index (param parameters 0)).1 memory
  have hc := Node.clone_value (bindings.index (param parameters 0)).1 memory
  constructor
  · simp only [opacify, Sass.Functions.opacify, Bindings.values_index, Sass.Node.clone]
    rw [← hc]
    exact assign_alpha_denotes _ memory _ _ hf ht hw1
      (fun x => x + ((bindings.index (param parameters 0)).2.index
        (param parameters 1)).1.content.numeric_value) (fun x => x ≥ 1) 1
  · simp only [transparentize, Sass.Functions.transparentize, Bindings.values_index,
      Sass.Node.clone]
    rw [← hc]
    exact assign_alpha_denotes _ memory _ _ hf ht hw1
      (fun x => x - ((bindings.index (param parameters 0)).2.index
        (param parameters 1)).1.content.numeric_value) (fun x => x ≤ 0) 0

end Functions

/-! ### Copies and clones -/

namespace Node

/-- An assignment through an object reaches every copy of it: the copies
are objects with the same fields, `n` itself for one, and after the
assignment the children of `n` are the children there were with `c` in
place `i`. -/
theorem set_index_reaches_copies {n : Node} {m m1 : Memory} {i : Nat} {c : Sass.Node}
    (hs : n.set_index m i c = Except.ok m1) :
    (n.value m1).content.children = (n.value m).content.children.set i c := by
  have h := set_index_value n m i c
  rw [hs] at h
  unfold Sass.Node.set_index at h
  split_ifs at h
  · simp only [Except.map, Except.ok.injEq] at h
    rw [h]
    simp [Sass.Node.set_content]
  · simp [Except.map] at h

/-- An assignment through a clone does not reach the object cloned. -/
theorem set_index_of_clone {n : Node} {m m1 : Memory} {i : Nat} {c : Sass.Node}
    (ha : n.allocated m)
    (hs : (n.clone m).1.set_index (n.clone m).2 i c = Except.ok m1) :
    n.value m1 = n.value m :=
  value_of_take ha (set_index_take (clone_fresh n m) (clone_take n m) hs)

end Node

/-- The colour bound at address 0, assigned to through a copy and through
a clone: `n[3] = 1` through a copy of the object changes the alpha of the
colour bound from `0.5` to `1`; through a clone, the assignment goes to the
vector at address 1 and the colour bound keeps its alpha. -/
theorem copy_shares_clone_does_not :
    (Example.color 0).value Example.memory = Sass.Node.of_rgba 1 10 20 30 (1 / 2) ∧
    (Example.color 0).set_index Example.memory 3 (Sass.Node.of_number 1 1) =
      Except.ok [Example.channels 1] ∧
    (Example.color 0).value [Example.channels 1] = Sass.Node.of_rgba 1 10 20 30 1 ∧
    (Example.color 0).clone Example.memory =
      (Example.color 1, [Example.channels (1 / 2), Example.channels (1 / 2)]) ∧
    (Example.color 1).set_index [Example.channels (1 / 2), Example.channels (1 / 2)] 3
        (Sass.Node.of_number 1 1) =
      Except.ok [Example.channels (1 / 2), Example.channels 1] ∧
    (Example.color 0).value [Example.channels (1 / 2), Example.channels 1] =
      Sass.Node.of_rgba 1 10 20 30 (1 / 2) ∧
    (Example.color 1).value [Example.channels (1 / 2), Example.channels 1] =
      Sass.Node.of_rgba 1 10 20 30 1 :=
  ⟨rfl, rfl, rfl, rfl, rfl, rfl, rfl⟩

namespace Functions

/-- The call `opacify(rgba(10, 20, 30, 0.5), 0.7)` in memory: the clone is
allocated at address 1, its alpha becomes `1.2` and then `1`, and the
vector at address 0, which the colour bound points to, is as it was. -/
theorem opacify_in_memory :
    opacify Sass.Functions.opacify_descriptor.parameters
        (bind_arguments Sass.Functions.opacify_descriptor.parameters
          [Example.color 0, Example.number 1 (7 / 10)]) Example.memory =
      (Except.ok (Example.color 1),
        bind_arguments Sass.Functions.opacify_descriptor.parameters
          [Example.color 0, Example.number 1 (7 / 10)],
        [Example.channels (1 / 2), Example.channels 1]) := by
  have f0 : (bind_arguments Sass.Functions.opacify_descriptor.parameters
      [Example.color 0, Example.number 1 (7 / 10)]).find
      (param Sass.Functions.opacify_descriptor.parameters 0) = some (Example.color 0) := rfl
  have f1 : (bind_arguments Sass.Functions.opacify_descriptor.parameters
      [Example.color 0, Example.number 1 (7 / 10)]).find
      (param Sass.Functions.opacify_descriptor.parameters 1) =
      some (Example.number 1 (7 / 10)) := rfl
  have hc : (Example.color 0).clone Example.memory =
      (Example.color 1, [Example.channels (1 / 2), Example.channels (1 / 2)]) := rfl
  have h1 : ∀ v : ℚ, (Example.color 1).index [Example.channels (1 / 2), Example.channels v] 3 =
      Except.ok (Sass.Node.of_number 1 v) := fun v => rfl
  have h2 : ∀ v w : ℚ, (Sass.Node.of_number 1 v).set_numeric_value w =
      Sass.Node.of_number 1 w := fun v w => rfl
  have h3 : ∀ v w : ℚ, (Example.color 1).set_index
      [Example.channels (1 / 2), Example.channels v] 3 (Sass.Node.of_number 1 w) =
      Except.ok [Example.channels (1 / 2), Example.channels w] := fun v w => rfl
  have h4 : ∀ v : ℚ, (Sass.Node.of_number 1 v).content.numeric_value = v := fun v => rfl
  have h5 : (Example.number 1 (7 / 10)).content.numeric_value = 7 / 10 := rfl
  have h6 : ((1 / 2 : ℚ) + 7 / 10) ≥ 1 := by norm_num
  simp only [opacify, Bindings.heap_index_of_find f0, Bindings.heap_index_of_find f1, hc,
    h1, h2, h3, h4, h5, if_pos h6]

/-- Witness of C17: the map binding the colour at address 0 and an amount,
and the memory holding its channels, after `opacify`, `rgba_2` and
`unquote`; the colour bound is `rgba(10, 20, 30, 0.5)` after `opacify` as
it was before. -/
theorem clone_before_assignment_witness :
    Spec.untouched
      (bind_arguments Sass.Functions.opacify_descriptor.parameters
        [Example.color 0, Example.number 1 (7 / 10)])
      Example.memory
      (opacify Sass.Functions.opacify_descriptor.parameters
        (bind_arguments Sass.Functions.opacify_descriptor.parameters
          [Example.color 0, Example.number 1 (7 / 10)]) Example.memory) ∧
    Spec.untouched
      (bind_arguments Sass.Functions.rgba_2_descriptor.parameters
        [Example.color 0, Example.number 1 (7 / 10)])
      Example.memory
      (rgba_2 Sass.Functions.rgba_2_descriptor.parameters
        (bind_arguments Sass.Functions.rgba_2_descriptor.parameters
          [Example.color 0, Example.number 1 (7 / 10)]) Example.memory) ∧
    Spec.untouched
      (bind_arguments Sass.Functions.unquote_descriptor.parameters [Example.color 0])
      Example.memory
      (unquote Sass.Functions.unquote_descriptor.parameters
        (bind_arguments Sass.Functions.unquote_descriptor.parameters [Example.color 0])
        Example.memory) ∧
    (Example.color 0).value
        (opacify Sass.Functions.opacify_descriptor.parameters
          (bind_arguments Sass.Functions.opacify_descriptor.parameters
            [Example.color 0, Example.number 1 (7 / 10)]) Example.memory).2.2 =
      Sass.Node.of_rgba 1 10 20 30 (1 / 2) :=
  ⟨((clone_before_assignment Sass.Functions.opacify_descriptor.parameters
      (bind_arguments Sass.Functions.opacify_descriptor.parameters
        [Example.color 0, Example.number 1 (7 / 10)])
      Example.memory (Example.color 0) rfl).2.2.2.2.2.2.2
      (Example.number 1 (7 / 10)) rfl).2.1,
   ((clone_before_assignment Sass.Functions.rgba_2_descriptor.parameters
      (bind_arguments Sass.Functions.rgba_2_descriptor.parameters
        [Example.color 0, Example.number 1 (7 / 10)])
      Example.memory (Example.color 0) rfl).2.2.2.2.2.2.2
      (Example.number 1 (7 / 10)) rfl).1,
   (clone_before_assignment Sass.Functions.unquote_descriptor.parameters
      (bind_arguments Sass.Functions.unquote_descriptor.parameters [Example.color 0])
      Example.memory (Example.color 0) rfl).2.1,
   (((clone_before_assignment Sass.Functions.opacify_descriptor.parameters
      (bind_arguments Sass.Functions.opacify_descriptor.parameters
        [Example.color 0, Example.number 1 (7 / 10)])
      Example.memory (Example.color 0) rfl).2.2.2.2.2.2.2
      (Example.number 1 (7 / 10)) rfl).2.1.2.2.1
      (param Sass.Functions.opacify_descriptor.parameters 0) (Example.color 0) rfl
      (fun a ha => by
        have h : a = 0 := by simpa [Example.color] using ha.symm
        subst h
        decide)).trans rfl⟩

end Functions

end Heap

namespace Functions

/-! ## C18: the hue `hsla_impl` uses -/

/-- The colour of `hsla_impl` in terms of `m1`, `m2` and the rescaled
hue. -/
theorem hsla_impl_eq (h s l a : ℚ) :
    hsla_impl h s l a =
      Node.of_rgba 0
        (h_to_rgb (hsla_m1 s l) (hsla_m2 s l) (hsla_hue h + 1 / 3) * 255)
        (h_to_rgb (hsla_m1 s l) (hsla_m2 s l) (hsla_hue h) * 255)
        (h_to_rgb (hsla_m1 s l) (hsla_m2 s l) (hsla_hue h - 1 / 3) * 255) a := rfl

/-- The `int` expression `((x % 360) + 360) % 360` of the source, with the
truncated remainder of C++, is the residue of `x` modulo 360 in
`0 .. 359`. -/
theorem tmod_wrap (x : ℤ) :
    Int.tmod (Int.tmod x 360 + 360) 360 = ((x % 360) + 360) % 360 := by
  cases x with
  | ofNat n =>
    have h1 : Int.tmod (Int.ofNat n) 360 = ((n % 360 : ℕ) : ℤ) := rfl
    rw [h1, Int.tmod_eq_emod (by omega) (by omega)]
    simp only [Int.ofNat_eq_coe]
    omega
  | negSucc n =>
    have h1 : Int.tmod (Int.negSucc n) 360 = -(((n + 1) % 360 : ℕ) : ℤ) := rfl
    rw [h1, Int.tmod_eq_emod (by omega) (by omega)]
    have h2 : Int.negSucc n = -((n : ℤ) + 1) := by
      rw [Int.negSucc_eq]
    rw [h2]
    omega

/-- The hue `hsla_impl` uses is the normalisation of the truncated hue. -/
theorem hsla_hue_eq_truncated (h : ℚ) : hsla_hue h = Spec.hue_truncated h := by
  unfold hsla_hue Spec.hue_truncated static_cast_int
  rw [tmod_wrap]

/-- The hue `hsla_impl` uses lies in `[0, 1)`. -/
theorem hsla_hue_range (h : ℚ) : 0 ≤ hsla_hue h ∧ hsla_hue h < 1 := by
  rw [hsla_hue_eq_truncated]
  unfold Spec.hue_truncated
  have h1 : (0 : ℤ) ≤ (((if 0 ≤ h then ⌊h⌋ else ⌈h⌉) % 360) + 360) % 360 := by omega
  have h2 : (((if 0 ≤ h then ⌊h⌋ else ⌈h⌉) % 360) + 360) % 360 < (360 : ℤ) := by omega
  have h3 : (0 : ℚ) ≤ (((((if 0 ≤ h then ⌊h⌋ else ⌈h⌉) % 360) + 360) % 360 : ℤ) : ℚ) := by
    exact_mod_cast h1
  have h4 : (((((if 0 ≤ h then ⌊h⌋ else ⌈h⌉) % 360) + 360) % 360 : ℤ) : ℚ) < 360 := by
    exact_mod_cast h2
  constructor
  · positivity
  · rw [div_lt_one (by norm_num)]
    exact h4

/-- C18, amended: the hue `hsla_impl` uses for a hue `h` is
`(((trunc(h) mod 360) + 360) mod 360) / 360` with `trunc(h)` the integer
part of `h` toward zero, a value in `[0, 1)`; it is the floor-based
expression of the specification whenever `h` is not negative or is an
integer. -/
theorem hsla_hue_truncates (h s l a : ℚ) :
    hsla_hue h = Spec.hue_truncated h ∧
    hsla_impl h s l a =
      Node.of_rgba 0
        (h_to_rgb (hsla_m1 s l) (hsla_m2 s l) (Spec.hue_truncated h + 1 / 3) * 255)
        (h_to_rgb (hsla_m1 s l) (hsla_m2 s l) (Spec.hue_truncated h) * 255)
        (h_to_rgb (hsla_m1 s l) (hsla_m2 s l) (Spec.hue_truncated h - 1 / 3) * 255) a ∧
    0 ≤ hsla_hue h ∧ hsla_hue h < 1 ∧
    (0 ≤ h ∨ ((⌊h⌋ : ℤ) : ℚ) = h → hsla_hue h = Spec.hue h) := by
  refine ⟨hsla_hue_eq_truncated h, ?_, (hsla_hue_range h).1, (hsla_hue_range h).2, ?_⟩
  · rw [hsla_impl_eq, hsla_hue_eq_truncated]
  · intro hh
    rw [hsla_hue_eq_truncated]
    unfold Spec.hue_truncated Spec.hue
    rcases hh with hh | hh
    · rw [if_pos hh]
    · have hc : ⌈h⌉ = ⌊h⌋ := by
        rw [← hh, Int.ceil_intCast, Int.floor_intCast]
      split_ifs
      · rfl
      · rw [hc]

/-- Counterexample to C18 as stated: for the hue `-0.5` the specification's
floor-based expression is `359/360`, while `hsla_impl` uses the hue 0, so
that `hsla(-0.5, 100, 50, 1)` is the colour `(255, 0, 0)` of hue 0. -/
theorem hsla_hue_negative_half :
    Spec.hue (-1 / 2) = 359 / 360 ∧
    hsla_hue (-1 / 2) = 0 ∧
    hsla_hue (-1 / 2) ≠ Spec.hue (-1 / 2) ∧
    hsla_impl (-1 / 2) 100 50 1 = Node.of_rgba 0 255 0 0 1 := by
  have hf : ⌊(-1 / 2 : ℚ)⌋ = -1 := by
    rw [Int.floor_eq_iff]; norm_num
  have hc : ⌈(-1 / 2 : ℚ)⌉ = 0 := by
    rw [Int.ceil_eq_iff]; norm_num
  have e1 : Spec.hue (-1 / 2) = 359 / 360 := by
    unfold Spec.hue
    rw [hf]
    norm_num
  have e2 : hsla_hue (-1 / 2) = 0 := by
    rw [hsla_hue_eq_truncated]
    unfold Spec.hue_truncated
    rw [if_neg (by norm_num), hc]
    norm_num
  refine ⟨e1, e2, ?_, ?_⟩
  · rw [e1, e2]; norm_num
  · simp only [hsla_impl, e2]
    norm_num [h_to_rgb]

/-! ## C19: the channels of `hsla_impl` -/

/-- For `m1 ≤ m2` and an argument of at least `-1`, which `h_to_rgb` wraps
to a value that is not negative, the result lies between `m1` and `m2`. -/
theorem h_to_rgb_between (m1 m2 t : ℚ) (hm : m1 ≤ m2) (h0 : -1 ≤ t) :
    m1 ≤ h_to_rgb m1 m2 t ∧ h_to_rgb m1 m2 t ≤ m2 := by
  have hd : 0 ≤ m2 - m1 := by linarith
  unfold h_to_rgb
  by_cases ha : t < 0
  · have hb : ¬ (t + 1 > 1) := by linarith
    simp only [if_pos ha, if_neg hb]
    split_ifs with c1 c2 c3
    · constructor
      · nlinarith [mul_nonneg hd (by linarith : (0 : ℚ) ≤ t + 1)]
      · nlinarith [mul_nonneg hd (by linarith : (0 : ℚ) ≤ 1 - (t + 1) * 6)]
    · exact ⟨hm, le_refl _⟩
    · constructor
      · nlinarith [mul_nonneg hd (by linarith : (0 : ℚ) ≤ 2 / 3 - (t + 1))]
      · nlinarith [mul_nonneg hd (by linarith : (0 : ℚ) ≤ 1 - (2 / 3 - (t + 1)) * 6)]
    · exact ⟨le_refl _, hm⟩
  · simp only [if_neg ha]
    by_cases hb : t > 1
    · simp only [if_pos hb]
      split_ifs with c1 c2 c3
      · constructor
        · nlinarith [mul_nonneg hd (by linarith : (0 : ℚ) ≤ t - 1)]
        · nlinarith [mul_nonneg hd (by linarith : (0 : ℚ) ≤ 1 - (t - 1) * 6)]
      · exact ⟨hm, le_refl _⟩
      · constructor
        · nlinarith [mul_nonneg hd (by linarith : (0 : ℚ) ≤ 2 / 3 - (t - 1))]
        · nlinarith [mul_nonneg hd (by linarith : (0 : ℚ) ≤ 1 - (2 / 3 - (t - 1)) * 6)]
      · exact ⟨le_refl _, hm⟩
    · simp only [if_neg hb]
      split_ifs with c1 c2 c3
      · constructor
        · nlinarith [mul_nonneg hd (by linarith : (0 : ℚ) ≤ t)]
        · nlinarith [mul_nonneg hd (by linarith : (0 : ℚ) ≤ 1 - t * 6)]
      · exact ⟨hm, le_refl _⟩
      · constructor
        · nlinarith [mul_nonneg hd (by linarith : (0 : ℚ) ≤ 2 / 3 - t)]
        · nlinarith [mul_nonneg hd (by linarith : (0 : ℚ) ≤ 1 - (2 / 3 - t) * 6)]
      · exact ⟨le_refl _, hm⟩

/-- For saturation and lightness in `[0, 100]`, `0 ≤ m1 ≤ m2 ≤ 1`. -/
theorem hsla_m_bounds (s l : ℚ) (hs0 : 0 ≤ s) (hs1 : s ≤ 100) (hl0 : 0 ≤ l) (hl1 : l ≤ 100) :
    0 ≤ hsla_m1 s l ∧ hsla_m1 s l ≤ hsla_m2 s l ∧ hsla_m2 s l ≤ 1 := by
  have a0 : 0 ≤ s / 100 := by positivity
  have a1 : s / 100 ≤ 1 := by
    rw [div_le_one (by norm_num)]; exact hs1
  have b0 : 0 ≤ l / 100 := by positivity
  have b1 : l / 100 ≤ 1 := by
    rw [div_le_one (by norm_num)]; exact hl1
  unfold hsla_m1 hsla_m2
  generalize s / 100 = x at a0 a1
  generalize l / 100 = y at b0 b1
  split_ifs with c
  · refine ⟨?_, ?_, ?_⟩
    · nlinarith [mul_nonneg b0 (by linarith : (0 : ℚ) ≤ 1 - x)]
    · nlinarith [mul_nonneg b0 a0]
    · nlinarith [mul_nonneg b0 (by linarith : (0 : ℚ) ≤ 1 - x)]
  · have c2 : 1 / 2 < y := not_le.mp c
    refine ⟨?_, ?_, ?_⟩
    · nlinarith [mul_nonneg (by linarith : (0 : ℚ) ≤ 1 - y) (by linarith : (0 : ℚ) ≤ 1 - x)]
    · nlinarith [mul_nonneg (by linarith : (0 : ℚ) ≤ 1 - y) a0]
    · nlinarith [mul_nonneg (by linarith : (0 : ℚ) ≤ 1 - y) (by linarith : (0 : ℚ) ≤ 1 - x)]

/-- C19: for every hue `h`, saturation and lightness in `[0, 100]` and
alpha `a`, the colour `hsla_impl(h, s, l, a)` has its r, g and b channels in
`[0, 255]` and its alpha equal to `a`: `0 ≤ m1 ≤ m2 ≤ 1`, and each of the
three values of `h_to_rgb` lies between `m1` and `m2`. -/
theorem hsla_channels_in_range (h s l a : ℚ)
    (hs0 : 0 ≤ s) (hs1 : s ≤ 100) (hl0 : 0 ≤ l) (hl1 : l ≤ 100) :
    ∃ r g b : ℚ, hsla_impl h s l a = Node.of_rgba 0 r g b a ∧
      (hsla_impl h s l a).content.children =
        [Node.of_number 0 r, Node.of_number 0 g, Node.of_number 0 b, Node.of_number 0 a] ∧
      0 ≤ r ∧ r ≤ 255 ∧ 0 ≤ g ∧ g ≤ 255 ∧ 0 ≤ b ∧ b ≤ 255 ∧
      0 ≤ hsla_m1 s l ∧ hsla_m1 s l ≤ hsla_m2 s l ∧ hsla_m2 s l ≤ 1 ∧
      r = h_to_rgb (hsla_m1 s l) (hsla_m2 s l) (hsla_hue h + 1 / 3) * 255 ∧
      g = h_to_rgb (hsla_m1 s l) (hsla_m2 s l) (hsla_hue h) * 255 ∧
      b = h_to_rgb (hsla_m1 s l) (hsla_m2 s l) (hsla_hue h - 1 / 3) * 255 ∧
      hsla_m1 s l ≤ h_to_rgb (hsla_m1 s l) (hsla_m2 s l) (hsla_hue h + 1 / 3) ∧
      h_to_rgb (hsla_m1 s l) (hsla_m2 s l) (hsla_hue h + 1 / 3) ≤ hsla_m2 s l ∧
      hsla_m1 s l ≤ h_to_rgb (hsla_m1 s l) (hsla_m2 s l) (hsla_hue h) ∧
      h_to_rgb (hsla_m1 s l) (hsla_m2 s l) (hsla_hue h) ≤ hsla_m2 s l ∧
      hsla_m1 s l ≤ h_to_rgb (hsla_m1 s l) (hsla_m2 s l) (hsla_hue h - 1 / 3) ∧
      h_to_rgb (hsla_m1 s l) (hsla_m2 s l) (hsla_hue h - 1 / 3) ≤ hsla_m2 s l := by
  obtain ⟨m0, m12, m2⟩ := hsla_m_bounds s l hs0 hs1 hl0 hl1
  obtain ⟨u0, u1⟩ := hsla_hue_range h
  obtain ⟨r0, r1⟩ := h_to_rgb_between (hsla_m1 s l) (hsla_m2 s l) (hsla_hue h + 1 / 3) m12
    (by linarith)
  obtain ⟨g0, g1⟩ := h_to_rgb_between (hsla_m1 s l) (hsla_m2 s l) (hsla_hue h) m12
    (by linarith)
  obtain ⟨b0, b1⟩ := h_to_rgb_between (hsla_m1 s l) (hsla_m2 s l) (hsla_hue h - 1 / 3) m12
    (by linarith)
  refine ⟨_, _, _, hsla_impl_eq h s l a, ?_, ?_, ?_, ?_, ?_, ?_, ?_, m0, m12, m2,
    rfl, rfl, rfl, r0, r1, g0, g1, b0, b1⟩
  · rw [hsla_impl_eq]; rfl
  all_goals nlinarith

/-- Witness of C19: `hsla_impl(-30, 50, 25, 1/2)`. -/
theorem hsla_channels_in_range_witness :
    (0 : ℚ) ≤ 50 ∧ (50 : ℚ) ≤ 100 ∧ (0 : ℚ) ≤ 25 ∧ (25 : ℚ) ≤ 100 ∧
    ∃ r g b : ℚ, hsla_impl (-30) 50 25 (1 / 2) = Node.of_rgba 0 r g b (1 / 2) ∧
      0 ≤ r ∧ r ≤ 255 ∧ 0 ≤ g ∧ g ≤ 255 ∧ 0 ≤ b ∧ b ≤ 255 := by
  obtain ⟨r, g, b, h1, _, h2, h3, h4, h5, h6, h7, _⟩ :=
    hsla_channels_in_range (-30) 50 25 (1 / 2) (by norm_num) (by norm_num) (by norm_num)
      (by norm_num)
  exact ⟨by norm_num, by norm_num, by norm_num, by norm_num, r, g, b, h1, h2, h3, h4, h5,
    h6, h7⟩

/-! ## C20: the weight endpoints of `mix` -/

/-- At weight 100 the first colour has weight 1, whatever the alphas. -/
theorem mix_w1_hundred (a : ℚ) : mix_w1 100 a = 1 := by
  unfold mix_w1
  have e : (2 * (100 / 100) - 1 : ℚ) = 1 := by norm_num
  rw [e]
  by_cases h : (1 : ℚ) * a = -1
  · rw [if_pos h]; norm_num
  · rw [if_neg h]
    have hne : (1 : ℚ) + 1 * a ≠ 0 := by
      intro h2; apply h; linarith
    have e2 : ((1 : ℚ) + a) / (1 + 1 * a) = 1 := by
      rw [one_mul] at hne ⊢
      exact div_self hne
    rw [e2]; norm_num

/-- At weight 0 the first colour has weight 0, whatever the alphas. -/
theorem mix_w1_zero (a : ℚ) : mix_w1 0 a = 0 := by
  unfold mix_w1
  have e : (2 * (0 / 100) - 1 : ℚ) = -1 := by norm_num
  rw [e]
  by_cases h : (-1 : ℚ) * a = -1
  · rw [if_pos h]; norm_num
  · rw [if_neg h]
    have hne : (1 : ℚ) + -1 * a ≠ 0 := by
      intro h2; apply h; linarith
    have e2 : ((-1 : ℚ) + a) / (1 + -1 * a) = -1 := by
      rw [div_eq_iff hne]; ring
    rw [e2]; norm_num

/-- C20: for all colours `c1` and `c2`, whatever their alphas (the case
`w * a = -1` of the guard included), `mix(c1, c2, 100)` has the r, g, b and
alpha magnitudes of `c1` and `mix(c1, c2, 0)` those of `c2`. -/
theorem mix_endpoints (parameters : List Token) (bindings : Bindings)
    (c1 c2 weight r1 g1 b1 a1 r2 g2 b2 a2 : Node)
    (f0 : bindings.find (param parameters 0) = some c1)
    (f1 : bindings.find (param parameters 1) = some c2)
    (f2 : bindings.find (param parameters 2) = some weight)
    (t1 : c1.type = NodeType.numeric_color) (t2 : c2.type = NodeType.numeric_color)
    (h1 : c1.content.children = [r1, g1, b1, a1])
    (h2 : c2.content.children = [r2, g2, b2, a2])
    (hn : Spec.numeric weight) :
    (weight.numeric_value = 100 →
      (mix_3 parameters bindings).1 =
        Except.ok (Node.of_rgba c1.line_number r1.content.numeric_value
          g1.content.numeric_value b1.content.numeric_value a1.content.numeric_value)) ∧
    (weight.numeric_value = 0 →
      (mix_3 parameters bindings).1 =
        Except.ok (Node.of_rgba c1.line_number r2.content.numeric_value
          g2.content.numeric_value b2.content.numeric_value a2.content.numeric_value)) := by
  have hn2 : weight.type = NodeType.number ∨ weight.type = NodeType.numeric_percentage
      ∨ weight.type = NodeType.numeric_dimension := hn
  simp only [mix_3, Bindings.index_of_find f0, Bindings.index_of_find f1,
    Bindings.index_of_find f2]
  rw [if_neg (not_not.mpr hn2)]
  constructor
  · intro hw
    rw [hw, mix_impl_of_children 100 t1 t2 h1 h2]
    simp only [mixed_color, mix_w1_hundred]
    congr 2 <;> ring
  · intro hw
    rw [hw, mix_impl_of_children 0 t1 t2 h1 h2]
    simp only [mixed_color, mix_w1_zero]
    congr 2 <;> ring

/-- Witness of C20: at weight 100 with alphas 0 and 1, and at weight 0 with
alphas 1 and 0, the product `w * a` is `-1` and the guard of `w1` is taken;
the mix is the first colour, respectively the second. -/
theorem mix_endpoints_witness :
    (mix_3 mix_3_descriptor.parameters (bind_arguments mix_3_descriptor.parameters
        [Node.of_rgba 5 10 20 30 0, Node.of_rgba 5 200 100 50 1, Node.of_number 5 100])).1 =
      Except.ok (Node.of_rgba 5 10 20 30 0) ∧
    (mix_3 mix_3_descriptor.parameters (bind_arguments mix_3_descriptor.parameters
        [Node.of_rgba 5 10 20 30 1, Node.of_rgba 5 200 100 50 0, Node.of_number 5 0])).1 =
      Except.ok (Node.of_rgba 5 200 100 50 0) :=
  ⟨(mix_endpoints mix_3_descriptor.parameters (bind_arguments mix_3_descriptor.parameters
        [Node.of_rgba 5 10 20 30 0, Node.of_rgba 5 200 100 50 1, Node.of_number 5 100])
      (Node.of_rgba 5 10 20 30 0) (Node.of_rgba 5 200 100 50 1) (Node.of_number 5 100)
      (Node.of_number 5 10) (Node.of_number 5 20) (Node.of_number 5 30) (Node.of_number 5 0)
      (Node.of_number 5 200) (Node.of_number 5 100) (Node.of_number 5 50) (Node.of_number 5 1)
      rfl rfl rfl rfl rfl rfl rfl (Or.inl rfl)).1 rfl,
   (mix_endpoints mix_3_descriptor.parameters (bind_arguments mix_3_descriptor.parameters
        [Node.of_rgba 5 10 20 30 1, Node.of_rgba 5 200 100 50 0, Node.of_number 5 0])
      (Node.of_rgba 5 10 20 30 1) (Node.of_rgba 5 200 100 50 0) (Node.of_number 5 0)
      (Node.of_number 5 10) (Node.of_number 5 20) (Node.of_number 5 30) (Node.of_number 5 1)
      (Node.of_number 5 200) (Node.of_number 5 100) (Node.of_number 5 50) (Node.of_number 5 0)
      rfl rfl rfl rfl rfl rfl rfl (Or.inl rfl)).2 rfl⟩

/-! ## C21: swapping the colours of a mix -/

/-- Swapping the colours negates the difference of the alphas, and the
complement of the weight negates `w`: the weight of the first colour
becomes that of the second, also when `w * a = -1` and the guard is
taken. -/
theorem mix_w1_swap (t a : ℚ) : mix_w1 (100 - t) (-a) = 1 - mix_w1 t a := by
  unfold mix_w1
  have e : (2 * ((100 - t) / 100) - 1 : ℚ) = -(2 * (t / 100) - 1) := by ring
  rw [e]
  generalize 2 * (t / 100) - 1 = w
  have e2 : -w * -a = w * a := by ring
  rw [e2]
  by_cases h : w * a = -1
  · rw [if_pos h, if_pos h]; ring
  · rw [if_neg h, if_neg h]
    have hne : (1 : ℚ) + w * a ≠ 0 := by
      intro h2; apply h; linarith
    field_simp
    ring

/-- C21: for all colours `c1`, `c2` and every weight `t`, `mix(c1, c2, t)`
and `mix(c2, c1, 100 - t)` return colours with the same r, g, b and alpha
magnitudes, also when `w * a = -1` and the guard branch of `w1` is taken;
so do `mix(c1, c2)` and `mix(c2, c1)` at the default weight. -/
theorem mix_swap (parameters : List Token) (bindings swapped : Bindings)
    (c1 c2 weight complement r1 g1 b1 a1 r2 g2 b2 a2 : Node)
    (f0 : bindings.find (param parameters 0) = some c1)
    (f1 : bindings.find (param parameters 1) = some c2)
    (f2 : bindings.find (param parameters 2) = some weight)
    (s0 : swapped.find (param parameters 0) = some c2)
    (s1 : swapped.find (param parameters 1) = some c1)
    (s2 : swapped.find (param parameters 2) = some complement)
    (t1 : c1.type = NodeType.numeric_color) (t2 : c2.type = NodeType.numeric_color)
    (h1 : c1.content.children = [r1, g1, b1, a1])
    (h2 : c2.content.children = [r2, g2, b2, a2])
    (hn : Spec.numeric weight) (hc : Spec.numeric complement)
    (hw : complement.numeric_value = 100 - weight.numeric_value) :
    (∃ r g b al : ℚ,
      (mix_3 parameters bindings).1 = Except.ok (Node.of_rgba c1.line_number r g b al) ∧
      (mix_3 parameters swapped).1 = Except.ok (Node.of_rgba c2.line_number r g b al)) ∧
    (∃ r g b al : ℚ,
      (mix_2 parameters bindings).1 = Except.ok (Node.of_rgba c1.line_number r g b al) ∧
      (mix_2 parameters swapped).1 = Except.ok (Node.of_rgba c2.line_number r g b al)) := by
  have hn2 : weight.type = NodeType.number ∨ weight.type = NodeType.numeric_percentage
      ∨ weight.type = NodeType.numeric_dimension := hn
  have hc2 : complement.type = NodeType.number ∨ complement.type = NodeType.numeric_percentage
      ∨ complement.type = NodeType.numeric_dimension := hc
  have key : ∀ t : ℚ,
      mixed_color c2.line_number (100 - t)
        r2.content.numeric_value g2.content.numeric_value b2.content.numeric_value
        a2.content.numeric_value
        r1.content.numeric_value g1.content.numeric_value b1.content.numeric_value
        a1.content.numeric_value =
      Node.of_rgba c2.line_number
        (mix_w1 t (a1.content.numeric_value - a2.content.numeric_value)
            * r1.content.numeric_value
          + (1 - mix_w1 t (a1.content.numeric_value - a2.content.numeric_value))
            * r2.content.numeric_value)
        (mix_w1 t (a1.content.numeric_value - a2.content.numeric_value)
            * g1.content.numeric_value
          + (1 - mix_w1 t (a1.content.numeric_value - a2.content.numeric_value))
            * g2.content.numeric_value)
        (mix_w1 t (a1.content.numeric_value - a2.content.numeric_value)
            * b1.content.numeric_value
          + (1 - mix_w1 t (a1.content.numeric_value - a2.content.numeric_value))
            * b2.content.numeric_value)
        (a1.content.numeric_value * (t / 100)
          + a2.content.numeric_value * (1 - t / 100)) := by
    intro t
    have e : a2.content.numeric_value - a1.content.numeric_value
        = -(a1.content.numeric_value - a2.content.numeric_value) := by ring
    simp only [mixed_color, e, mix_w1_swap]
    congr 1 <;> ring
  have hA : (mix_3 parameters bindings).1 =
      Except.ok (mixed_color c1.line_number weight.numeric_value
        r1.content.numeric_value g1.content.numeric_value b1.content.numeric_value
        a1.content.numeric_value
        r2.content.numeric_value g2.content.numeric_value b2.content.numeric_value
        a2.content.numeric_value) := by
    simp only [mix_3, Bindings.index_of_find f0, Bindings.index_of_find f1,
      Bindings.index_of_find f2]
    rw [if_neg (not_not.mpr hn2), mix_impl_of_children _ t1 t2 h1 h2]
  have hB : (mix_3 parameters swapped).1 =
      Except.ok (mixed_color c2.line_number (100 - weight.numeric_value)
        r2.content.numeric_value g2.content.numeric_value b2.content.numeric_value
        a2.content.numeric_value
        r1.content.numeric_value g1.content.numeric_value b1.content.numeric_value
        a1.content.numeric_value) := by
    simp only [mix_3, Bindings.index_of_find s0, Bindings.index_of_find s1,
      Bindings.index_of_find s2]
    rw [if_neg (not_not.mpr hc2), mix_impl_of_children _ t2 t1 h2 h1, hw]
  have hC : (mix_2 parameters bindings).1 =
      Except.ok (mixed_color c1.line_number 50
        r1.content.numeric_value g1.content.numeric_value b1.content.numeric_value
        a1.content.numeric_value
        r2.content.numeric_value g2.content.numeric_value b2.content.numeric_value
        a2.content.numeric_value) := by
    simp only [mix_2, Bindings.index_of_find f0, Bindings.index_of_find f1]
    rw [mix_impl_of_children _ t1 t2 h1 h2]
  have hD : (mix_2 parameters swapped).1 =
      Except.ok (mixed_color c2.line_number (100 - 50)
        r2.content.numeric_value g2.content.numeric_value b2.content.numeric_value
        a2.content.numeric_value
        r1.content.numeric_value g1.content.numeric_value b1.content.numeric_value
        a1.content.numeric_value) := by
    simp only [mix_2, Bindings.index_of_find s0, Bindings.index_of_find s1]
    rw [mix_impl_of_children _ t2 t1 h2 h1]
    norm_num
  rw [key] at hB hD
  exact ⟨⟨_, _, _, _, hA, hB⟩, ⟨_, _, _, _, hC, hD⟩⟩

/-- Witness of C21: at weight 100 with alphas 0 and 1 the product `w * a`
is `-1`, so the guard of `w1` is taken in `mix(c1, c2, 100)` and in
`mix(c2, c1, 0)`; the two colours have the same magnitudes. -/
theorem mix_swap_witness :
    ((2 * ((100 : ℚ) / 100) - 1) * (0 - 1) = -1) ∧
    ∃ r g b al : ℚ,
      (mix_3 mix_3_descriptor.parameters (bind_arguments mix_3_descriptor.parameters
          [Node.of_rgba 5 10 20 30 0, Node.of_rgba 7 200 100 50 1,
            Node.of_number 5 100])).1 = Except.ok (Node.of_rgba 5 r g b al) ∧
      (mix_3 mix_3_descriptor.parameters (bind_arguments mix_3_descriptor.parameters
          [Node.of_rgba 7 200 100 50 1, Node.of_rgba 5 10 20 30 0,
            Node.of_number 5 0])).1 = Except.ok (Node.of_rgba 7 r g b al) :=
  ⟨by norm_num,
    (mix_swap mix_3_descriptor.parameters
      (bind_arguments mix_3_descriptor.parameters
        [Node.of_rgba 5 10 20 30 0, Node.of_rgba 7 200 100 50 1, Node.of_number 5 100])
      (bind_arguments mix_3_descriptor.parameters
        [Node.of_rgba 7 200 100 50 1, Node.of_rgba 5 10 20 30 0, Node.of_number 5 0])
      (Node.of_rgba 5 10 20 30 0) (Node.of_rgba 7 200 100 50 1)
      (Node.of_number 5 100) (Node.of_number 5 0)
      (Node.of_number 5 10) (Node.of_number 5 20) (Node.of_number 5 30) (Node.of_number 5 0)
      (Node.of_number 7 200) (Node.of_number 7 100) (Node.of_number 7 50) (Node.of_number 7 1)
      rfl rfl rfl rfl rfl rfl rfl rfl rfl rfl (Or.inl rfl) (Or.inl rfl)
      (by norm_num [Node.numeric_value, Node.of_number, Node.empty_content])).1⟩

/-! ## C22: the two-argument join is associative -/

/-- What `join_2` returns when its two operands are bound. -/
theorem join_2_of_find {parameters : List Token} {bindings : Bindings} {a b : Node}
    (ha : bindings.find (param parameters 0) = some a)
    (hb : bindings.find (param parameters 1) = some b) :
    (join_2 parameters bindings).1 = Except.ok (joined a b) := by
  unfold join_2
  rw [join_impl_of_find false ha hb]
  by_cases h : a.type = NodeType.nil ∧ b.type = NodeType.nil <;>
    simp [joined, join_type, h]

/-- The separator of an operand is one of the two list tags. -/
theorem separator_cases (v : Node) :
    Spec.separator v = NodeType.space_list ∨ Spec.separator v = NodeType.comma_list := by
  unfold Spec.separator; split_ifs <;> simp

/-- The join of two operands is nil exactly when both are. -/
theorem joined_nil (a b : Node) :
    (joined a b).type = NodeType.nil ↔ a.type = NodeType.nil ∧ b.type = NodeType.nil := by
  unfold joined
  by_cases h : a.type = NodeType.nil ∧ b.type = NodeType.nil
  · simp [h, Node.of_type]
  · simp only [if_neg h, Node.type_mk]
    constructor
    · intro h2
      split_ifs at h2
      · exact absurd h2 (separator_ne_nil a)
      · exact absurd h2 (separator_ne_nil b)
    · intro h2; exact absurd h2 h

/-- The join is on the line of its first operand. -/
theorem joined_line (a b : Node) : (joined a b).line_number = a.line_number := by
  unfold joined; split_ifs <;> simp [Node.of_type]

/-- The elements of a join are those of the first operand followed by those
of the second. -/
theorem joined_elements (a b : Node) :
    Spec.elements (joined a b) = Spec.elements a ++ Spec.elements b := by
  unfold joined
  by_cases h : a.type = NodeType.nil ∧ b.type = NodeType.nil
  · simp [h, Spec.elements, Node.of_type]
  · rw [if_neg h]
    have ht : ∀ t : NodeType, t = NodeType.space_list ∨ t = NodeType.comma_list →
        Spec.elements (Node.mk t a.line_number none false
          { Node.empty_content with children := Spec.elements a ++ Spec.elements b })
          = Spec.elements a ++ Spec.elements b := by
      intro t h2
      simp [Spec.elements, h2]
    split_ifs
    · exact ht _ (separator_cases a)
    · exact ht _ (separator_cases b)

/-- The separator of a join that is not nil is that of the first operand
that is not nil. -/
theorem joined_separator (a b : Node)
    (h : ¬(a.type = NodeType.nil ∧ b.type = NodeType.nil)) :
    Spec.separator (joined a b) =
      if a.type ≠ NodeType.nil then Spec.separator a else Spec.separator b := by
  unfold joined
  rw [if_neg h]
  have ht : ∀ t : NodeType, t = NodeType.space_list ∨ t = NodeType.comma_list →
      Spec.separator (Node.mk t a.line_number none false
        { Node.empty_content with children := Spec.elements a ++ Spec.elements b }) = t := by
    intro t h2
    rcases h2 with h2 | h2 <;> simp [Spec.separator, h2]
  split_ifs
  · exact ht _ (separator_cases a)
  · exact ht _ (separator_cases b)

/-- The definition of `joined`, for rewriting one occurrence. -/
theorem joined_eq (a b : Node) :
    joined a b =
      if a.type = NodeType.nil ∧ b.type = NodeType.nil then
        Node.of_type NodeType.nil a.line_number
      else
        Node.mk (if a.type ≠ NodeType.nil then Spec.separator a else Spec.separator b)
          a.line_number none false
          { Node.empty_content with children := Spec.elements a ++ Spec.elements b } := rfl

/-- The value the two-argument `join` computes is associative. -/
theorem joined_assoc (a b c : Node) : joined (joined a b) c = joined a (joined b c) := by
  have e1 : joined (joined a b) c =
      if (a.type = NodeType.nil ∧ b.type = NodeType.nil) ∧ c.type = NodeType.nil then
        Node.of_type NodeType.nil a.line_number
      else
        Node.mk
          (if ¬(a.type = NodeType.nil ∧ b.type = NodeType.nil) then
            (if a.type ≠ NodeType.nil then Spec.separator a else Spec.separator b)
          else Spec.separator c)
          a.line_number none false
          { Node.empty_content with
            children := (Spec.elements a ++ Spec.elements b) ++ Spec.elements c } := by
    rw [joined_eq (joined a b) c]
    simp only [joined_nil, joined_line, joined_elements]
    by_cases h : a.type = NodeType.nil ∧ b.type = NodeType.nil
    · simp [h, joined_nil]
    · simp [h, joined_separator a b h, joined_nil]
  have e2 : joined a (joined b c) =
      if a.type = NodeType.nil ∧ (b.type = NodeType.nil ∧ c.type = NodeType.nil) then
        Node.of_type NodeType.nil a.line_number
      else
        Node.mk
          (if a.type ≠ NodeType.nil then Spec.separator a
          else (if b.type ≠ NodeType.nil then Spec.separator b else Spec.separator c))
          a.line_number none false
          { Node.empty_content with
            children := Spec.elements a ++ (Spec.elements b ++ Spec.elements c) } := by
    rw [joined_eq a (joined b c)]
    simp only [joined_nil, joined_elements]
    by_cases h : b.type = NodeType.nil ∧ c.type = NodeType.nil
    · by_cases h0 : a.type = NodeType.nil
      · simp [h, h0]
      · simp [h, h0]
    · by_cases h0 : a.type = NodeType.nil
      · simp [h, h0, joined_separator b c h]
      · simp [h, h0]
  rw [e1, e2]
  by_cases ha : a.type = NodeType.nil <;> by_cases hb : b.type = NodeType.nil <;>
    by_cases hc : c.type = NodeType.nil <;> simp [ha, hb, hc, List.append_assoc]

/-- The tag and the children of a join that is not nil. -/
theorem joined_list (a b : Node) (h : ¬(a.type = NodeType.nil ∧ b.type = NodeType.nil)) :
    (joined a b).type =
        (if a.type ≠ NodeType.nil then Spec.separator a else Spec.separator b) ∧
      (joined a b).content.children = Spec.elements a ++ Spec.elements b := by
  rw [joined_eq, if_neg h]
  exact ⟨rfl, rfl⟩

/-- C22: the two-argument `join` is associative with nil as identity. For
all values `a`, `b`, `c`, `join(join(a, b), c)` and `join(a, join(b, c))`
return the same node: nil when the three are nil, and otherwise the list of
the elements of `a`, `b`, `c` in order with the separator of the first of
them that is not nil. For a list `l` and a nil value, `join(nil, l)` and
`join(l, nil)` have the elements and the separator of `l`. -/
theorem join_associative (parameters : List Token) (ab bc : Bindings) (a b c : Node)
    (f1 : ab.find (param parameters 0) = some a)
    (f2 : ab.find (param parameters 1) = some b)
    (f3 : bc.find (param parameters 0) = some b)
    (f4 : bc.find (param parameters 1) = some c) :
    (∃ x y r : Node,
      (join_2 parameters ab).1 = Except.ok x ∧
      (join_2 parameters bc).1 = Except.ok y ∧
      (∀ left right : Bindings,
        left.find (param parameters 0) = some x → left.find (param parameters 1) = some c →
        right.find (param parameters 0) = some a → right.find (param parameters 1) = some y →
        (join_2 parameters left).1 = Except.ok r ∧
        (join_2 parameters right).1 = Except.ok r) ∧
      (a.type = NodeType.nil ∧ b.type = NodeType.nil ∧ c.type = NodeType.nil →
        r.type = NodeType.nil) ∧
      (¬(a.type = NodeType.nil ∧ b.type = NodeType.nil ∧ c.type = NodeType.nil) →
        (r.type = NodeType.space_list ∨ r.type = NodeType.comma_list) ∧
        r.content.children = Spec.elements a ++ Spec.elements b ++ Spec.elements c ∧
        r.type =
          (if a.type ≠ NodeType.nil then Spec.separator a
          else if b.type ≠ NodeType.nil then Spec.separator b
          else Spec.separator c))) ∧
    (∀ (n l : Node) (nl ln : Bindings),
      n.type = NodeType.nil → l.type = NodeType.space_list ∨ l.type = NodeType.comma_list →
      nl.find (param parameters 0) = some n → nl.find (param parameters 1) = some l →
      ln.find (param parameters 0) = some l → ln.find (param parameters 1) = some n →
      ∃ r1 r2 : Node,
        (join_2 parameters nl).1 = Except.ok r1 ∧
        (join_2 parameters ln).1 = Except.ok r2 ∧
        r1.type = l.type ∧ r1.content.children = l.content.children ∧
        r2.type = l.type ∧ r2.content.children = l.content.children) := by
  constructor
  · refine ⟨joined a b, joined b c, joined (joined a b) c, join_2_of_find f1 f2,
      join_2_of_find f3 f4, ?_, ?_, ?_⟩
    · intro left right g1 g2 g3 g4
      refine ⟨join_2_of_find g1 g2, ?_⟩
      rw [join_2_of_find g3 g4, joined_assoc]
    · rintro ⟨ha, hb, hc⟩
      exact (joined_nil _ _).2 ⟨(joined_nil _ _).2 ⟨ha, hb⟩, hc⟩
    · intro h
      have hx : ¬((joined a b).type = NodeType.nil ∧ c.type = NodeType.nil) := by
        rintro ⟨h1, h2⟩
        exact h ⟨((joined_nil _ _).1 h1).1, ((joined_nil _ _).1 h1).2, h2⟩
      obtain ⟨ht, hch⟩ := joined_list (joined a b) c hx
      have hty : (joined (joined a b) c).type =
          (if a.type ≠ NodeType.nil then Spec.separator a
          else if b.type ≠ NodeType.nil then Spec.separator b
          else Spec.separator c) := by
        rw [ht]
        by_cases hab : a.type = NodeType.nil ∧ b.type = NodeType.nil
        · have hn : ¬ (joined a b).type ≠ NodeType.nil :=
            not_not.mpr ((joined_nil _ _).2 hab)
          rw [if_neg hn]
          simp [hab.1, hab.2]
        · have hn : (joined a b).type ≠ NodeType.nil := fun h1 => hab ((joined_nil _ _).1 h1)
          rw [if_pos hn, joined_separator a b hab]
          by_cases ha : a.type = NodeType.nil
          · have hb : b.type ≠ NodeType.nil := fun hb => hab ⟨ha, hb⟩
            simp [ha, hb]
          · simp [ha]
      refine ⟨?_, ?_, hty⟩
      · rw [hty]
        split_ifs
        · exact separator_cases a
        · exact separator_cases b
        · exact separator_cases c
      · rw [hch, joined_elements]
  · intro n l nl ln hn hl g1 g2 g3 g4
    have h1 : ¬(n.type = NodeType.nil ∧ l.type = NodeType.nil) := by
      rintro ⟨_, h⟩
      rcases hl with hl | hl <;> rw [hl] at h <;> cases h
    have h2 : ¬(l.type = NodeType.nil ∧ n.type = NodeType.nil) := fun h => h1 ⟨h.2, h.1⟩
    have hs : Spec.separator l = l.type := by
      rcases hl with hl | hl <;> simp [Spec.separator, hl]
    have he : Spec.elements l = l.content.children := by
      simp [Spec.elements, hl]
    have hne : l.type ≠ NodeType.nil := fun h => h1 ⟨hn, h⟩
    refine ⟨joined n l, joined l n, join_2_of_find g1 g2, join_2_of_find g3 g4, ?_, ?_, ?_, ?_⟩
    · rw [(joined_list n l h1).1]; simp [hn, hs]
    · rw [(joined_list n l h1).2]; simp [elements_nil n hn, he]
    · rw [(joined_list l n h2).1]; simp [hne, hs]
    · rw [(joined_list l n h2).2]; simp [elements_nil n hn, he]

/-- Witness of C22: with `a` the scalar `1`, `b` nil and `c` the comma-list
`(2, 3)`, both `join(join(a, b), c)` and `join(a, join(b, c))` are the
space-list `1 2 3`. -/
theorem join_associative_witness :
    ∃ x y r : Node,
      (join_2 join_2_descriptor.parameters (bind_arguments join_2_descriptor.parameters
          [Node.of_number 6 1, Example.nil 6])).1 = Except.ok x ∧
      (join_2 join_2_descriptor.parameters (bind_arguments join_2_descriptor.parameters
          [Example.nil 6, Example.list NodeType.comma_list 6
            [Node.of_number 6 2, Node.of_number 6 3]])).1 = Except.ok y ∧
      (join_2 join_2_descriptor.parameters (bind_arguments join_2_descriptor.parameters
          [x, Example.list NodeType.comma_list 6
            [Node.of_number 6 2, Node.of_number 6 3]])).1 = Except.ok r ∧
      (join_2 join_2_descriptor.parameters (bind_arguments join_2_descriptor.parameters
          [Node.of_number 6 1, y])).1 = Except.ok r ∧
      r.type = NodeType.space_list ∧
      r.content.children = [Node.of_number 6 1, Node.of_number 6 2, Node.of_number 6 3] := by
  obtain ⟨x, y, r, hx, hy, hall, _, hlist⟩ :=
    (join_associative join_2_descriptor.parameters
      (bind_arguments join_2_descriptor.parameters [Node.of_number 6 1, Example.nil 6])
      (bind_arguments join_2_descriptor.parameters
        [Example.nil 6, Example.list NodeType.comma_list 6
          [Node.of_number 6 2, Node.of_number 6 3]])
      (Node.of_number 6 1) (Example.nil 6)
      (Example.list NodeType.comma_list 6 [Node.of_number 6 2, Node.of_number 6 3])
      rfl rfl rfl rfl).1
  obtain ⟨h1, h2⟩ := hall
    (bind_arguments join_2_descriptor.parameters
      [x, Example.list NodeType.comma_list 6 [Node.of_number 6 2, Node.of_number 6 3]])
    (bind_arguments join_2_descriptor.parameters [Node.of_number 6 1, y])
    rfl rfl rfl rfl
  obtain ⟨_, h3, h4⟩ := hlist (by decide)
  refine ⟨x, y, r, hx, hy, h1, h2, ?_, ?_⟩
  · rw [h4]; rfl
  · rw [h3]; rfl

end Functions

end Sass
